import Mathlib

/-!
# The telemetry log of the fusor display program

A shallow embedding of `display.c`: the log file (header, index array, payload
heap), one pass of the loop of `get_live_data_thread`, the navigation keys of
`display_handler`, the header check of the start-up code, `read_data_part2`,
`generate_test_file` and the layout of `file_hdr_t`.

Conventions of the embedding

* A buffer or the file is a map from byte offsets to byte values, without an
  end: a copy that runs past the end of a C buffer is kept like any other.
* The mapped index array `file_data_part1` is a map from slot numbers to
  records; a store into a slot at or beyond `MAX_FILE_DATA_PART1` is kept, so
  that a store outside the preallocated array stays observable.
* Everything the operating system decides (the counts returned by `recv`,
  `pwrite` and `pread`, the received bytes, the timer and the camera slot) is
  an explicit input.
* The counters `file_hdr->max` and `file_idx_global` are kept as unbounded
  numbers: they are 32 bits wide and a wrap-around would need 2^31 committed
  records, so none is modelled for them.  The signed/unsigned comparison of the
  right-arrow keys and the 64-bit subtraction of the camera freshness test are
  modelled explicitly.
* Floating-point values are never computed: the measurement members of an index
  record are raw bit patterns, and those that `generate_test_file` stores are
  inputs.
-/

namespace Fusor

/-! ## Constants and types of display.c -/

/-- The macro `MAGIC_FILE`. -/
def MAGIC_FILE : Nat := 0x1122334455667788

/-- The macro `MAX_FILE_DATA_PART1` (one day of one-second records). -/
def MAX_FILE_DATA_PART1 : Nat := 86400

/-- The macro `MAX_DATA_PART2_LENGTH`. -/
def MAX_DATA_PART2_LENGTH : Nat := 1000000

/-- Declarations of `common.h`, a header that is not among the sources: the two
record magics, the two structure sizes and the position of the `jpeg_buff_len`
field inside `struct data_part2_s`.  They are a parameter of the embedding. The
`magic` field of `struct data_part2_s` is its first member (8 bytes) and
`jpeg_buff` is the flexible array that follows the fixed part. -/
structure Common where
  MAGIC_DATA_PART1 : Nat
  MAGIC_DATA_PART2 : Nat
  sizeof_data_part1_s : Nat
  sizeof_data_part2_s : Nat
  offsetof_jpeg_buff_len : Nat
deriving DecidableEq

/-- Modelled from the spec: `struct data_part1_s` of the missing `common.h`, the
fixed-size index record, with the members that `display.c` names.  The six
measurement members are floats that the log only copies; they are kept as raw
bit patterns.  `data_part2_offset` is as wide as the `off_t` that is assigned to
it, and `data_part2_length` is a non-negative length. -/
structure data_part1_s where
  magic : Nat
  time : Nat
  voltage_mean_kv : Nat
  voltage_min_kv : Nat
  voltage_max_kv : Nat
  current_ma : Nat
  pressure_d2_mtorr : Nat
  pressure_n2_mtorr : Nat
  data_part2_offset : Nat
  data_part2_length : Nat
  data_part2_jpeg_buff_valid : Bool
  data_part2_voltage_adc_samples_mv_valid : Bool
  data_part2_current_adc_samples_mv_valid : Bool
  data_part2_pressure_adc_samples_mv_valid : Bool
deriving DecidableEq

/-- The all-zero record found in a slot of a freshly truncated file. -/
def data_part1_zero : data_part1_s :=
  ⟨0, 0, 0, 0, 0, 0, 0, 0, 0, 0, false, false, false, false⟩

/-- A byte buffer (or the file): byte value at each offset. -/
abbrev Bytes := Nat → Nat

/-- A zero-filled buffer, as returned by `calloc`. -/
def zeros : Bytes := fun _ => 0

/-- The effect of `memcpy(dst + doff, src, n)`. -/
def memcpy (dst : Bytes) (doff : Nat) (src : Bytes) (n : Nat) : Bytes :=
  fun i => if doff ≤ i ∧ i < doff + n then src (i - doff) else dst i

/-- A little-endian `uint64_t` load at offset `off`. -/
def get_u64 (b : Bytes) (off : Nat) : Nat :=
  b off + 256 * (b (off + 1) + 256 * (b (off + 2) + 256 * (b (off + 3) +
    256 * (b (off + 4) + 256 * (b (off + 5) + 256 * (b (off + 6) + 256 * b (off + 7)))))))

/-- A little-endian 32-bit store of `v` at offset `off`. -/
def put_u32 (b : Bytes) (off v : Nat) : Bytes :=
  fun i => if off ≤ i ∧ i < off + 4 then (v / 256 ^ (i - off)) % 256 else b i

/-- The little-endian bytes of a 64-bit value, as a buffer. -/
def u64_bytes (v : Nat) : Bytes := fun i => if i < 8 then (v / 256 ^ i) % 256 else 0

/-- The enumeration `enum mode`. -/
inductive mode_t where
  | LIVE
  | PLAYBACK
  | TEST
deriving DecidableEq

/-- The enumeration `enum get_live_data_state`. -/
inductive live_state_t where
  | STATE_INACTIVE
  | STATE_ACTIVE
  | STATE_ERROR
deriving DecidableEq

/-- The structure `file_hdr_t` (the reserved bytes carry no information). -/
structure file_hdr_t where
  magic : Nat
  start_time : Nat
  max : Nat
deriving DecidableEq

/-- The macro `FILE_DATA_PART2_OFFSET`, with `~0xfffL` as the 64-bit mask. -/
def FILE_DATA_PART2_OFFSET (c : Common) : Nat :=
  (4096 + c.sizeof_data_part1_s * MAX_FILE_DATA_PART1 + 0x1000) &&& 0xfffffffffffff000

/-- The globals of `display.c` that the log uses, the file behind `file_fd`, and
the locals of `get_live_data_thread` that live across loop passes. -/
structure State where
  mode : mode_t
  get_live_data_state : live_state_t
  opt_no_cam : Bool
  file_hdr : file_hdr_t
  file_data_part1 : Nat → data_part1_s
  file_idx_global : Int
  file_bytes : Bytes
  file_size : Nat
  offset : Nat
  last_time : Nat
  data_part2 : Bytes

/-- What the environment supplies during one pass of the ingestion loop: the
results of the two `recv` calls, the timer, the camera slot as seen under
`jpeg_mutex`, and the result of `pwrite`. -/
structure Iter where
  recv1_len : Int
  recv1 : data_part1_s
  recv2_len : Int
  recv2 : Bytes
  microsec_timer : Nat
  jpeg_buff : Bytes
  jpeg_buff_len : Nat
  jpeg_buff_us : Nat
  pwrite_len : Int

/-- The reason why a pass of the loop executed `break`. -/
inductive loop_exit where
  | file_is_full
  | recv_data_part1_len
  | data_part1_bad_magic
  | data_part2_length_too_big
  | recv_data_part2_len
  | data_part2_bad_magic
  | write_data_part2_len
deriving DecidableEq

/-- The result of one pass of the loop: the state, whether the pass ended in
`break`, and whether the time warning was printed. -/
structure Pass where
  state : State
  exit : Option loop_exit
  warn : Bool

/-! ## get_live_data_thread -/

/-- The second `recv`: the delivered bytes land at the start of `data_part2`. -/
def recv_data_part2 (s : State) (e : Iter) (count : Nat) : State :=
  { s with data_part2 := memcpy s.data_part2 0 e.recv2 (min e.recv2_len.toNat count) }

/-- Lines 561-573: add the locally captured camera image when the message has none. -/
def merge_cam (c : Common) (e : Iter) (d : data_part1_s) (b : Bytes) : data_part1_s × Bytes :=
  if d.data_part2_jpeg_buff_valid = false then
    if (e.microsec_timer + 2 ^ 64 - e.jpeg_buff_us) % 2 ^ 64 < 1000000 then
      ({ d with data_part2_jpeg_buff_valid := true,
                data_part2_length := c.sizeof_data_part2_s + e.jpeg_buff_len },
       put_u32 (memcpy b c.sizeof_data_part2_s e.jpeg_buff e.jpeg_buff_len)
         c.offsetof_jpeg_buff_len e.jpeg_buff_len)
    else (d, b)
  else (d, b)

/-- Lines 575-580: discard camera data when `opt_no_cam` is set. -/
def strip_cam (c : Common) (no_cam : Bool) (d : data_part1_s) (b : Bytes) : data_part1_s × Bytes :=
  if no_cam then
    ({ d with data_part2_jpeg_buff_valid := false, data_part2_length := c.sizeof_data_part2_s },
     put_u32 b c.offsetof_jpeg_buff_len 0)
  else (d, b)

/-- Line 593: `file_data_part1[file_hdr->max] = data_part1`. -/
def store_data_part1 (s : State) (d : data_part1_s) : State :=
  { s with file_data_part1 := fun i => if i = s.file_hdr.max then d else s.file_data_part1 i }

/-- The call `pwrite(file_fd, buf, count, off)` returning `ret`: the bytes that were
transferred land in the file, which grows when they reach past its end. -/
def pwrite (s : State) (buf : Bytes) (count off : Nat) (ret : Int) : State :=
  { s with file_bytes := memcpy s.file_bytes off buf (min ret.toNat count),
           file_size := if min ret.toNat count = 0 then s.file_size
                        else max s.file_size (off + min ret.toNat count) }

/-- Line 604: `file_hdr->max++`. -/
def commit (s : State) : State :=
  { s with file_hdr := { s.file_hdr with max := s.file_hdr.max + 1 } }

/-- Lines 605-607: in live mode the cursor follows the newest record. -/
def follow (s : State) : State :=
  if s.mode = mode_t.LIVE then { s with file_idx_global := (s.file_hdr.max : Int) - 1 } else s

/-- Line 600: `offset += data_part1.data_part2_length`. -/
def advance (s : State) (n : Nat) : State :=
  { s with offset := s.offset + n }

/-- Lines 521-559 of a pass: the full-file test, the two `recv` calls and the checks
on what they delivered.  The result is the state (only the receive buffer changes)
and the reason of the `break`, if one was executed. -/
def loop_receive (c : Common) (s : State) (e : Iter) : State × Option loop_exit :=
  if (MAX_FILE_DATA_PART1 : Int) ≤ s.file_idx_global then
    (s, some loop_exit.file_is_full)
  else if e.recv1_len ≠ (c.sizeof_data_part1_s : Int) then
    (s, some loop_exit.recv_data_part1_len)
  else if e.recv1.magic ≠ c.MAGIC_DATA_PART1 then
    (s, some loop_exit.data_part1_bad_magic)
  else if MAX_DATA_PART2_LENGTH < e.recv1.data_part2_length then
    (s, some loop_exit.data_part2_length_too_big)
  else if e.recv2_len ≠ (e.recv1.data_part2_length : Int) then
    (recv_data_part2 s e e.recv1.data_part2_length, some loop_exit.recv_data_part2_len)
  else if get_u64 (recv_data_part2 s e e.recv1.data_part2_length).data_part2 0
      ≠ c.MAGIC_DATA_PART2 then
    (recv_data_part2 s e e.recv1.data_part2_length, some loop_exit.data_part2_bad_magic)
  else
    (recv_data_part2 s e e.recv1.data_part2_length, none)

/-- Lines 561-590 of a pass: the index record as it is stored, after the camera merge,
the `opt_no_cam` strip and the assignment of `data_part2_offset`; `s` is the state
after the receive part. -/
def loop_record (c : Common) (s : State) (e : Iter) : data_part1_s :=
  { (strip_cam c s.opt_no_cam (merge_cam c e e.recv1 s.data_part2).1
      (merge_cam c e e.recv1 s.data_part2).2).1 with data_part2_offset := s.offset }

/-- Lines 561-580 of a pass: the payload buffer after the camera merge and strip. -/
def loop_payload (c : Common) (s : State) (e : Iter) : Bytes :=
  (strip_cam c s.opt_no_cam (merge_cam c e e.recv1 s.data_part2).1
    (merge_cam c e e.recv1 s.data_part2).2).2

/-- Lines 582-586 of a pass: whether the time warning is printed. -/
def loop_warn (c : Common) (s : State) (e : Iter) : Bool :=
  decide (s.last_time ≠ 2 ^ 64 - 1 ∧ (loop_record c s e).time ≠ s.last_time + 1)

/-- Lines 592-607 of a pass: the store into the index slot, `pwrite`, and, when the
write was complete, the advance of `offset`, the increment of `file_hdr->max` and the
update of `file_idx_global`. -/
def loop_write (s : State) (d : data_part1_s) (pwrite_len : Int) : State × Option loop_exit :=
  if pwrite_len ≠ (d.data_part2_length : Int) then
    (pwrite (store_data_part1 s d) s.data_part2 d.data_part2_length s.offset pwrite_len,
      some loop_exit.write_data_part2_len)
  else
    (follow (commit (advance
      (pwrite (store_data_part1 s d) s.data_part2 d.data_part2_length s.offset pwrite_len)
      d.data_part2_length)), none)

/-- The state in which the write part of a pass starts: the payload buffer holds the
merged payload and `last_time` the time of the record (line 587). -/
def loop_ready (c : Common) (s : State) (e : Iter) : State :=
  { s with data_part2 := loop_payload c s e, last_time := (loop_record c s e).time }

/-- One pass of the `while (true)` loop of `get_live_data_thread` (lines 521-627). -/
def loop_pass (c : Common) (s : State) (e : Iter) : Pass :=
  match loop_receive c s e with
  | (s1, some x) => ⟨s1, some x, false⟩
  | (s1, none) =>
    ⟨(loop_write (loop_ready c s1 e) (loop_record c s1 e) e.pwrite_len).1,
     (loop_write (loop_ready c s1 e) (loop_record c s1 e) e.pwrite_len).2,
     loop_warn c s1 e⟩

/-- Lines 629-635: what the thread does after leaving the loop. -/
def thread_exit (s : State) : State :=
  { s with get_live_data_state := live_state_t.STATE_ERROR, mode := mode_t.PLAYBACK }

/-- Lines 501-518: the thread's initialisation of its locals and of the state flag. -/
def thread_start (c : Common) (s : State) : State :=
  { s with offset := FILE_DATA_PART2_OFFSET c, last_time := 2 ^ 64 - 1, data_part2 := zeros,
           get_live_data_state := live_state_t.STATE_ACTIVE }

/-- One pass of the loop followed, when the pass ended in `break`, by the exit code. -/
def thread_step (c : Common) (s : State) (e : Iter) : State :=
  if (loop_pass c s e).exit.isSome then thread_exit (loop_pass c s e).state
  else (loop_pass c s e).state

/-- The loop of `get_live_data_thread` over the stream of messages: it runs until a
pass ends in `break` (then the exit code runs) or the stream is used up. -/
def get_live_data_loop (c : Common) (s : State) : List Iter → State
  | [] => s
  | e :: es =>
    if (loop_pass c s e).exit.isSome then thread_exit (loop_pass c s e).state
    else get_live_data_loop c (loop_pass c s e).state es

/-- The function `get_live_data_thread`. -/
def get_live_data_thread (c : Common) (s : State) (es : List Iter) : State :=
  get_live_data_loop c (thread_start c s) es

/-- The successive states of the thread over a stream of messages: the state after
each pass, the last one followed by the exit code when the pass ended in `break`. -/
def get_live_data_states (c : Common) (s : State) : List Iter → List State
  | [] => []
  | e :: es =>
    if (loop_pass c s e).exit.isSome then [thread_exit (loop_pass c s e).state]
    else (loop_pass c s e).state :: get_live_data_states c (loop_pass c s e).state es

/-- The states that the write part of a pass goes through, store by store: after
the store into the index slot, after `pwrite`, and, when the write was complete, after
the advance of `offset`, after `file_hdr->max++` and after the update of
`file_idx_global`. -/
def loop_write_trace (s : State) (d : data_part1_s) (pwrite_len : Int) : List State :=
  if pwrite_len ≠ (d.data_part2_length : Int) then
    [store_data_part1 s d,
     pwrite (store_data_part1 s d) s.data_part2 d.data_part2_length s.offset pwrite_len]
  else
    [store_data_part1 s d,
     pwrite (store_data_part1 s d) s.data_part2 d.data_part2_length s.offset pwrite_len,
     advance (pwrite (store_data_part1 s d) s.data_part2 d.data_part2_length s.offset pwrite_len)
       d.data_part2_length,
     commit (advance
       (pwrite (store_data_part1 s d) s.data_part2 d.data_part2_length s.offset pwrite_len)
       d.data_part2_length),
     follow (commit (advance
       (pwrite (store_data_part1 s d) s.data_part2 d.data_part2_length s.offset pwrite_len)
       d.data_part2_length))]

/-- The states that one pass of the loop goes through: the state at the top of the
pass, the state after the receive part and, when the message passed the checks, the
state in which the write part starts followed by the states of the write part. -/
def loop_pass_trace (c : Common) (s : State) (e : Iter) : List State :=
  match loop_receive c s e with
  | (s1, some _) => [s, s1]
  | (s1, none) =>
    s :: s1 :: loop_ready c s1 e ::
      loop_write_trace (loop_ready c s1 e) (loop_record c s1 e) e.pwrite_len

/-! ## display_handler: navigation keys -/

/-- The navigation keys handled in lines 826-862. -/
inductive nav_event where
  | KEY_LEFT_ARROW
  | KEY_CTRL_LEFT_ARROW
  | KEY_ALT_LEFT_ARROW
  | KEY_RIGHT_ARROW
  | KEY_CTRL_RIGHT_ARROW
  | KEY_ALT_RIGHT_ARROW
  | KEY_HOME
  | KEY_END
deriving DecidableEq

/-- The mode chosen when the cursor is put on the newest record (lines 849 and 861). -/
def edge_mode (s : State) : mode_t :=
  if s.get_live_data_state = live_state_t.STATE_ACTIVE then mode_t.LIVE else mode_t.PLAYBACK

/-- The left-arrow cases (lines 826-838) with step `k`. -/
def nav_left (s : State) (k : Int) : State :=
  { s with file_idx_global := if s.file_idx_global - k < 0 then 0 else s.file_idx_global - k,
           mode := mode_t.PLAYBACK }

/-- The right-arrow cases (lines 839-854) with step `k`.  The test `x >= file_hdr->max`
compares an `int32_t` with a `uint32_t`, so a negative `x` counts as large. -/
def nav_right (s : State) (k : Int) : State :=
  if s.file_idx_global + k < 0 ∨ (s.file_hdr.max : Int) ≤ s.file_idx_global + k then
    { s with file_idx_global := (s.file_hdr.max : Int) - 1, mode := edge_mode s }
  else
    { s with file_idx_global := s.file_idx_global + k, mode := mode_t.PLAYBACK }

/-- The effect of one navigation key in `display_handler`. -/
def display_handler_event (s : State) : nav_event → State
  | nav_event.KEY_LEFT_ARROW => nav_left s 1
  | nav_event.KEY_CTRL_LEFT_ARROW => nav_left s 10
  | nav_event.KEY_ALT_LEFT_ARROW => nav_left s 60
  | nav_event.KEY_RIGHT_ARROW => nav_right s 1
  | nav_event.KEY_CTRL_RIGHT_ARROW => nav_right s 10
  | nav_event.KEY_ALT_RIGHT_ARROW => nav_right s 60
  | nav_event.KEY_HOME => { s with file_idx_global := 0, mode := mode_t.PLAYBACK }
  | nav_event.KEY_END => { s with file_idx_global := (s.file_hdr.max : Int) - 1, mode := edge_mode s }

/-! ## Start-up: file creation and the header check -/

/-- The state after the start-up code has created the file in live mode (lines
232-234 and 324-353): header with `MAGIC_FILE` and `max = 0`, file truncated to
`FILE_DATA_PART2_OFFSET`, all slots zero, `mode = LIVE`, `file_idx_global = -1`. -/
def created (c : Common) (no_cam : Bool) : State :=
  { mode := mode_t.LIVE
    get_live_data_state := live_state_t.STATE_INACTIVE
    opt_no_cam := no_cam
    file_hdr := ⟨MAGIC_FILE, 0, 0⟩
    file_data_part1 := fun _ => data_part1_zero
    file_idx_global := -1
    file_bytes := zeros
    file_size := FILE_DATA_PART2_OFFSET c
    offset := 0
    last_time := 0
    data_part2 := zeros }

/-- Lines 393-400: the test that lets the start-up code go on past the header. -/
def file_hdr_ok (h : file_hdr_t) : Bool :=
  !(h.magic != MAGIC_FILE || decide (MAX_FILE_DATA_PART1 < h.max))

/-- What the environment decides during the live-mode part of the start-up code
(lines 408-466): address lookup, socket, connect, thread creation and whether the
first record arrived within five seconds. -/
structure live_setup where
  getsockaddr_ret : Int
  socket_ret : Int
  connect_ret : Int
  pthread_create_ret : Int
  first_data_in_time : Bool

/-- The return value of the start-up code from the header check on (lines 393-481),
for a file that has been opened and mapped. -/
def initialize_from_hdr (c : Common) (m : mode_t) (h : file_hdr_t)
    (part1 : Nat → data_part1_s) (env : live_setup) : Int :=
  if file_hdr_ok h = false then -1
  else if m = mode_t.LIVE ∧ env.getsockaddr_ret < 0 then -1
  else if m = mode_t.LIVE ∧ env.socket_ret = -1 then -1
  else if m = mode_t.LIVE ∧ env.connect_ret < 0 then -1
  else if m = mode_t.LIVE ∧ env.pthread_create_ret ≠ 0 then -1
  else if m = mode_t.LIVE ∧ env.first_data_in_time = false then -1
  else if m = mode_t.PLAYBACK ∧ (part1 0).magic ≠ c.MAGIC_DATA_PART1 then -1
  else 0

/-! ## read_data_part2 and the fetch of the displayed record -/

/-- The function-static variables of `read_data_part2`. -/
structure Reader where
  last_read_file_idx : Int
  last_read_data_part2 : Bytes

/-- The statics before the first call (the buffer is allocated zero-filled). -/
def Reader.init : Reader := ⟨-1, zeros⟩

/-- The outcome of `read_data_part2`: `NULL`, a call of `FATAL`, or the pointer to
the static buffer, given by the buffer contents at return. -/
inductive dp2_ret where
  | NULL
  | FATAL
  | data (b : Bytes)

/-- The function `read_data_part2`; `pread_len` is the value returned by `pread`. -/
def read_data_part2 (c : Common) (s : State) (r : Reader) (file_idx : Int) (pread_len : Int) :
    dp2_ret × Reader :=
  if file_idx = r.last_read_file_idx then (dp2_ret.data r.last_read_data_part2, r)
  else if (s.file_data_part1 file_idx.toNat).data_part2_length = 0 ∨
      (s.file_data_part1 file_idx.toNat).data_part2_offset = 0 then (dp2_ret.NULL, r)
  else
    let dp2_length := (s.file_data_part1 file_idx.toNat).data_part2_length
    let dp2_offset := (s.file_data_part1 file_idx.toNat).data_part2_offset
    let buf := memcpy r.last_read_data_part2 0 (fun i => s.file_bytes (dp2_offset + i))
      (min pread_len.toNat dp2_length)
    if pread_len ≠ (dp2_length : Int) then (dp2_ret.NULL, { r with last_read_data_part2 := buf })
    else if get_u64 buf 0 ≠ c.MAGIC_DATA_PART2 then
      (dp2_ret.FATAL, { r with last_read_data_part2 := buf })
    else (dp2_ret.data buf, ⟨file_idx, buf⟩)

/-- The outcome of fetching the record to display. -/
inductive fetch_ret where
  | FATAL_invalid_file_idx
  | FATAL_data_part2_magic
  | record (d : data_part1_s) (dp2 : Option Bytes)

/-- The read path of `display_handler` for index `file_idx`: the check at the top of
the display loop (lines 723-731), then the record `file_data_part1[file_idx]` and
`read_data_part2(file_idx)` as the drawing code obtains them (lines 1144-1145). -/
def display_handler_fetch (c : Common) (s : State) (r : Reader) (file_idx : Int)
    (pread_len : Int) : fetch_ret × Reader :=
  if file_idx < 0 ∨ (s.file_hdr.max : Int) ≤ file_idx ∨
      (s.file_data_part1 file_idx.toNat).magic ≠ c.MAGIC_DATA_PART1 then
    (fetch_ret.FATAL_invalid_file_idx, r)
  else
    match read_data_part2 c s r file_idx pread_len with
    | (dp2_ret.NULL, r1) => (fetch_ret.record (s.file_data_part1 file_idx.toNat) none, r1)
    | (dp2_ret.FATAL, r1) => (fetch_ret.FATAL_data_part2_magic, r1)
    | (dp2_ret.data b, r1) => (fetch_ret.record (s.file_data_part1 file_idx.toNat) (some b), r1)

/-! ## Reachable states -/

/-- The states reached from a freshly created log, after the ingestion thread has
started, by passes of the ingestion loop (while the thread is alive) and by
navigation keys, in any order. -/
inductive Reachable (c : Common) : State → Prop where
  | start (no_cam : Bool) : Reachable c (thread_start c (created c no_cam))
  | pass (s : State) (e : Iter) : Reachable c s →
      s.get_live_data_state = live_state_t.STATE_ACTIVE → Reachable c (thread_step c s e)
  | nav (s : State) (k : nav_event) : Reachable c s → Reachable c (display_handler_event s k)

/-! ## Well-formed parameters and sample data -/

/-- The conditions on the declarations of `common.h` under which the program is
meaningful: the magics are 64-bit values, the `jpeg_buff_len` field lies inside the
fixed part of `struct data_part2_s` behind the magic, the fixed part fits into the
payload buffers, and the index record has a positive 32-bit size. -/
def Common.wf (c : Common) : Prop :=
  c.MAGIC_DATA_PART1 < 2 ^ 64 ∧ c.MAGIC_DATA_PART2 < 2 ^ 64 ∧
  8 ≤ c.offsetof_jpeg_buff_len ∧ c.offsetof_jpeg_buff_len + 4 ≤ c.sizeof_data_part2_s ∧
  c.sizeof_data_part2_s ≤ MAX_DATA_PART2_LENGTH ∧
  0 < c.sizeof_data_part1_s ∧ c.sizeof_data_part1_s < 2 ^ 32

instance (c : Common) : Decidable c.wf := by
  unfold Common.wf; infer_instance

/-- A sample instance of the parameter: a 96-byte index record and a payload whose
fixed part is the magic followed by `jpeg_buff_len`. -/
def common_sample : Common :=
  { MAGIC_DATA_PART1 := 0xaabbccdd55aa55aa
    MAGIC_DATA_PART2 := 0x77777777aaaaaaaa
    sizeof_data_part1_s := 96
    sizeof_data_part2_s := 16
    offsetof_jpeg_buff_len := 8 }

/-- A message that passes every check of the loop: a full index frame with the right
magic and time `t`, no image, and a payload that is the fixed part of
`struct data_part2_s` with the right magic and zero samples; the camera slot is stale
and `pwrite` writes everything. -/
def msg_ok (c : Common) (t : Nat) : Iter :=
  { recv1_len := c.sizeof_data_part1_s
    recv1 := { data_part1_zero with
      magic := c.MAGIC_DATA_PART1, time := t, data_part2_length := c.sizeof_data_part2_s }
    recv2_len := c.sizeof_data_part2_s
    recv2 := u64_bytes c.MAGIC_DATA_PART2
    microsec_timer := 2000000
    jpeg_buff := zeros
    jpeg_buff_len := 0
    jpeg_buff_us := 0
    pwrite_len := c.sizeof_data_part2_s }

/-- The state after the thread has started on a freshly created log, camera enabled. -/
def fresh (c : Common) : State := thread_start c (created c false)

/-- The log after a live session has ingested `n` well-formed messages, with the
consecutive times `0, 1, ..., n - 1`, on a freshly created file. -/
def ingested (c : Common) (n : Nat) : State :=
  get_live_data_thread c (created c false) ((List.range n).map (msg_ok c))

/-- The end of the payload of the newest committed record, or the start of the payload
heap when nothing is committed. -/
def heap_tail (c : Common) (s : State) : Nat :=
  if s.file_hdr.max = 0 then FILE_DATA_PART2_OFFSET c
  else (s.file_data_part1 (s.file_hdr.max - 1)).data_part2_offset +
    (s.file_data_part1 (s.file_hdr.max - 1)).data_part2_length

/-- The invariant of the log that the ingestion thread maintains: committed payloads
are laid out back to back from `FILE_DATA_PART2_OFFSET`, the thread's `offset` is the
end of the last one, every committed record carries `MAGIC_DATA_PART1`, every
committed payload ends at or before `offset`, and the file reaches up to `offset`. -/
structure LogInv (c : Common) (s : State) : Prop where
  contiguous : ∀ i, i + 1 < s.file_hdr.max →
    (s.file_data_part1 (i + 1)).data_part2_offset =
      (s.file_data_part1 i).data_part2_offset + (s.file_data_part1 i).data_part2_length
  first : 0 < s.file_hdr.max → (s.file_data_part1 0).data_part2_offset = FILE_DATA_PART2_OFFSET c
  tail : s.offset = heap_tail c s
  magic : ∀ i, i < s.file_hdr.max → (s.file_data_part1 i).magic = c.MAGIC_DATA_PART1
  below : ∀ i, i < s.file_hdr.max →
    (s.file_data_part1 i).data_part2_offset + (s.file_data_part1 i).data_part2_length ≤ s.offset
  written : s.offset ≤ s.file_size
  base : FILE_DATA_PART2_OFFSET c ≤ s.offset

/-- What a reader that has observed `file_hdr->max` relies on: every slot below it
holds a record with `MAGIC_DATA_PART1` whose payload range lies inside the file, that
is, all of its bytes have been written. -/
def Published (c : Common) (s : State) : Prop :=
  ∀ i, i < s.file_hdr.max →
    (s.file_data_part1 i).magic = c.MAGIC_DATA_PART1 ∧
    (s.file_data_part1 i).data_part2_offset + (s.file_data_part1 i).data_part2_length
      ≤ s.file_size

/-- Two states show the same log up to `file_hdr->max`: same header, same file bytes
and the same record in every slot below `max`; the slots at or beyond `max` may differ. -/
def agree_below_max (s t : State) : Prop :=
  t.file_hdr = s.file_hdr ∧ t.file_bytes = s.file_bytes ∧
  ∀ i, i < s.file_hdr.max → t.file_data_part1 i = s.file_data_part1 i

/-- The state `s` with the records `junk` put into all slots at or beyond `max`. -/
def with_junk_beyond_max (s : State) (junk : Nat → data_part1_s) : State :=
  { s with file_data_part1 := fun i => if i < s.file_hdr.max then s.file_data_part1 i else junk i }

/-- The stored payload of slot `i` begins with `MAGIC_DATA_PART2`: it has at least the
eight bytes of the magic, and the first eight bytes stored at its offset are the magic. -/
def payload_has_magic (c : Common) (s : State) (i : Nat) : Prop :=
  8 ≤ (s.file_data_part1 i).data_part2_length ∧
  get_u64 (fun j => s.file_bytes ((s.file_data_part1 i).data_part2_offset + j)) 0
    = c.MAGIC_DATA_PART2

instance (c : Common) (s : State) (i : Nat) : Decidable (payload_has_magic c s i) :=
  inferInstanceAs (Decidable (_ ∧ _))

/-- A classification of the outcomes of `read_data_part2`: 0 for `NULL`, 1 for a call
of `FATAL`, 2 for a returned buffer. -/
def dp2_ret.kind : dp2_ret → Nat
  | dp2_ret.NULL => 0
  | dp2_ret.FATAL => 1
  | dp2_ret.data _ => 2

/-- A message whose declared payload length is 4: the index frame is well formed, and
the four payload bytes are the low half of `MAGIC_DATA_PART2`; the camera slot is
stale and `pwrite` writes everything. -/
def msg_short (c : Common) (t : Nat) : Iter :=
  { recv1_len := c.sizeof_data_part1_s
    recv1 := { data_part1_zero with
      magic := c.MAGIC_DATA_PART1, time := t, data_part2_length := 4 }
    recv2_len := 4
    recv2 := u64_bytes c.MAGIC_DATA_PART2
    microsec_timer := 2000000
    jpeg_buff := zeros
    jpeg_buff_len := 0
    jpeg_buff_us := 0
    pwrite_len := 4 }

/-- The log after a live session with the sample parameters has ingested one
well-formed message and then the message with the four-byte payload. -/
def short_log : State :=
  get_live_data_thread common_sample (created common_sample false)
    [msg_ok common_sample 0, msg_short common_sample 1]

/-- The log that holds one ingested record, with the payload heap zeroed: the payload
of slot 0 has lost its magic. -/
def corrupt_log : State :=
  { ingested common_sample 1 with file_bytes := zeros }

/-! ## read_data_part2 with its effects, and further sample data -/

/-- What a call of `read_data_part2` does besides returning: the call of `pread`, if
one is made, given by its file offset and its byte count, and whether the `ERROR`
message of a short read was printed. -/
structure dp2_effects where
  pread : Option (Nat × Nat)
  error : Bool
deriving DecidableEq

/-- The function `read_data_part2` (lines 1453-1502) with its effects recorded next to
the returned value and the statics; `pread_len` is the value returned by `pread`. -/
def read_data_part2_traced (c : Common) (s : State) (r : Reader) (file_idx : Int)
    (pread_len : Int) : dp2_ret × Reader × dp2_effects :=
  if file_idx = r.last_read_file_idx then
    (dp2_ret.data r.last_read_data_part2, r, ⟨none, false⟩)
  else if (s.file_data_part1 file_idx.toNat).data_part2_length = 0 ∨
      (s.file_data_part1 file_idx.toNat).data_part2_offset = 0 then
    (dp2_ret.NULL, r, ⟨none, false⟩)
  else if pread_len ≠ ((s.file_data_part1 file_idx.toNat).data_part2_length : Int) then
    (dp2_ret.NULL,
     { r with last_read_data_part2 := (memcpy r.last_read_data_part2 0
        (fun i => s.file_bytes ((s.file_data_part1 file_idx.toNat).data_part2_offset + i))
        (min pread_len.toNat (s.file_data_part1 file_idx.toNat).data_part2_length)) },
     ⟨some ((s.file_data_part1 file_idx.toNat).data_part2_offset,
        (s.file_data_part1 file_idx.toNat).data_part2_length), true⟩)
  else if get_u64 (memcpy r.last_read_data_part2 0
      (fun i => s.file_bytes ((s.file_data_part1 file_idx.toNat).data_part2_offset + i))
      (min pread_len.toNat (s.file_data_part1 file_idx.toNat).data_part2_length)) 0
      ≠ c.MAGIC_DATA_PART2 then
    (dp2_ret.FATAL,
     { r with last_read_data_part2 := (memcpy r.last_read_data_part2 0
        (fun i => s.file_bytes ((s.file_data_part1 file_idx.toNat).data_part2_offset + i))
        (min pread_len.toNat (s.file_data_part1 file_idx.toNat).data_part2_length)) },
     ⟨some ((s.file_data_part1 file_idx.toNat).data_part2_offset,
        (s.file_data_part1 file_idx.toNat).data_part2_length), false⟩)
  else
    (dp2_ret.data (memcpy r.last_read_data_part2 0
        (fun i => s.file_bytes ((s.file_data_part1 file_idx.toNat).data_part2_offset + i))
        (min pread_len.toNat (s.file_data_part1 file_idx.toNat).data_part2_length)),
     ⟨file_idx, memcpy r.last_read_data_part2 0
        (fun i => s.file_bytes ((s.file_data_part1 file_idx.toNat).data_part2_offset + i))
        (min pread_len.toNat (s.file_data_part1 file_idx.toNat).data_part2_length)⟩,
     ⟨some ((s.file_data_part1 file_idx.toNat).data_part2_offset,
        (s.file_data_part1 file_idx.toNat).data_part2_length), false⟩)

/-- A message with an empty payload: the index frame is well formed and declares
length 0, so the second `recv` delivers nothing; the camera slot is stale and `pwrite`
of zero bytes returns 0. -/
def msg_empty (c : Common) (t : Nat) : Iter :=
  { recv1_len := c.sizeof_data_part1_s
    recv1 := { data_part1_zero with
      magic := c.MAGIC_DATA_PART1, time := t, data_part2_length := 0 }
    recv2_len := 0
    recv2 := zeros
    microsec_timer := 2000000
    jpeg_buff := zeros
    jpeg_buff_len := 0
    jpeg_buff_us := 0
    pwrite_len := 0 }

/-- The log after a live session with the sample parameters has ingested one
well-formed message and then the message with the empty payload. -/
def empty_log : State :=
  get_live_data_thread common_sample (created common_sample false)
    [msg_ok common_sample 0, msg_empty common_sample 1]

/-! ## Navigation: steps, runs of keys, and further sample states -/

/-- The step of a right-arrow key (lines 843-845); `none` for the other keys. -/
def forward_step : nav_event → Option Int
  | nav_event.KEY_RIGHT_ARROW => some 1
  | nav_event.KEY_CTRL_RIGHT_ARROW => some 10
  | nav_event.KEY_ALT_RIGHT_ARROW => some 60
  | _ => none

/-- The step of a left-arrow key (lines 830-832); `none` for the other keys. -/
def backward_step : nav_event → Option Int
  | nav_event.KEY_LEFT_ARROW => some 1
  | nav_event.KEY_CTRL_LEFT_ARROW => some 10
  | nav_event.KEY_ALT_LEFT_ARROW => some 60
  | _ => none

/-- The states after each key of a sequence of navigation keys. -/
def nav_states (s : State) : List nav_event → List State
  | [] => []
  | k :: ks => display_handler_event s k :: nav_states (display_handler_event s k) ks

/-- One step of the running program: a pass of the ingestion loop, which needs the
thread to be alive, or a navigation key. -/
inductive Step (c : Common) : State → State → Prop where
  | pass (s : State) (e : Iter) :
      s.get_live_data_state = live_state_t.STATE_ACTIVE → Step c s (thread_step c s e)
  | nav (s : State) (k : nav_event) : Step c s (display_handler_event s k)

/-- The log `empty_log` as a file opened for playback: the ingestion thread was never
started, the mode is `PLAYBACK` and the cursor is on record 0 (lines 472-478). -/
def playback_log : State :=
  { empty_log with
    get_live_data_state := live_state_t.STATE_INACTIVE
    mode := mode_t.PLAYBACK
    file_idx_global := 0 }

/-- A message that fails the first check of the loop: the first `recv` returns 0 (the
server has closed the connection). -/
def msg_closed (c : Common) : Iter :=
  { msg_ok c 0 with recv1_len := 0 }

/-- A well-formed message without image, received while the camera slot is fresh and
holds a capture of `len` bytes; `pwrite` writes everything. -/
def msg_cam (c : Common) (t : Nat) (len : Nat) : Iter :=
  { msg_ok c t with
    jpeg_buff_len := len
    jpeg_buff_us := 1500000
    pwrite_len := ((c.sizeof_data_part2_s + len : Nat) : Int) }

/-! ## The stored payload and the camera freshness test -/

/-- A little-endian 32-bit load at offset `off`. -/
def get_u32 (b : Bytes) (off : Nat) : Nat :=
  b off + 256 * (b (off + 1) + 256 * (b (off + 2) + 256 * b (off + 3)))

/-- The test of line 566, `microsec_timer() - jpeg_buff_us < 1000000`, in 64-bit
unsigned arithmetic. -/
def cam_fresh (e : Iter) : Prop :=
  (e.microsec_timer + 2 ^ 64 - e.jpeg_buff_us) % 2 ^ 64 < 1000000

instance (e : Iter) : Decidable (cam_fresh e) := by
  unfold cam_fresh; infer_instance

/-- The bytes of the file from the payload offset of slot `i` on. -/
def stored_payload (s : State) (i : Nat) : Bytes :=
  fun j => s.file_bytes ((s.file_data_part1 i).data_part2_offset + j)

/-- A well-formed message that carries a four-byte image: the flag
`data_part2_jpeg_buff_valid` is set and the payload is the fixed part followed by four
image bytes; the camera slot is stale and `pwrite` returns `w`. -/
def msg_image (c : Common) (t : Nat) (w : Int) : Iter :=
  { recv1_len := c.sizeof_data_part1_s
    recv1 := { data_part1_zero with
      magic := c.MAGIC_DATA_PART1, time := t, data_part2_length := c.sizeof_data_part2_s + 4,
      data_part2_jpeg_buff_valid := true }
    recv2_len := ((c.sizeof_data_part2_s + 4 : Nat) : Int)
    recv2 := put_u32 (memcpy (u64_bytes c.MAGIC_DATA_PART2) c.sizeof_data_part2_s
      (fun _ => 255) 4) c.offsetof_jpeg_buff_len 4
    microsec_timer := 2000000
    jpeg_buff := zeros
    jpeg_buff_len := 0
    jpeg_buff_us := 0
    pwrite_len := w }

/-! ## The layout of file_hdr_t -/

/-- A member of a C structure: its size and its alignment, in bytes. -/
structure member where
  size : Nat
  align : Nat
deriving DecidableEq

/-- The smallest multiple of `a` that is not below `x`. -/
def round_up (x a : Nat) : Nat := (x + a - 1) / a * a

/-- The byte offsets of the members of a C structure laid out from offset `off`: the
members follow in declaration order, each at the next multiple of its alignment. -/
def struct_offsets : Nat → List member → List Nat
  | _, [] => []
  | off, m :: ms => round_up off m.align :: struct_offsets (round_up off m.align + m.size) ms

/-- The offset behind the last member of a C structure laid out from offset `off`. -/
def struct_end : Nat → List member → Nat
  | off, [] => off
  | off, m :: ms => struct_end (round_up off m.align + m.size) ms

/-- The alignment of a C structure: the largest alignment among its members. -/
def struct_align (ms : List member) : Nat := (ms.map member.align).foldr max 1

/-- The value of `sizeof` for a C structure: the end of the last member, rounded up to
the alignment of the structure. -/
def sizeof_struct (ms : List member) : Nat := round_up (struct_end 0 ms) (struct_align ms)

/-- What the platform decides about the layout of `file_hdr_t`: the alignments of
`uint64_t` and `uint32_t` (`uint8_t` has alignment 1). -/
structure Abi where
  alignof_uint64_t : Nat
  alignof_uint32_t : Nat
deriving DecidableEq

/-- The alignment of an integer type is a power of two that does not exceed its size. -/
def Abi.wf (a : Abi) : Prop :=
  a.alignof_uint64_t ∈ [1, 2, 4, 8] ∧ a.alignof_uint32_t ∈ [1, 2, 4]

instance (a : Abi) : Decidable a.wf := by
  unfold Abi.wf; infer_instance

/-- The members of `file_hdr_t` (lines 96-101): `uint64_t magic`, `uint64_t start_time`,
`uint32_t max` and `uint8_t reserved[4096-20]`. -/
def file_hdr_t_members (a : Abi) : List member :=
  [⟨8, a.alignof_uint64_t⟩, ⟨8, a.alignof_uint64_t⟩, ⟨4, a.alignof_uint32_t⟩, ⟨4096 - 20, 1⟩]

/-- The value of `sizeof(file_hdr_t)`. -/
def sizeof_file_hdr_t (a : Abi) : Nat := sizeof_struct (file_hdr_t_members a)

/-- The file offset at which the start-up code maps the index array `file_data_part1`
(lines 382-387): `sizeof(file_hdr_t)`. -/
def file_data_part1_offset (a : Abi) : Nat := sizeof_file_hdr_t a

/-- A parameter whose index record is so large that the sum in
`FILE_DATA_PART2_OFFSET` exceeds 64 bits. -/
def common_huge : Common :=
  { common_sample with sizeof_data_part1_s := 213503982334602 }

/-- A well-formed message for which `pwrite` fails (returns -1, as on a full disk). -/
def msg_enospc (c : Common) (t : Nat) : Iter :=
  { msg_ok c t with pwrite_len := -1 }

/-- A well-formed message whose payload is the magic followed by bytes of value `v`;
the camera slot is stale and `pwrite` writes everything. -/
def msg_body (c : Common) (t v : Nat) : Iter :=
  { msg_ok c t with recv2 := fun i => if i < 8 then u64_bytes c.MAGIC_DATA_PART2 i else v }

/-- The log after a live session with the sample parameters has ingested two messages
whose payloads differ behind the magic: bytes of value 1 in record 0, of value 2 in
record 1. -/
def tagged_log : State :=
  get_live_data_thread common_sample (created common_sample false)
    [msg_body common_sample 0 1, msg_body common_sample 1 2]

/-- The byte at position `i` of the buffer that `read_data_part2` returned, if it
returned one. -/
def dp2_ret.byte : dp2_ret → Nat → Option Nat
  | dp2_ret.data b, i => some (b i)
  | _, _ => none

/-- The globals when `display_handler` starts on a file that the start-up code has
accepted in playback mode: `mode` is `PLAYBACK` (line 272), the ingestion thread was
not created and `file_idx_global` is 0 (line 477). -/
def opened_for_playback (s : State) : State :=
  { s with
    mode := mode_t.PLAYBACK
    get_live_data_state := live_state_t.STATE_INACTIVE
    file_idx_global := 0 }

/-- The log left behind by a live session whose first message passed validation and
whose payload write failed. -/
def failed_first_append : State :=
  thread_step common_sample (fresh common_sample) (msg_enospc common_sample 0)

/-! ## generate_test_file -/

/-- A little-endian 64-bit store of `v` at offset `off`. -/
def put_u64 (b : Bytes) (off v : Nat) : Bytes :=
  fun i => if off ≤ i ∧ i < off + 8 then (v / 256 ^ (i - off)) % 256 else b i

/-- What `generate_test_file` takes from outside `display.c`.  From the environment:
the value of `time(NULL)`, the results of `open` and `read` on the image sample file
with the bytes read, and the value returned by the `pwrite` of each iteration.  From
the missing `common.h` and the floating-point unit: the bit patterns of the ramps
`k * idx / test_file_secs` and of the constants stored into the measurement members,
and the effect on the payload buffer of the loop that fills the three sample arrays
(`MAX_ADC_SAMPLES` and the position of the arrays are declared in `common.h`). -/
structure TestInput where
  time : Nat
  open_ret : Int
  read_ret : Int
  jpeg_sample : Bytes
  pwrite_len : Nat → Int
  ramp : Nat → Nat → Nat → Nat
  const : Nat → Nat
  adc : Bytes → Bytes

/-- The size of the local array `jpeg_buff` of `generate_test_file` (line 1346). -/
def TEST_JPEG_BUFF_SIZE : Nat := 200000

/-- Lines 1363-1376: the value of the `uint32_t jpeg_buff_len` after the image sample
file has been read.  The result of `read` is converted to 32 bits unsigned, so the
test `jpeg_buff_len <= 0` holds for 0 only and a failed `read` (-1) leaves
4294967295. -/
def test_jpeg_buff_len (x : TestInput) : Nat :=
  if x.open_ret < 0 then 0 else (x.read_ret % 2 ^ 32).toNat

/-- Lines 1381-1403: the index record that iteration `idx` stores into
`file_data_part1[idx]`, for `test_file_secs = n` and the heap offset `dp2_offset`. -/
def test_data_part1 (c : Common) (x : TestInput) (n idx dp2_offset : Nat) : data_part1_s :=
  { magic := c.MAGIC_DATA_PART1
    time := x.time + idx
    voltage_mean_kv := x.ramp 30 idx n
    voltage_min_kv := x.const 0
    voltage_max_kv := x.ramp 15 idx n
    current_ma := x.const 0
    pressure_d2_mtorr := x.const 10
    pressure_n2_mtorr := x.const 20
    data_part2_offset := dp2_offset
    data_part2_length := c.sizeof_data_part2_s + test_jpeg_buff_len x
    data_part2_jpeg_buff_valid := decide (test_jpeg_buff_len x ≠ 0)
    data_part2_voltage_adc_samples_mv_valid := true
    data_part2_current_adc_samples_mv_valid := true
    data_part2_pressure_adc_samples_mv_valid := true }

/-- The bytes of the payload buffer `dp2` after the stores of lines 1405-1413 (magic,
samples, `jpeg_buff_len`, image), for a copy that stays inside its buffers. -/
def test_payload (c : Common) (x : TestInput) (dp2 : Bytes) : Bytes :=
  memcpy (put_u32 (x.adc (put_u64 dp2 0 c.MAGIC_DATA_PART2)) c.offsetof_jpeg_buff_len
      (test_jpeg_buff_len x))
    c.sizeof_data_part2_s x.jpeg_sample (test_jpeg_buff_len x)

/-- Lines 1405-1413: the payload buffer `dp2` after an iteration has stored the magic,
the samples, `jpeg_buff_len` and the image into it.  The `memcpy` of line 1413 reads
`jpeg_buff_len` bytes of the 200000-byte array `jpeg_buff` and writes them behind the
fixed part of `dp2`, which has `MAX_DATA_PART2_LENGTH` bytes; when the copy leaves one
of the two buffers the behaviour is undefined and the result is `none`. -/
def test_data_part2 (c : Common) (x : TestInput) (dp2 : Bytes) : Option Bytes :=
  if test_jpeg_buff_len x ≤ TEST_JPEG_BUFF_SIZE ∧
      c.sizeof_data_part2_s + test_jpeg_buff_len x ≤ MAX_DATA_PART2_LENGTH then
    some (test_payload c x dp2)
  else none

/-- Lines 1379-1425: `k` iterations of the `for` loop from index `idx` on, with the
payload buffer `dp2` and the heap offset `dp2_offset`.  The result is `none` when an
iteration leaves its objects (a slot outside the `MAX_FILE_DATA_PART1` slots of the
mapped index array, or the copy of `test_data_part2`); otherwise it is the state and
whether the loop ran to its end (`false`: a `pwrite` was short and the function
returned -1). -/
def generate_loop (c : Common) (x : TestInput) (n : Nat) :
    Nat → Nat → State → Bytes → Nat → Option (State × Bool)
  | 0, _, s, _, _ => some (s, true)
  | k + 1, idx, s, dp2, dp2_offset =>
    if MAX_FILE_DATA_PART1 ≤ idx then none
    else
      match test_data_part2 c x dp2 with
      | none => none
      | some b =>
        if x.pwrite_len idx
            ≠ ((test_data_part1 c x n idx dp2_offset).data_part2_length : Int) then
          some (pwrite { s with file_data_part1 := fun i =>
                if i = idx then test_data_part1 c x n idx dp2_offset else s.file_data_part1 i }
              b (test_data_part1 c x n idx dp2_offset).data_part2_length
              dp2_offset (x.pwrite_len idx), false)
        else
          generate_loop c x n k (idx + 1)
            (pwrite { s with file_data_part1 := fun i =>
                if i = idx then test_data_part1 c x n idx dp2_offset else s.file_data_part1 i }
              b (test_data_part1 c x n idx dp2_offset).data_part2_length
              dp2_offset (x.pwrite_len idx))
            b
            (dp2_offset + (test_data_part1 c x n idx dp2_offset).data_part2_length)

/-- The function `generate_test_file` (lines 1343-1437) for `test_file_secs = n`: the
state it leaves and its return value, or `none` when the loop leaves its objects. -/
def generate_test_file (c : Common) (x : TestInput) (n : Nat) (s : State) :
    Option (State × Int) :=
  match generate_loop c x n n 0 s zeros (FILE_DATA_PART2_OFFSET c) with
  | none => none
  | some (s1, false) => some (s1, -1)
  | some (s1, true) => some ({ s1 with file_hdr := { s1.file_hdr with max := n } }, 0)

/-- The state after the start-up code has created the file in test mode (lines 279
and 324-353): as in live mode, with `mode = TEST`. -/
def created_test (c : Common) : State :=
  { created c false with mode := mode_t.TEST }

/-- The append of live ingestion (lines 589-607) for an index record `d` and a payload
buffer `b`, with a complete `pwrite`: the heap offset is assigned to the record, the
record is stored into slot `file_hdr->max`, the payload is written, and the heap offset
and `file_hdr->max` advance. -/
def append (s : State) (d : data_part1_s) (b : Bytes) : State :=
  (loop_write { s with data_part2 := b } { d with data_part2_offset := s.offset }
    (d.data_part2_length : Int)).1

/-- Appending a list of index records and payloads one by one. -/
def append_all (s : State) : List (data_part1_s × Bytes) → State
  | [] => s
  | (d, b) :: rest => append_all (append s d b) rest

/-- The index records and payloads that `k` iterations of the generator produce from
index `idx` on, starting with the payload buffer `dp2`; the heap offset of each record
is left to the append. -/
def test_records (c : Common) (x : TestInput) (n : Nat) :
    Nat → Nat → Bytes → List (data_part1_s × Bytes)
  | 0, _, _ => []
  | k + 1, idx, dp2 =>
    (test_data_part1 c x n idx 0, test_payload c x dp2) ::
      test_records c x n k (idx + 1) (test_payload c x dp2)

/-- Two states hold the same log: the same header, index array, file bytes and file
size. -/
def same_log (s t : State) : Prop :=
  s.file_hdr = t.file_hdr ∧ s.file_data_part1 = t.file_data_part1 ∧
  s.file_bytes = t.file_bytes ∧ s.file_size = t.file_size

/-- A sample input of the generator: an image sample file of four bytes, every
`pwrite` complete. -/
def test_input_sample : TestInput :=
  { time := 1000
    open_ret := 3
    read_ret := 4
    jpeg_sample := fun i => i + 1
    pwrite_len := fun _ => 20
    ramp := fun k idx n => k * idx / n
    const := fun k => k
    adc := fun b => b }

/-! ## Frame lemmas: the fields that each store leaves alone -/

@[simp] theorem recv_data_part2_mode (s : State) (e : Iter) (n : Nat) :
    (recv_data_part2 s e n).mode = s.mode := rfl

@[simp] theorem recv_data_part2_get_live_data_state (s : State) (e : Iter) (n : Nat) :
    (recv_data_part2 s e n).get_live_data_state = s.get_live_data_state := rfl

@[simp] theorem recv_data_part2_opt_no_cam (s : State) (e : Iter) (n : Nat) :
    (recv_data_part2 s e n).opt_no_cam = s.opt_no_cam := rfl

@[simp] theorem recv_data_part2_file_hdr (s : State) (e : Iter) (n : Nat) :
    (recv_data_part2 s e n).file_hdr = s.file_hdr := rfl

@[simp] theorem recv_data_part2_file_data_part1 (s : State) (e : Iter) (n : Nat) :
    (recv_data_part2 s e n).file_data_part1 = s.file_data_part1 := rfl

@[simp] theorem recv_data_part2_file_idx_global (s : State) (e : Iter) (n : Nat) :
    (recv_data_part2 s e n).file_idx_global = s.file_idx_global := rfl

@[simp] theorem recv_data_part2_file_bytes (s : State) (e : Iter) (n : Nat) :
    (recv_data_part2 s e n).file_bytes = s.file_bytes := rfl

@[simp] theorem recv_data_part2_file_size (s : State) (e : Iter) (n : Nat) :
    (recv_data_part2 s e n).file_size = s.file_size := rfl

@[simp] theorem recv_data_part2_offset (s : State) (e : Iter) (n : Nat) :
    (recv_data_part2 s e n).offset = s.offset := rfl

@[simp] theorem recv_data_part2_last_time (s : State) (e : Iter) (n : Nat) :
    (recv_data_part2 s e n).last_time = s.last_time := rfl

@[simp] theorem store_data_part1_mode (s : State) (d : data_part1_s) :
    (store_data_part1 s d).mode = s.mode := rfl

@[simp] theorem store_data_part1_get_live_data_state (s : State) (d : data_part1_s) :
    (store_data_part1 s d).get_live_data_state = s.get_live_data_state := rfl

@[simp] theorem store_data_part1_opt_no_cam (s : State) (d : data_part1_s) :
    (store_data_part1 s d).opt_no_cam = s.opt_no_cam := rfl

@[simp] theorem store_data_part1_file_hdr (s : State) (d : data_part1_s) :
    (store_data_part1 s d).file_hdr = s.file_hdr := rfl

@[simp] theorem store_data_part1_file_idx_global (s : State) (d : data_part1_s) :
    (store_data_part1 s d).file_idx_global = s.file_idx_global := rfl

@[simp] theorem store_data_part1_file_bytes (s : State) (d : data_part1_s) :
    (store_data_part1 s d).file_bytes = s.file_bytes := rfl

@[simp] theorem store_data_part1_file_size (s : State) (d : data_part1_s) :
    (store_data_part1 s d).file_size = s.file_size := rfl

@[simp] theorem store_data_part1_offset (s : State) (d : data_part1_s) :
    (store_data_part1 s d).offset = s.offset := rfl

@[simp] theorem store_data_part1_last_time (s : State) (d : data_part1_s) :
    (store_data_part1 s d).last_time = s.last_time := rfl

@[simp] theorem store_data_part1_data_part2 (s : State) (d : data_part1_s) :
    (store_data_part1 s d).data_part2 = s.data_part2 := rfl

@[simp] theorem pwrite_mode (s : State) (b : Bytes) (n off : Nat) (r : Int) :
    (pwrite s b n off r).mode = s.mode := rfl

@[simp] theorem pwrite_get_live_data_state (s : State) (b : Bytes) (n off : Nat) (r : Int) :
    (pwrite s b n off r).get_live_data_state = s.get_live_data_state := rfl

@[simp] theorem pwrite_opt_no_cam (s : State) (b : Bytes) (n off : Nat) (r : Int) :
    (pwrite s b n off r).opt_no_cam = s.opt_no_cam := rfl

@[simp] theorem pwrite_file_hdr (s : State) (b : Bytes) (n off : Nat) (r : Int) :
    (pwrite s b n off r).file_hdr = s.file_hdr := rfl

@[simp] theorem pwrite_file_data_part1 (s : State) (b : Bytes) (n off : Nat) (r : Int) :
    (pwrite s b n off r).file_data_part1 = s.file_data_part1 := rfl

@[simp] theorem pwrite_file_idx_global (s : State) (b : Bytes) (n off : Nat) (r : Int) :
    (pwrite s b n off r).file_idx_global = s.file_idx_global := rfl

@[simp] theorem pwrite_offset (s : State) (b : Bytes) (n off : Nat) (r : Int) :
    (pwrite s b n off r).offset = s.offset := rfl

@[simp] theorem pwrite_last_time (s : State) (b : Bytes) (n off : Nat) (r : Int) :
    (pwrite s b n off r).last_time = s.last_time := rfl

@[simp] theorem pwrite_data_part2 (s : State) (b : Bytes) (n off : Nat) (r : Int) :
    (pwrite s b n off r).data_part2 = s.data_part2 := rfl

@[simp] theorem advance_mode (s : State) (n : Nat) :
    (advance s n).mode = s.mode := rfl

@[simp] theorem advance_get_live_data_state (s : State) (n : Nat) :
    (advance s n).get_live_data_state = s.get_live_data_state := rfl

@[simp] theorem advance_opt_no_cam (s : State) (n : Nat) :
    (advance s n).opt_no_cam = s.opt_no_cam := rfl

@[simp] theorem advance_file_hdr (s : State) (n : Nat) :
    (advance s n).file_hdr = s.file_hdr := rfl

@[simp] theorem advance_file_data_part1 (s : State) (n : Nat) :
    (advance s n).file_data_part1 = s.file_data_part1 := rfl

@[simp] theorem advance_file_idx_global (s : State) (n : Nat) :
    (advance s n).file_idx_global = s.file_idx_global := rfl

@[simp] theorem advance_file_bytes (s : State) (n : Nat) :
    (advance s n).file_bytes = s.file_bytes := rfl

@[simp] theorem advance_file_size (s : State) (n : Nat) :
    (advance s n).file_size = s.file_size := rfl

@[simp] theorem advance_last_time (s : State) (n : Nat) :
    (advance s n).last_time = s.last_time := rfl

@[simp] theorem advance_data_part2 (s : State) (n : Nat) :
    (advance s n).data_part2 = s.data_part2 := rfl

@[simp] theorem commit_mode (s : State) :
    (commit s).mode = s.mode := rfl

@[simp] theorem commit_get_live_data_state (s : State) :
    (commit s).get_live_data_state = s.get_live_data_state := rfl

@[simp] theorem commit_opt_no_cam (s : State) :
    (commit s).opt_no_cam = s.opt_no_cam := rfl

@[simp] theorem commit_file_data_part1 (s : State) :
    (commit s).file_data_part1 = s.file_data_part1 := rfl

@[simp] theorem commit_file_idx_global (s : State) :
    (commit s).file_idx_global = s.file_idx_global := rfl

@[simp] theorem commit_file_bytes (s : State) :
    (commit s).file_bytes = s.file_bytes := rfl

@[simp] theorem commit_file_size (s : State) :
    (commit s).file_size = s.file_size := rfl

@[simp] theorem commit_offset (s : State) :
    (commit s).offset = s.offset := rfl

@[simp] theorem commit_last_time (s : State) :
    (commit s).last_time = s.last_time := rfl

@[simp] theorem commit_data_part2 (s : State) :
    (commit s).data_part2 = s.data_part2 := rfl

@[simp] theorem loop_ready_mode (c : Common) (s : State) (e : Iter) :
    (loop_ready c s e).mode = s.mode := rfl

@[simp] theorem loop_ready_get_live_data_state (c : Common) (s : State) (e : Iter) :
    (loop_ready c s e).get_live_data_state = s.get_live_data_state := rfl

@[simp] theorem loop_ready_opt_no_cam (c : Common) (s : State) (e : Iter) :
    (loop_ready c s e).opt_no_cam = s.opt_no_cam := rfl

@[simp] theorem loop_ready_file_hdr (c : Common) (s : State) (e : Iter) :
    (loop_ready c s e).file_hdr = s.file_hdr := rfl

@[simp] theorem loop_ready_file_data_part1 (c : Common) (s : State) (e : Iter) :
    (loop_ready c s e).file_data_part1 = s.file_data_part1 := rfl

@[simp] theorem loop_ready_file_idx_global (c : Common) (s : State) (e : Iter) :
    (loop_ready c s e).file_idx_global = s.file_idx_global := rfl

@[simp] theorem loop_ready_file_bytes (c : Common) (s : State) (e : Iter) :
    (loop_ready c s e).file_bytes = s.file_bytes := rfl

@[simp] theorem loop_ready_file_size (c : Common) (s : State) (e : Iter) :
    (loop_ready c s e).file_size = s.file_size := rfl

@[simp] theorem loop_ready_offset (c : Common) (s : State) (e : Iter) :
    (loop_ready c s e).offset = s.offset := rfl

@[simp] theorem thread_exit_opt_no_cam (s : State) :
    (thread_exit s).opt_no_cam = s.opt_no_cam := rfl

@[simp] theorem thread_exit_file_hdr (s : State) :
    (thread_exit s).file_hdr = s.file_hdr := rfl

@[simp] theorem thread_exit_file_data_part1 (s : State) :
    (thread_exit s).file_data_part1 = s.file_data_part1 := rfl

@[simp] theorem thread_exit_file_idx_global (s : State) :
    (thread_exit s).file_idx_global = s.file_idx_global := rfl

@[simp] theorem thread_exit_file_bytes (s : State) :
    (thread_exit s).file_bytes = s.file_bytes := rfl

@[simp] theorem thread_exit_file_size (s : State) :
    (thread_exit s).file_size = s.file_size := rfl

@[simp] theorem thread_exit_offset (s : State) :
    (thread_exit s).offset = s.offset := rfl

@[simp] theorem thread_exit_last_time (s : State) :
    (thread_exit s).last_time = s.last_time := rfl

@[simp] theorem thread_exit_data_part2 (s : State) :
    (thread_exit s).data_part2 = s.data_part2 := rfl

@[simp] theorem recv_data_part2_buf (s : State) (e : Iter) (n : Nat) :
    (recv_data_part2 s e n).data_part2 = memcpy s.data_part2 0 e.recv2 (min e.recv2_len.toNat n) := rfl

@[simp] theorem store_data_part1_slot (s : State) (d : data_part1_s) (i : Nat) :
    (store_data_part1 s d).file_data_part1 i = if i = s.file_hdr.max then d else s.file_data_part1 i := rfl

@[simp] theorem pwrite_bytes (s : State) (b : Bytes) (n off : Nat) (r : Int) :
    (pwrite s b n off r).file_bytes = memcpy s.file_bytes off b (min r.toNat n) := rfl

@[simp] theorem pwrite_size (s : State) (b : Bytes) (n off : Nat) (r : Int) :
    (pwrite s b n off r).file_size =
      if min r.toNat n = 0 then s.file_size else max s.file_size (off + min r.toNat n) := rfl

@[simp] theorem advance_off (s : State) (n : Nat) : (advance s n).offset = s.offset + n := rfl

@[simp] theorem commit_max (s : State) : (commit s).file_hdr.max = s.file_hdr.max + 1 := rfl

@[simp] theorem commit_magic (s : State) : (commit s).file_hdr.magic = s.file_hdr.magic := rfl

@[simp] theorem loop_ready_buf (c : Common) (s : State) (e : Iter) :
    (loop_ready c s e).data_part2 = loop_payload c s e := rfl

@[simp] theorem loop_ready_time (c : Common) (s : State) (e : Iter) :
    (loop_ready c s e).last_time = (loop_record c s e).time := rfl

@[simp] theorem thread_exit_state (s : State) :
    (thread_exit s).get_live_data_state = live_state_t.STATE_ERROR := rfl

@[simp] theorem thread_exit_mode (s : State) : (thread_exit s).mode = mode_t.PLAYBACK := rfl

@[simp] theorem follow_mode (s : State) : (follow s).mode = s.mode := by
  unfold follow; split <;> rfl

@[simp] theorem follow_get_live_data_state (s : State) : (follow s).get_live_data_state = s.get_live_data_state := by
  unfold follow; split <;> rfl

@[simp] theorem follow_opt_no_cam (s : State) : (follow s).opt_no_cam = s.opt_no_cam := by
  unfold follow; split <;> rfl

@[simp] theorem follow_file_hdr (s : State) : (follow s).file_hdr = s.file_hdr := by
  unfold follow; split <;> rfl

@[simp] theorem follow_file_data_part1 (s : State) : (follow s).file_data_part1 = s.file_data_part1 := by
  unfold follow; split <;> rfl

@[simp] theorem follow_file_bytes (s : State) : (follow s).file_bytes = s.file_bytes := by
  unfold follow; split <;> rfl

@[simp] theorem follow_file_size (s : State) : (follow s).file_size = s.file_size := by
  unfold follow; split <;> rfl

@[simp] theorem follow_offset (s : State) : (follow s).offset = s.offset := by
  unfold follow; split <;> rfl

@[simp] theorem follow_last_time (s : State) : (follow s).last_time = s.last_time := by
  unfold follow; split <;> rfl

@[simp] theorem follow_data_part2 (s : State) : (follow s).data_part2 = s.data_part2 := by
  unfold follow; split <;> rfl

theorem follow_idx (s : State) :
    (follow s).file_idx_global =
      if s.mode = mode_t.LIVE then (s.file_hdr.max : Int) - 1 else s.file_idx_global := by
  unfold follow; split <;> rfl

/-! ## Basic facts about one pass of the loop -/

theorem loop_receive_frame (c : Common) (s : State) (e : Iter) :
    (loop_receive c s e).1.file_hdr = s.file_hdr ∧
    (loop_receive c s e).1.file_data_part1 = s.file_data_part1 ∧
    (loop_receive c s e).1.file_bytes = s.file_bytes ∧
    (loop_receive c s e).1.file_size = s.file_size ∧
    (loop_receive c s e).1.offset = s.offset ∧
    (loop_receive c s e).1.mode = s.mode ∧
    (loop_receive c s e).1.file_idx_global = s.file_idx_global ∧
    (loop_receive c s e).1.get_live_data_state = s.get_live_data_state ∧
    (loop_receive c s e).1.opt_no_cam = s.opt_no_cam ∧
    (loop_receive c s e).1.last_time = s.last_time := by
  unfold loop_receive
  split_ifs <;> simp [recv_data_part2]

theorem loop_write_max (s : State) (d : data_part1_s) (w : Int) :
    (loop_write s d w).1.file_hdr.max =
      if (loop_write s d w).2 = none then s.file_hdr.max + 1 else s.file_hdr.max := by
  unfold loop_write
  split_ifs <;> simp_all

theorem loop_pass_max (c : Common) (s : State) (e : Iter) :
    (loop_pass c s e).state.file_hdr.max =
      if (loop_pass c s e).exit = none then s.file_hdr.max + 1 else s.file_hdr.max := by
  have hf := loop_receive_frame c s e
  unfold loop_pass
  rcases h : loop_receive c s e with ⟨s1, _ | x⟩
  · rw [h] at hf
    simp only [] at hf
    simp only [loop_write_max, loop_ready]
    simp [hf.1]
  · rw [h] at hf
    simp only [] at hf
    simp [hf.1]

theorem get_u64_u64_bytes (v : Nat) (h : v < 2 ^ 64) : get_u64 (u64_bytes v) 0 = v := by
  simp only [get_u64, u64_bytes]
  norm_num
  omega

theorem get_u64_memcpy (dst src : Bytes) (n : Nat) (h : 8 ≤ n) :
    get_u64 (memcpy dst 0 src n) 0 = get_u64 src 0 := by
  have hb : ∀ i, i < 8 → memcpy dst 0 src n i = src i := by
    intro i hi
    simp only [memcpy]
    rw [if_pos ⟨Nat.zero_le _, by omega⟩]
    simp
  simp only [get_u64]
  rw [hb 0 (by omega), hb (0 + 1) (by omega), hb (0 + 2) (by omega), hb (0 + 3) (by omega),
    hb (0 + 4) (by omega), hb (0 + 5) (by omega), hb (0 + 6) (by omega), hb (0 + 7) (by omega)]

theorem loop_receive_ok (c : Common) (s : State) (e : Iter)
    (h1 : s.file_idx_global < (MAX_FILE_DATA_PART1 : Int))
    (h2 : e.recv1_len = (c.sizeof_data_part1_s : Int))
    (h3 : e.recv1.magic = c.MAGIC_DATA_PART1)
    (h4 : e.recv1.data_part2_length ≤ MAX_DATA_PART2_LENGTH)
    (h5 : e.recv2_len = (e.recv1.data_part2_length : Int))
    (h6 : get_u64 (recv_data_part2 s e e.recv1.data_part2_length).data_part2 0
      = c.MAGIC_DATA_PART2) :
    loop_receive c s e = (recv_data_part2 s e e.recv1.data_part2_length, none) := by
  unfold loop_receive
  rw [if_neg (not_le.mpr h1), if_neg (not_not.mpr h2), if_neg (not_not.mpr h3),
    if_neg (not_lt.mpr h4), if_neg (not_not.mpr h5), if_neg (not_not.mpr h6)]

theorem loop_pass_of_receive (c : Common) (s s1 : State) (e : Iter)
    (h : loop_receive c s e = (s1, none))
    (hw : e.pwrite_len = ((loop_record c s1 e).data_part2_length : Int)) :
    loop_pass c s e =
      ⟨follow (commit (advance (pwrite (store_data_part1 (loop_ready c s1 e) (loop_record c s1 e))
        (loop_ready c s1 e).data_part2 (loop_record c s1 e).data_part2_length
        (loop_ready c s1 e).offset e.pwrite_len) (loop_record c s1 e).data_part2_length)),
       none, loop_warn c s1 e⟩ := by
  unfold loop_pass
  rw [h]
  simp only [loop_write, if_neg (not_not.mpr hw)]

theorem msg_ok_receive (c : Common) (hc : c.wf) (s : State) (t : Nat)
    (h1 : s.file_idx_global < (MAX_FILE_DATA_PART1 : Int)) :
    loop_receive c s (msg_ok c t) =
      (recv_data_part2 s (msg_ok c t) c.sizeof_data_part2_s, none) := by
  obtain ⟨_, hm2, h8, h12, hmax, _, _⟩ := hc
  have := loop_receive_ok c s (msg_ok c t) h1 rfl rfl hmax rfl
    (by
      simp only [recv_data_part2, msg_ok, Int.toNat_ofNat, min_self]
      rw [get_u64_memcpy _ _ _ (by omega), get_u64_u64_bytes _ hm2])
  simpa [msg_ok] using this

theorem merge_cam_stale (c : Common) (e : Iter) (d : data_part1_s) (b : Bytes)
    (h : 1000000 ≤ (e.microsec_timer + 2 ^ 64 - e.jpeg_buff_us) % 2 ^ 64) :
    merge_cam c e d b = (d, b) := by
  unfold merge_cam
  split_ifs with h1 h2
  · omega
  · rfl
  · rfl

theorem msg_ok_stale (c : Common) (t : Nat) :
    1000000 ≤ ((msg_ok c t).microsec_timer + 2 ^ 64 - (msg_ok c t).jpeg_buff_us) % 2 ^ 64 := by
  show 1000000 ≤ (2000000 + 2 ^ 64 - 0) % 2 ^ 64
  norm_num

theorem msg_ok_record (c : Common) (s : State) (t : Nat) (h : s.opt_no_cam = false) :
    loop_record c s (msg_ok c t) = { (msg_ok c t).recv1 with data_part2_offset := s.offset } := by
  unfold loop_record
  rw [merge_cam_stale c _ _ _ (msg_ok_stale c t), h]
  rfl

theorem msg_ok_payload (c : Common) (s : State) (t : Nat) (h : s.opt_no_cam = false) :
    loop_payload c s (msg_ok c t) = s.data_part2 := by
  unfold loop_payload
  rw [merge_cam_stale c _ _ _ (msg_ok_stale c t), h]
  rfl

theorem msg_ok_pass (c : Common) (hc : c.wf) (s : State) (t : Nat)
    (hidx : s.file_idx_global < (MAX_FILE_DATA_PART1 : Int)) (hcam : s.opt_no_cam = false) :
    (loop_pass c s (msg_ok c t)).exit = none ∧
    (loop_pass c s (msg_ok c t)).state.file_hdr.max = s.file_hdr.max + 1 ∧
    (loop_pass c s (msg_ok c t)).state.file_data_part1 s.file_hdr.max =
      { (msg_ok c t).recv1 with data_part2_offset := s.offset } ∧
    (s.mode = mode_t.LIVE →
      (loop_pass c s (msg_ok c t)).state.file_idx_global = (s.file_hdr.max : Int) ∧
      (loop_pass c s (msg_ok c t)).state.mode = mode_t.LIVE) ∧
    (loop_pass c s (msg_ok c t)).state.opt_no_cam = false ∧
    (loop_pass c s (msg_ok c t)).state.get_live_data_state = s.get_live_data_state ∧
    (loop_pass c s (msg_ok c t)).state.offset = s.offset + c.sizeof_data_part2_s := by
  have hr := msg_ok_receive c hc s t hidx
  have hcam1 : (recv_data_part2 s (msg_ok c t) c.sizeof_data_part2_s).opt_no_cam = false := hcam
  have hrec := msg_ok_record c _ t hcam1
  have hw : (msg_ok c t).pwrite_len =
      ((loop_record c (recv_data_part2 s (msg_ok c t) c.sizeof_data_part2_s)
        (msg_ok c t)).data_part2_length : Int) := by
    rw [hrec]; rfl
  rw [loop_pass_of_receive c s _ _ hr hw, hrec]
  refine ⟨rfl, ?_, ?_, ?_, ?_, ?_, ?_⟩
  · simp
  · simp
  · intro hm
    simp [follow_idx, hm]
  · simp [hcam]
  · simp
  · simp [msg_ok, data_part1_zero]

theorem loop_write_flags (s : State) (d : data_part1_s) (w : Int) :
    (loop_write s d w).1.get_live_data_state = s.get_live_data_state ∧
    (loop_write s d w).1.opt_no_cam = s.opt_no_cam ∧
    (loop_write s d w).1.file_hdr.magic = s.file_hdr.magic := by
  unfold loop_write
  split_ifs <;> simp

theorem loop_pass_flags (c : Common) (s : State) (e : Iter) :
    (loop_pass c s e).state.get_live_data_state = s.get_live_data_state ∧
    (loop_pass c s e).state.opt_no_cam = s.opt_no_cam ∧
    (loop_pass c s e).state.file_hdr.magic = s.file_hdr.magic := by
  have hf := loop_receive_frame c s e
  unfold loop_pass
  rcases h : loop_receive c s e with ⟨s1, _ | x⟩
  · rw [h] at hf
    simp only [] at hf
    have hw := loop_write_flags (loop_ready c s1 e) (loop_record c s1 e) e.pwrite_len
    simp only [loop_ready_get_live_data_state, loop_ready_opt_no_cam, loop_ready_file_hdr] at hw
    simp only [hw.1, hw.2.1, hw.2.2, hf.1, hf.2.2.2.2.2.2.2.1, hf.2.2.2.2.2.2.2.2.1, and_self]
  · rw [h] at hf
    simp only [] at hf
    simp only [hf.1, hf.2.2.2.2.2.2.2.1, hf.2.2.2.2.2.2.2.2.1, and_self]

theorem reachable_loop (c : Common) (es : List Iter) :
    ∀ s : State, Reachable c s → s.get_live_data_state = live_state_t.STATE_ACTIVE →
      Reachable c (get_live_data_loop c s es) := by
  induction es with
  | nil => intro s hs _; exact hs
  | cons e es ih =>
    intro s hs ha
    have hstep := Reachable.pass s e hs ha
    unfold thread_step at hstep
    unfold get_live_data_loop
    split_ifs with hx
    · rw [if_pos hx] at hstep; exact hstep
    · rw [if_neg hx] at hstep
      exact ih _ hstep ((loop_pass_flags c s e).1.trans ha)

theorem run_msg_ok (c : Common) (hc : c.wf) (es : List Iter) :
    (∀ e, e ∈ es → ∃ t, e = msg_ok c t) →
    ∀ s : State, s.mode = mode_t.LIVE → s.opt_no_cam = false →
      s.file_idx_global = (s.file_hdr.max : Int) - 1 →
      s.file_hdr.max + es.length ≤ MAX_FILE_DATA_PART1 + 1 →
      (get_live_data_loop c s es).file_hdr.max = s.file_hdr.max + es.length ∧
      (get_live_data_loop c s es).mode = mode_t.LIVE ∧
      (get_live_data_loop c s es).opt_no_cam = false ∧
      (get_live_data_loop c s es).file_idx_global =
        ((s.file_hdr.max + es.length : Nat) : Int) - 1 ∧
      (get_live_data_loop c s es).get_live_data_state = s.get_live_data_state := by
  induction es with
  | nil =>
    intro _ s hm hcam hidx _
    simp [get_live_data_loop, hm, hcam, hidx]
  | cons e es ih =>
    intro hes s hm hcam hidx hle
    obtain ⟨t, rfl⟩ := hes e (List.mem_cons_self _ _)
    rw [List.length_cons] at hle
    have hlt : s.file_idx_global < (MAX_FILE_DATA_PART1 : Int) := by
      rw [hidx]; omega
    obtain ⟨hx, hmax, _, hlive, hcam1, hst, _⟩ := msg_ok_pass c hc s t hlt hcam
    obtain ⟨hi1, hm1⟩ := hlive hm
    unfold get_live_data_loop
    rw [hx]
    simp only [Option.isSome_none, Bool.false_eq_true, if_false]
    have := ih (fun e he => hes e (List.mem_cons_of_mem _ he))
      (loop_pass c s (msg_ok c t)).state hm1 hcam1
      (by rw [hi1, hmax]; push_cast; ring) (by rw [hmax]; omega)
    rw [hmax, hst] at this
    refine ⟨?_, this.2.1, this.2.2.1, ?_, this.2.2.2.2⟩
    · rw [this.1, List.length_cons]; ring
    · rw [this.2.2.2.1, List.length_cons]; congr 2; ring

theorem fresh_reachable (c : Common) : Reachable c (fresh c) := Reachable.start false

theorem common_sample_wf : common_sample.wf := by
  unfold Common.wf common_sample MAX_DATA_PART2_LENGTH
  norm_num

theorem ingested_spec (c : Common) (hc : c.wf) (n : Nat) (hn : n ≤ MAX_FILE_DATA_PART1 + 1) :
    Reachable c (ingested c n) ∧ (ingested c n).file_hdr.max = n ∧
    (ingested c n).mode = mode_t.LIVE ∧ (ingested c n).opt_no_cam = false ∧
    (ingested c n).file_idx_global = (n : Int) - 1 ∧
    (ingested c n).get_live_data_state = live_state_t.STATE_ACTIVE := by
  have hlen : ((List.range n).map (msg_ok c)).length = n := by simp
  have h := run_msg_ok c hc ((List.range n).map (msg_ok c))
    (fun e he => by
      obtain ⟨t, -, rfl⟩ := List.mem_map.mp he
      exact ⟨t, rfl⟩)
    (fresh c) rfl rfl rfl (by rw [hlen]; show 0 + n ≤ _; omega)
  have hz : (fresh c).file_hdr.max = 0 := rfl
  rw [hz, Nat.zero_add, hlen] at h
  exact ⟨reachable_loop c _ _ (fresh_reachable c) rfl, h.1, h.2.1, h.2.2.1, h.2.2.2.1,
    h.2.2.2.2.trans rfl⟩

/-! ## The effect of one pass on the log -/

theorem loop_receive_none (c : Common) (s s1 : State) (e : Iter)
    (h : loop_receive c s e = (s1, none)) :
    s1 = recv_data_part2 s e e.recv1.data_part2_length ∧
    s.file_idx_global < (MAX_FILE_DATA_PART1 : Int) ∧
    e.recv1_len = (c.sizeof_data_part1_s : Int) ∧
    e.recv1.magic = c.MAGIC_DATA_PART1 ∧
    e.recv1.data_part2_length ≤ MAX_DATA_PART2_LENGTH ∧
    e.recv2_len = (e.recv1.data_part2_length : Int) ∧
    get_u64 s1.data_part2 0 = c.MAGIC_DATA_PART2 := by
  unfold loop_receive at h
  split_ifs at h with h1 h2 h3 h4 h5 h6
  all_goals first
    | (exfalso; simp at h; done)
    | skip
  have hs : s1 = recv_data_part2 s e e.recv1.data_part2_length := by
    have := congrArg Prod.fst h
    exact this.symm
  refine ⟨hs, not_le.mp h1, not_not.mp h2, not_not.mp h3, not_lt.mp h4, not_not.mp h5, ?_⟩
  rw [hs]
  exact not_not.mp h6

theorem merge_cam_magic_time (c : Common) (e : Iter) (d : data_part1_s) (b : Bytes) :
    (merge_cam c e d b).1.magic = d.magic ∧ (merge_cam c e d b).1.time = d.time := by
  unfold merge_cam
  split_ifs <;> simp

theorem strip_cam_magic_time (c : Common) (nc : Bool) (d : data_part1_s) (b : Bytes) :
    (strip_cam c nc d b).1.magic = d.magic ∧ (strip_cam c nc d b).1.time = d.time := by
  unfold strip_cam
  split_ifs <;> simp

theorem loop_record_magic (c : Common) (s : State) (e : Iter) :
    (loop_record c s e).magic = e.recv1.magic := by
  unfold loop_record
  show (strip_cam c s.opt_no_cam _ _).1.magic = _
  rw [(strip_cam_magic_time c _ _ _).1, (merge_cam_magic_time c _ _ _).1]

theorem loop_record_time (c : Common) (s : State) (e : Iter) :
    (loop_record c s e).time = e.recv1.time := by
  unfold loop_record
  show (strip_cam c s.opt_no_cam _ _).1.time = _
  rw [(strip_cam_magic_time c _ _ _).2, (merge_cam_magic_time c _ _ _).2]

theorem loop_record_offset (c : Common) (s : State) (e : Iter) :
    (loop_record c s e).data_part2_offset = s.offset := rfl

theorem loop_write_none (s : State) (d : data_part1_s) (w : Int) :
    (loop_write s d w).2 = none ↔ w = (d.data_part2_length : Int) := by
  unfold loop_write
  split_ifs with h
  · simp [h]
  · simp [not_not.mp h]

theorem loop_write_slot (s : State) (d : data_part1_s) (w : Int) (i : Nat) :
    (loop_write s d w).1.file_data_part1 i =
      if i = s.file_hdr.max then d else s.file_data_part1 i := by
  unfold loop_write
  split_ifs <;> simp_all

theorem loop_write_bytes (s : State) (d : data_part1_s) (w : Int) :
    (loop_write s d w).1.file_bytes =
      memcpy s.file_bytes s.offset s.data_part2 (min w.toNat d.data_part2_length) := by
  unfold loop_write
  split_ifs <;> simp

theorem loop_write_size (s : State) (d : data_part1_s) (w : Int) :
    (loop_write s d w).1.file_size =
      if min w.toNat d.data_part2_length = 0 then s.file_size
      else max s.file_size (s.offset + min w.toNat d.data_part2_length) := by
  unfold loop_write
  split_ifs <;> simp_all

theorem loop_write_offset (s : State) (d : data_part1_s) (w : Int) :
    (loop_write s d w).1.offset =
      if w = (d.data_part2_length : Int) then s.offset + d.data_part2_length else s.offset := by
  unfold loop_write
  split_ifs <;> simp_all

/-- The effect of one pass of the loop on the log, in one statement. -/
theorem loop_pass_log (c : Common) (s : State) (e : Iter) :
    (∀ i, i ≠ s.file_hdr.max →
      (loop_pass c s e).state.file_data_part1 i = s.file_data_part1 i) ∧
    (∀ j, j < s.offset → (loop_pass c s e).state.file_bytes j = s.file_bytes j) ∧
    s.file_size ≤ (loop_pass c s e).state.file_size ∧
    ((loop_pass c s e).exit ≠ none → (loop_pass c s e).state.offset = s.offset) ∧
    ((loop_pass c s e).exit = none →
      ((loop_pass c s e).state.file_data_part1 s.file_hdr.max).data_part2_offset = s.offset ∧
      ((loop_pass c s e).state.file_data_part1 s.file_hdr.max).magic = c.MAGIC_DATA_PART1 ∧
      (loop_pass c s e).state.offset = s.offset +
        ((loop_pass c s e).state.file_data_part1 s.file_hdr.max).data_part2_length ∧
      (0 < ((loop_pass c s e).state.file_data_part1 s.file_hdr.max).data_part2_length →
        s.offset + ((loop_pass c s e).state.file_data_part1 s.file_hdr.max).data_part2_length
          ≤ (loop_pass c s e).state.file_size)) := by
  have hf := loop_receive_frame c s e
  unfold loop_pass
  rcases h : loop_receive c s e with ⟨s1, _ | x⟩
  · rw [h] at hf
    simp only [] at hf
    obtain ⟨hhdr, hslots, hbytes, hsize, hoff, -⟩ := hf
    obtain ⟨-, -, -, hmagic, -, -, -⟩ := loop_receive_none c s s1 e h
    simp only [loop_write_slot, loop_write_bytes, loop_write_size, loop_write_offset,
      loop_write_none, loop_ready_file_hdr, loop_ready_file_data_part1, loop_ready_file_bytes,
      loop_ready_file_size, loop_ready_offset, hhdr, hslots, hbytes, hsize, hoff]
    refine ⟨?_, ?_, ?_, ?_, ?_⟩
    · intro i hi; rw [if_neg hi]
    · intro j hj
      simp only [memcpy]
      rw [if_neg (by omega)]
    · split_ifs
      · exact le_refl _
      · exact le_max_left _ _
    · intro hne
      rw [ne_eq, loop_write_none] at hne
      rw [if_neg hne]
    · intro heq
      simp only [if_true, heq, Int.toNat_ofNat, min_self, loop_record_offset, hoff,
        loop_record_magic, hmagic]
      refine ⟨trivial, trivial, trivial, ?_⟩
      intro hpos
      rw [if_neg (by omega)]
      exact le_max_right _ _
  · rw [h] at hf
    simp only [] at hf
    obtain ⟨hhdr, hslots, hbytes, hsize, hoff, -⟩ := hf
    simp [hslots, hbytes, hsize, hoff]

/-! ## The log invariant holds in every reachable state -/

theorem LogInv_start (c : Common) (nc : Bool) : LogInv c (thread_start c (created c nc)) where
  contiguous := fun _ hi => absurd hi (Nat.not_lt_zero _)
  first := fun h => absurd h (Nat.lt_irrefl _)
  tail := rfl
  magic := fun _ hi => absurd hi (Nat.not_lt_zero _)
  below := fun _ hi => absurd hi (Nat.not_lt_zero _)
  written := le_refl _
  base := le_refl _

theorem LogInv_of_log_eq (c : Common) (s t : State) (h : LogInv c s)
    (h1 : t.file_hdr = s.file_hdr) (h2 : t.file_data_part1 = s.file_data_part1)
    (h3 : t.offset = s.offset) (h4 : t.file_size = s.file_size) : LogInv c t where
  contiguous := by rw [h1, h2]; exact h.contiguous
  first := by rw [h1, h2]; exact h.first
  tail := by unfold heap_tail; rw [h1, h2, h3]; exact h.tail
  magic := by rw [h1, h2]; exact h.magic
  below := by rw [h1, h2, h3]; exact h.below
  written := by rw [h3, h4]; exact h.written
  base := by rw [h3]; exact h.base

theorem LogInv_pass (c : Common) (s : State) (e : Iter) (h : LogInv c s) :
    LogInv c (loop_pass c s e).state := by
  obtain ⟨hslots, -, hsize, hfail, hok⟩ := loop_pass_log c s e
  have hmax := loop_pass_max c s e
  have htail := h.tail
  unfold heap_tail at htail
  generalize loop_pass c s e = p at *
  by_cases hx : p.exit = none
  · rw [if_pos hx] at hmax
    obtain ⟨hoff, hmag, hnew, hlen⟩ := hok hx
    refine ⟨?_, ?_, ?_, ?_, ?_, ?_, by rw [hnew]; exact le_trans h.base (Nat.le_add_right _ _)⟩
    · intro i hi
      rw [hmax] at hi
      by_cases hlast : i + 1 = s.file_hdr.max
      · rw [hlast, hoff, hslots i (by omega), htail, if_neg (by omega)]
        have : s.file_hdr.max - 1 = i := by omega
        rw [this]
      · rw [hslots i (by omega), hslots (i + 1) hlast]
        exact h.contiguous i (by omega)
    · intro _
      by_cases h0 : s.file_hdr.max = 0
      · rw [h0] at hoff
        rw [hoff, htail, if_pos h0]
      · rw [hslots 0 (by omega)]
        exact h.first (by omega)
    · unfold heap_tail
      rw [hmax, if_neg (by omega), Nat.add_sub_cancel, hoff, hnew]
    · intro i hi
      rw [hmax] at hi
      by_cases hlast : i = s.file_hdr.max
      · rw [hlast, hmag]
      · rw [hslots i hlast]
        exact h.magic i (by omega)
    · intro i hi
      rw [hmax] at hi
      by_cases hlast : i = s.file_hdr.max
      · rw [hlast, hoff, hnew]
      · rw [hslots i hlast, hnew]
        have := h.below i (by omega)
        omega
    · rw [hnew]
      by_cases hz : (p.state.file_data_part1 s.file_hdr.max).data_part2_length = 0
      · rw [hz]
        have := h.written
        omega
      · exact hlen (by omega)
  · rw [if_neg hx] at hmax
    have hoff := hfail hx
    refine ⟨?_, ?_, ?_, ?_, ?_, ?_, by rw [hoff]; exact h.base⟩
    · intro i hi
      rw [hmax] at hi
      rw [hslots i (by omega), hslots (i + 1) (by omega)]
      exact h.contiguous i hi
    · intro hpos
      rw [hmax] at hpos
      rw [hslots 0 (by omega)]
      exact h.first hpos
    · unfold heap_tail
      rw [hmax, hoff, htail]
      by_cases h0 : s.file_hdr.max = 0
      · rw [if_pos h0, if_pos h0]
      · rw [if_neg h0, if_neg h0, hslots _ (by omega)]
    · intro i hi
      rw [hmax] at hi
      rw [hslots i (by omega)]
      exact h.magic i hi
    · intro i hi
      rw [hmax] at hi
      rw [hslots i (by omega), hoff]
      exact h.below i hi
    · rw [hoff]
      exact le_trans h.written hsize

theorem LogInv_step (c : Common) (s : State) (e : Iter) (h : LogInv c s) :
    LogInv c (thread_step c s e) := by
  unfold thread_step
  split_ifs
  · exact LogInv_of_log_eq c _ _ (LogInv_pass c s e h) rfl rfl rfl rfl
  · exact LogInv_pass c s e h

theorem display_handler_event_log (s : State) (k : nav_event) :
    (display_handler_event s k).file_hdr = s.file_hdr ∧
    (display_handler_event s k).file_data_part1 = s.file_data_part1 ∧
    (display_handler_event s k).offset = s.offset ∧
    (display_handler_event s k).file_size = s.file_size ∧
    (display_handler_event s k).file_bytes = s.file_bytes ∧
    (display_handler_event s k).get_live_data_state = s.get_live_data_state := by
  cases k <;> unfold display_handler_event <;>
    first
      | exact ⟨rfl, rfl, rfl, rfl, rfl, rfl⟩
      | (unfold nav_right; split_ifs <;> exact ⟨rfl, rfl, rfl, rfl, rfl, rfl⟩)

theorem LogInv_nav (c : Common) (s : State) (k : nav_event) (h : LogInv c s) :
    LogInv c (display_handler_event s k) := by
  obtain ⟨h1, h2, h3, h4, -, -⟩ := display_handler_event_log s k
  exact LogInv_of_log_eq c _ _ h h1 h2 h3 h4

theorem reachable_LogInv (c : Common) (s : State) (h : Reachable c s) : LogInv c s := by
  induction h with
  | start nc => exact LogInv_start c nc
  | pass s e _ _ ih => exact LogInv_step c s e ih
  | nav s k _ ih => exact LogInv_nav c s k ih

/-! ## The full-file test of the ingestion loop -/

/-- C1, evaluated on the code: after a live session has ingested `MAX_FILE_DATA_PART1`
messages the log is full (`file_hdr->max = MAX_FILE_DATA_PART1`), yet the pass for the
next well-formed message does not end in `break`: the full-file test looks at
`file_idx_global`, which is `MAX_FILE_DATA_PART1 - 1`.  The pass stores the record into
slot `MAX_FILE_DATA_PART1`, moves the heap tail and leaves `file_hdr->max` at
`MAX_FILE_DATA_PART1 + 1`. -/
theorem full_log_pass_appends (c : Common) (hc : c.wf) :
    Reachable c (ingested c MAX_FILE_DATA_PART1) ∧
    (ingested c MAX_FILE_DATA_PART1).file_hdr.max = MAX_FILE_DATA_PART1 ∧
    (ingested c MAX_FILE_DATA_PART1).get_live_data_state = live_state_t.STATE_ACTIVE ∧
    (loop_pass c (ingested c MAX_FILE_DATA_PART1) (msg_ok c MAX_FILE_DATA_PART1)).exit = none ∧
    (loop_pass c (ingested c MAX_FILE_DATA_PART1) (msg_ok c MAX_FILE_DATA_PART1)).state.file_hdr.max
      = MAX_FILE_DATA_PART1 + 1 ∧
    (loop_pass c (ingested c MAX_FILE_DATA_PART1) (msg_ok c MAX_FILE_DATA_PART1)).state.file_data_part1
        MAX_FILE_DATA_PART1
      = { (msg_ok c MAX_FILE_DATA_PART1).recv1 with
          data_part2_offset := (ingested c MAX_FILE_DATA_PART1).offset } ∧
    (loop_pass c (ingested c MAX_FILE_DATA_PART1) (msg_ok c MAX_FILE_DATA_PART1)).state.offset
      = (ingested c MAX_FILE_DATA_PART1).offset + c.sizeof_data_part2_s := by
  obtain ⟨hr, hmax, _, hcam, hidx, hact⟩ :=
    ingested_spec c hc MAX_FILE_DATA_PART1 (Nat.le_succ _)
  have hlt : (ingested c MAX_FILE_DATA_PART1).file_idx_global < (MAX_FILE_DATA_PART1 : Int) := by
    rw [hidx]; omega
  obtain ⟨hx, hm, hslot, _, _, _, hoff⟩ := msg_ok_pass c hc _ MAX_FILE_DATA_PART1 hlt hcam
  rw [hmax] at hm hslot
  exact ⟨hr, hmax, hact, hx, hm, hslot, hoff⟩

/-- C1, instance of `full_log_pass_appends` for the sample parameters. -/
theorem full_log_pass_appends_witness :
    common_sample.wf ∧
    (ingested common_sample MAX_FILE_DATA_PART1).file_hdr.max = MAX_FILE_DATA_PART1 ∧
    (loop_pass common_sample (ingested common_sample MAX_FILE_DATA_PART1)
      (msg_ok common_sample MAX_FILE_DATA_PART1)).exit = none ∧
    (loop_pass common_sample (ingested common_sample MAX_FILE_DATA_PART1)
      (msg_ok common_sample MAX_FILE_DATA_PART1)).state.file_hdr.max = 86401 :=
  ⟨common_sample_wf, (full_log_pass_appends common_sample common_sample_wf).2.1,
    (full_log_pass_appends common_sample common_sample_wf).2.2.2.1,
    (full_log_pass_appends common_sample common_sample_wf).2.2.2.2.1⟩

/-- C2, evaluated on the code: the state after a live session has ingested
`MAX_FILE_DATA_PART1 + 1` messages on a freshly created log is reachable and its
`file_hdr->max` is `MAX_FILE_DATA_PART1 + 1`, above the capacity; it is a header that
the start-up check `file_hdr_ok` rejects. -/
theorem capacity_exceeded (c : Common) (hc : c.wf) :
    Reachable c (ingested c (MAX_FILE_DATA_PART1 + 1)) ∧
    (ingested c (MAX_FILE_DATA_PART1 + 1)).file_hdr.max = MAX_FILE_DATA_PART1 + 1 ∧
    ¬ (ingested c (MAX_FILE_DATA_PART1 + 1)).file_hdr.max ≤ MAX_FILE_DATA_PART1 ∧
    file_hdr_ok (ingested c (MAX_FILE_DATA_PART1 + 1)).file_hdr = false := by
  obtain ⟨hr, hmax, _⟩ := ingested_spec c hc (MAX_FILE_DATA_PART1 + 1) (Nat.le_refl _)
  refine ⟨hr, hmax, by rw [hmax]; omega, ?_⟩
  unfold file_hdr_ok
  rw [hmax]
  simp

/-- C2, instance of `capacity_exceeded` for the sample parameters. -/
theorem capacity_exceeded_witness :
    common_sample.wf ∧
    Reachable common_sample (ingested common_sample (MAX_FILE_DATA_PART1 + 1)) ∧
    (ingested common_sample (MAX_FILE_DATA_PART1 + 1)).file_hdr.max = MAX_FILE_DATA_PART1 + 1 :=
  ⟨common_sample_wf, (capacity_exceeded common_sample common_sample_wf).1,
    (capacity_exceeded common_sample common_sample_wf).2.1⟩

/-! ## The commit counter -/

theorem thread_step_max (c : Common) (s : State) (e : Iter) :
    (thread_step c s e).file_hdr.max = (loop_pass c s e).state.file_hdr.max := by
  unfold thread_step
  split_ifs <;> simp

theorem states_chain (c : Common) (es : List Iter) :
    ∀ s : State, List.Chain
      (fun a b : State => b.file_hdr.max = a.file_hdr.max ∨ b.file_hdr.max = a.file_hdr.max + 1)
      s (get_live_data_states c s es) := by
  induction es with
  | nil => intro s; exact List.Chain.nil
  | cons e es ih =>
    intro s
    have hm := loop_pass_max c s e
    unfold get_live_data_states
    split_ifs with hx
    · refine List.Chain.cons ?_ List.Chain.nil
      have : (loop_pass c s e).exit ≠ none := by
        intro h; rw [h] at hx; simp at hx
      rw [if_neg this] at hm
      left; simpa using hm
    · refine List.Chain.cons ?_ (ih _)
      have : (loop_pass c s e).exit = none := by
        cases h : (loop_pass c s e).exit with
        | none => rfl
        | some x => rw [h] at hx; simp at hx
      rw [if_pos this] at hm
      right; exact hm

/-- C5: a pass of the ingestion loop that does not end in `break` (a successful
append) takes `file_hdr->max` from `n` to exactly `n + 1`, a pass that ends in `break`
leaves it unchanged, and so does the exit code of the thread; hence along the
successive states of the thread over any stream of messages, each state has the same
counter as its predecessor or that counter plus one: it never decreases and never
skips a value. -/
theorem commit_counter_steps_by_one (c : Common) (s : State) (e : Iter) (es : List Iter) :
    (loop_pass c s e).state.file_hdr.max =
      (if (loop_pass c s e).exit = none then s.file_hdr.max + 1 else s.file_hdr.max) ∧
    (thread_step c s e).file_hdr.max = (loop_pass c s e).state.file_hdr.max ∧
    List.Chain
      (fun a b : State => b.file_hdr.max = a.file_hdr.max ∨ b.file_hdr.max = a.file_hdr.max + 1)
      s (get_live_data_states c s es) :=
  ⟨loop_pass_max c s e, thread_step_max c s e, states_chain c es s⟩

/-! ## Contiguity of the payload heap -/

theorem contiguous_mono (s : State)
    (hc : ∀ i, i + 1 < s.file_hdr.max →
      (s.file_data_part1 (i + 1)).data_part2_offset =
        (s.file_data_part1 i).data_part2_offset + (s.file_data_part1 i).data_part2_length)
    (i : Nat) : ∀ j, i < j → j < s.file_hdr.max →
      (s.file_data_part1 i).data_part2_offset + (s.file_data_part1 i).data_part2_length
        ≤ (s.file_data_part1 j).data_part2_offset := by
  intro j
  induction j with
  | zero => intro h; exact absurd h (Nat.not_lt_zero _)
  | succ j ih =>
    intro hij hj
    rw [hc j hj]
    by_cases hlast : i = j
    · rw [hlast]
    · have := ih (by omega) (by omega)
      omega

/-- C3: in every state reached from a freshly created log by passes of the ingestion
loop (and navigation keys), for every `i` with `i + 1 < file_hdr->max` the payload of
record `i + 1` starts where the payload of record `i` ends, the payload of record 0
starts at `FILE_DATA_PART2_OFFSET`, and the payload of an earlier record ends at or
before the start of the payload of any later record: no gaps and no overlaps. -/
theorem payload_heap_contiguous (c : Common) (s : State) (h : Reachable c s) :
    (∀ i, i + 1 < s.file_hdr.max →
      (s.file_data_part1 (i + 1)).data_part2_offset =
        (s.file_data_part1 i).data_part2_offset + (s.file_data_part1 i).data_part2_length) ∧
    (0 < s.file_hdr.max →
      (s.file_data_part1 0).data_part2_offset = FILE_DATA_PART2_OFFSET c) ∧
    (∀ i j, i < j → j < s.file_hdr.max →
      (s.file_data_part1 i).data_part2_offset + (s.file_data_part1 i).data_part2_length
        ≤ (s.file_data_part1 j).data_part2_offset) :=
  ⟨(reachable_LogInv c s h).contiguous, (reachable_LogInv c s h).first,
    fun i => contiguous_mono s (reachable_LogInv c s h).contiguous i⟩

/-- C3, instance of `payload_heap_contiguous`: the log after two ingested messages. -/
theorem payload_heap_contiguous_witness :
    Reachable common_sample (ingested common_sample 2) ∧
    ((ingested common_sample 2).file_data_part1 (0 + 1)).data_part2_offset =
      ((ingested common_sample 2).file_data_part1 0).data_part2_offset +
        ((ingested common_sample 2).file_data_part1 0).data_part2_length ∧
    ((ingested common_sample 2).file_data_part1 0).data_part2_offset =
      FILE_DATA_PART2_OFFSET common_sample :=
  ⟨(ingested_spec common_sample common_sample_wf 2 (by decide)).1,
    (payload_heap_contiguous common_sample _
      (ingested_spec common_sample common_sample_wf 2 (by decide)).1).1 0
      (by rw [(ingested_spec common_sample common_sample_wf 2 (by decide)).2.1]; decide),
    (payload_heap_contiguous common_sample _
      (ingested_spec common_sample common_sample_wf 2 (by decide)).1).2.1
      (by rw [(ingested_spec common_sample common_sample_wf 2 (by decide)).2.1]; decide)⟩

/-! ## Committed records are never changed -/

theorem thread_step_log (c : Common) (s : State) (e : Iter) :
    (thread_step c s e).file_data_part1 = (loop_pass c s e).state.file_data_part1 ∧
    (thread_step c s e).file_bytes = (loop_pass c s e).state.file_bytes ∧
    (thread_step c s e).file_size = (loop_pass c s e).state.file_size ∧
    (thread_step c s e).offset = (loop_pass c s e).state.offset := by
  unfold thread_step
  split_ifs <;> simp

/-- C7: for every reachable state of the log and every pass of the ingestion loop
started in it, whether the pass commits a record or ends in `break` (followed by the
exit code of the thread), every index record in a slot below the old
`file_hdr->max` and every payload byte addressed by such a record is the same after
the pass as before. -/
theorem committed_records_immutable (c : Common) (s : State) (e : Iter)
    (h : Reachable c s) (i : Nat) (hi : i < s.file_hdr.max) :
    (thread_step c s e).file_data_part1 i = s.file_data_part1 i ∧
    (∀ j, (s.file_data_part1 i).data_part2_offset ≤ j →
      j < (s.file_data_part1 i).data_part2_offset + (s.file_data_part1 i).data_part2_length →
      (thread_step c s e).file_bytes j = s.file_bytes j) := by
  obtain ⟨hslots, hbytes, -, -, -⟩ := loop_pass_log c s e
  obtain ⟨h1, h2, -, -⟩ := thread_step_log c s e
  rw [h1, h2]
  refine ⟨hslots i (by omega), ?_⟩
  intro j _ hj
  have := (reachable_LogInv c s h).below i hi
  exact hbytes j (by omega)

/-- C7, instance of `committed_records_immutable`: slot 0 of the log that holds one
record, across the pass for a second message. -/
theorem committed_records_immutable_witness :
    Reachable common_sample (ingested common_sample 1) ∧
    0 < (ingested common_sample 1).file_hdr.max ∧
    (thread_step common_sample (ingested common_sample 1)
        (msg_ok common_sample 1)).file_data_part1 0
      = (ingested common_sample 1).file_data_part1 0 :=
  ⟨(ingested_spec common_sample common_sample_wf 1 (by decide)).1,
    by rw [(ingested_spec common_sample common_sample_wf 1 (by decide)).2.1]; decide,
    (committed_records_immutable common_sample _ (msg_ok common_sample 1)
      (ingested_spec common_sample common_sample_wf 1 (by decide)).1 0
      (by rw [(ingested_spec common_sample common_sample_wf 1 (by decide)).2.1]; decide)).1⟩

/-! ## The commit counter is published last -/

theorem pwrite_size_le (s : State) (b : Bytes) (n off : Nat) (r : Int) :
    s.file_size ≤ (pwrite s b n off r).file_size := by
  rw [pwrite_size]
  split_ifs
  · exact le_refl _
  · exact le_max_left _ _

theorem pwrite_size_full (s : State) (b : Bytes) (n off : Nat) (hn : 0 < n) :
    off + n ≤ (pwrite s b n off (n : Int)).file_size := by
  rw [pwrite_size]
  simp only [Int.toNat_ofNat, min_self]
  rw [if_neg (by omega)]
  exact le_max_right _ _

theorem loop_write_trace_mem (s : State) (d : data_part1_s) (w : Int) (t : State)
    (ht : t ∈ loop_write_trace s d w) :
    (∀ i, i ≠ s.file_hdr.max → t.file_data_part1 i = s.file_data_part1 i) ∧
    s.file_size ≤ t.file_size ∧
    (t.file_hdr.max = s.file_hdr.max ∨
      (t.file_hdr.max = s.file_hdr.max + 1 ∧ t.file_data_part1 s.file_hdr.max = d ∧
        t.file_bytes = memcpy s.file_bytes s.offset s.data_part2 d.data_part2_length ∧
        (0 < d.data_part2_length → s.offset + d.data_part2_length ≤ t.file_size))) := by
  have hsz := pwrite_size_le (store_data_part1 s d) s.data_part2 d.data_part2_length s.offset w
  rw [store_data_part1_file_size] at hsz
  unfold loop_write_trace at ht
  split_ifs at ht with hw
  · simp only [List.mem_cons, List.mem_singleton, List.mem_nil_iff, or_false] at ht
    rcases ht with rfl | rfl
    · exact ⟨fun i hi => by simp [hi], le_refl _, Or.inl rfl⟩
    · exact ⟨fun i hi => by simp [hi], hsz, Or.inl rfl⟩
  · have hw1 : w = (d.data_part2_length : Int) := not_not.mp hw
    have hfull := fun hpos =>
      pwrite_size_full (store_data_part1 s d) s.data_part2 d.data_part2_length s.offset hpos
    rw [← hw1] at hfull
    have hmin : min w.toNat d.data_part2_length = d.data_part2_length := by
      rw [hw1]; simp
    simp only [List.mem_cons, List.mem_singleton, List.mem_nil_iff, or_false] at ht
    rcases ht with rfl | rfl | rfl | rfl | rfl
    · exact ⟨fun i hi => by simp [hi], le_refl _, Or.inl rfl⟩
    · exact ⟨fun i hi => by simp [hi], hsz, Or.inl rfl⟩
    · exact ⟨fun i hi => by simp [hi], hsz, Or.inl rfl⟩
    · exact ⟨fun i hi => by simp [hi], hsz, Or.inr ⟨rfl, by simp, by simp [hmin], hfull⟩⟩
    · refine ⟨fun i hi => by simp [hi], ?_, Or.inr ⟨by simp, by simp, by simp [hmin], ?_⟩⟩
      · rw [follow_file_size]; exact hsz
      · rw [follow_file_size]; exact hfull

theorem Published_of_LogInv (c : Common) (s : State) (h : LogInv c s) : Published c s :=
  fun i hi => ⟨h.magic i hi, le_trans (h.below i hi) h.written⟩

theorem loop_write_trace_last (s : State) (d : data_part1_s) (w : Int) :
    (loop_write_trace s d w).getLast? = some (loop_write s d w).1 := by
  unfold loop_write_trace loop_write
  split_ifs <;> rfl

theorem loop_pass_trace_last (c : Common) (s : State) (e : Iter) :
    (loop_pass_trace c s e).getLast? = some (loop_pass c s e).state := by
  unfold loop_pass_trace loop_pass
  rcases h : loop_receive c s e with ⟨s1, _ | x⟩
  · show (s :: s1 :: loop_ready c s1 e :: loop_write_trace _ _ _).getLast? = some (loop_write _ _ _).1
    unfold loop_write_trace loop_write
    split_ifs <;> rfl
  · rfl

/-- C6: the last state of the trace of a pass is the state that the pass returns, and
in every state that a pass started in a reachable state goes through, every slot below
`file_hdr->max` holds a record with `MAGIC_DATA_PART1` whose payload range lies inside
the written file; moreover `file_hdr->max` is either still the old value or the old
value plus one, and in the latter case the new slot already holds the record with
`data_part2_offset` equal to the old heap tail and the file already holds all payload
bytes of that record: the counter is incremented after both stores. -/
theorem publish_last (c : Common) (s : State) (e : Iter) (h : Reachable c s) :
    (loop_pass_trace c s e).getLast? = some (loop_pass c s e).state ∧
    ∀ t, t ∈ loop_pass_trace c s e →
      Published c t ∧
      (t.file_hdr.max = s.file_hdr.max ∨
        (t.file_hdr.max = s.file_hdr.max + 1 ∧
          t.file_data_part1 s.file_hdr.max = loop_record c (loop_receive c s e).1 e ∧
          (t.file_data_part1 s.file_hdr.max).data_part2_offset = s.offset ∧
          ∀ j, j < (t.file_data_part1 s.file_hdr.max).data_part2_length →
            t.file_bytes (s.offset + j) = loop_payload c (loop_receive c s e).1 e j)) := by
  refine ⟨loop_pass_trace_last c s e, ?_⟩
  have hinv := reachable_LogInv c s h
  have hpub := Published_of_LogInv c s hinv
  have hf := loop_receive_frame c s e
  intro t ht
  unfold loop_pass_trace at ht
  rcases hr : loop_receive c s e with ⟨s1, _ | x⟩
  · rw [hr] at ht hf
    simp only [] at hf
    obtain ⟨hhdr, hslots, hbytes, hsize, hoff, -⟩ := hf
    have hpub1 : Published c s1 := by
      intro i hi
      rw [hhdr] at hi
      rw [hslots, hsize]
      exact hpub i hi
    simp only [List.mem_cons] at ht
    rcases ht with rfl | rfl | rfl | ht
    · exact ⟨hpub, Or.inl rfl⟩
    · exact ⟨hpub1, Or.inl (by rw [hhdr])⟩
    · exact ⟨hpub1, Or.inl (by simp [hhdr])⟩
    · obtain ⟨hs, hsz, hm⟩ :=
        loop_write_trace_mem (loop_ready c s1 e) (loop_record c s1 e) e.pwrite_len t ht
      simp only [loop_ready_file_hdr, loop_ready_file_data_part1, loop_ready_file_size,
        loop_ready_file_bytes, loop_ready_offset, loop_ready_buf, hhdr, hslots, hsize, hbytes,
        hoff] at hs hsz hm
      obtain ⟨-, -, -, hmagic, -, -, -⟩ := loop_receive_none c s s1 e hr
      rcases hm with hm | ⟨hm, hnew, hfile, hlen⟩
      · refine ⟨?_, Or.inl hm⟩
        intro i hi
        rw [hm] at hi
        rw [hs i (by omega)]
        exact ⟨(hpub i hi).1, le_trans (hpub i hi).2 hsz⟩
      · refine ⟨?_, Or.inr ⟨hm, hnew, ?_, ?_⟩⟩
        · intro i hi
          rw [hm] at hi
          by_cases hlast : i = s.file_hdr.max
          · rw [hlast, hnew, loop_record_magic, loop_record_offset, hoff]
            refine ⟨hmagic, ?_⟩
            by_cases hz : (loop_record c s1 e).data_part2_length = 0
            · rw [hz]
              exact le_trans hinv.written hsz
            · exact hlen (by omega)
          · rw [hs i hlast]
            exact ⟨(hpub i (by omega)).1, le_trans (hpub i (by omega)).2 hsz⟩
        · rw [hnew, loop_record_offset, hoff]
        · intro j hj
          rw [hnew] at hj
          rw [hfile]
          simp only [memcpy]
          rw [if_pos ⟨by omega, by omega⟩, Nat.add_sub_cancel_left]
  · rw [hr] at ht hf
    simp only [] at hf
    obtain ⟨hhdr, hslots, -, hsize, -, -⟩ := hf
    simp only [List.mem_cons, List.mem_singleton, List.mem_nil_iff, or_false] at ht
    rcases ht with rfl | rfl
    · exact ⟨hpub, Or.inl rfl⟩
    · refine ⟨?_, Or.inl (by rw [hhdr])⟩
      intro i hi
      rw [hhdr] at hi
      rw [hslots, hsize]
      exact hpub i hi

/-- C6, instance of `publish_last`: the pass for a second message on the log that
holds one record; the state that the pass returns is in the trace and is published. -/
theorem publish_last_witness :
    Reachable common_sample (ingested common_sample 1) ∧
    Published common_sample
      (loop_pass common_sample (ingested common_sample 1) (msg_ok common_sample 1)).state :=
  ⟨(ingested_spec common_sample common_sample_wf 1 (by decide)).1,
    ((publish_last common_sample _ (msg_ok common_sample 1)
      (ingested_spec common_sample common_sample_wf 1 (by decide)).1).2 _
      (List.mem_of_getLast?_eq_some
        (publish_last common_sample _ (msg_ok common_sample 1)
          (ingested_spec common_sample common_sample_wf 1 (by decide)).1).1)).1⟩

/-! ## The header check at start-up -/

/-- C8: the start-up code goes on past the header check exactly when the header magic
is `MAGIC_FILE` and `file_hdr->max` is at most `MAX_FILE_DATA_PART1`; when the check
fails the start-up code returns -1 whatever the index records, the mode and the
environment are, so no record is looked at. -/
theorem open_validation (c : Common) (h : file_hdr_t) :
    (file_hdr_ok h = true ↔ h.magic = MAGIC_FILE ∧ h.max ≤ MAX_FILE_DATA_PART1) ∧
    (file_hdr_ok h = false →
      ∀ (m : mode_t) (part1 : Nat → data_part1_s) (env : live_setup),
        initialize_from_hdr c m h part1 env = -1) := by
  constructor
  · unfold file_hdr_ok
    simp
  · intro hbad m part1 env
    unfold initialize_from_hdr
    rw [if_pos hbad]

/-- C8, instance of `open_validation`: a header with `max` one above the capacity. -/
theorem open_validation_witness :
    file_hdr_ok ⟨MAGIC_FILE, 0, MAX_FILE_DATA_PART1 + 1⟩ = false ∧
    initialize_from_hdr common_sample mode_t.PLAYBACK ⟨MAGIC_FILE, 0, MAX_FILE_DATA_PART1 + 1⟩
      (fun _ => data_part1_zero) ⟨0, 0, 0, 0, true⟩ = -1 :=
  ⟨by decide,
    (open_validation common_sample ⟨MAGIC_FILE, 0, MAX_FILE_DATA_PART1 + 1⟩).2 (by decide)
      mode_t.PLAYBACK (fun _ => data_part1_zero) ⟨0, 0, 0, 0, true⟩⟩

/-! ## The range check of the read path -/

theorem read_data_part2_agree (c : Common) (s t : State) (r : Reader) (file_idx : Int)
    (pread_len : Int) (hb : t.file_bytes = s.file_bytes)
    (hs : t.file_data_part1 file_idx.toNat = s.file_data_part1 file_idx.toNat) :
    read_data_part2 c t r file_idx pread_len = read_data_part2 c s r file_idx pread_len := by
  unfold read_data_part2
  rw [hb, hs]

theorem fetch_agree (c : Common) (s t : State) (r : Reader) (file_idx : Int) (pread_len : Int)
    (h : agree_below_max s t) :
    display_handler_fetch c t r file_idx pread_len
      = display_handler_fetch c s r file_idx pread_len := by
  obtain ⟨hh, hb, hs⟩ := h
  unfold display_handler_fetch
  rw [hh]
  by_cases hr : file_idx < 0 ∨ (s.file_hdr.max : Int) ≤ file_idx
  · rw [if_pos (by tauto), if_pos (by tauto)]
  · have hlt : file_idx.toNat < s.file_hdr.max := by omega
    rw [hs _ hlt, read_data_part2_agree c s t r file_idx pread_len hb (hs _ hlt)]

/-- C9: for every index outside `[0, file_hdr->max)` the read path of
`display_handler` ends in `FATAL("invalid file_idx ...")`: it yields neither an index
record nor a payload and leaves the cache of `read_data_part2` alone.  Moreover, for
every index, the outcome of the read path does not depend on what the slots at or
beyond `file_hdr->max` hold: no such slot is looked at. -/
theorem read_range_check (c : Common) (s : State) (r : Reader) (file_idx : Int)
    (pread_len : Int) :
    (file_idx < 0 ∨ (s.file_hdr.max : Int) ≤ file_idx →
      display_handler_fetch c s r file_idx pread_len = (fetch_ret.FATAL_invalid_file_idx, r)) ∧
    (∀ t : State, agree_below_max s t →
      display_handler_fetch c t r file_idx pread_len
        = display_handler_fetch c s r file_idx pread_len) := by
  constructor
  · intro h
    unfold display_handler_fetch
    rw [if_pos (by tauto)]
  · intro t ht
    exact fetch_agree c s t r file_idx pread_len ht

theorem agree_with_junk (s : State) (junk : Nat → data_part1_s) :
    agree_below_max s (with_junk_beyond_max s junk) :=
  ⟨rfl, rfl, fun i hi => by simp [with_junk_beyond_max, hi]⟩

/-- C9, instance of `read_range_check`: on the log that holds one record, index 1 is
refused, and so it is when slot 1 and all later slots hold records with the right
magic. -/
theorem read_range_check_witness :
    ((ingested common_sample 1).file_hdr.max : Int) ≤ 1 ∧
    display_handler_fetch common_sample (ingested common_sample 1) Reader.init 1 16
      = (fetch_ret.FATAL_invalid_file_idx, Reader.init) ∧
    display_handler_fetch common_sample
        (with_junk_beyond_max (ingested common_sample 1) (fun _ => (msg_ok common_sample 0).recv1))
        Reader.init 1 16
      = display_handler_fetch common_sample (ingested common_sample 1) Reader.init 1 16 :=
  ⟨by rw [(ingested_spec common_sample common_sample_wf 1 (by decide)).2.1]; decide,
    (read_range_check common_sample (ingested common_sample 1) Reader.init 1 16).1
      (Or.inr (by rw [(ingested_spec common_sample common_sample_wf 1 (by decide)).2.1]; decide)),
    (read_range_check common_sample (ingested common_sample 1) Reader.init 1 16).2 _
      (agree_with_junk _ _)⟩

/-! ## Reading a payload back -/

theorem land_page_mask (x : Nat) (hx : x < 2 ^ 64) :
    x &&& 0xfffffffffffff000 = x / 4096 * 4096 := by
  have hm : (0xfffffffffffff000 : Nat) = 2 ^ 12 * (2 ^ 52 - 1) := by norm_num
  have hd : x / 4096 * 4096 = 2 ^ 12 * (x / 2 ^ 12) := by
    rw [Nat.mul_comm]; norm_num
  rw [hm, hd]
  apply Nat.eq_of_testBit_eq
  intro i
  rw [Nat.testBit_and, Nat.testBit_mul_pow_two, Nat.testBit_mul_pow_two,
    Nat.testBit_two_pow_sub_one]
  by_cases h12 : 12 ≤ i
  · rw [← Nat.shiftRight_eq_div_pow, Nat.testBit_shiftRight]
    have h1 : 12 + (i - 12) = i := by omega
    rw [h1]
    by_cases h64 : i < 64
    · have h2 : i - 12 < 52 := by omega
      simp [h12, h2]
    · have h3 : x.testBit i = false :=
        Nat.testBit_lt_two_pow
          (lt_of_lt_of_le hx (Nat.pow_le_pow_right (by norm_num) (by omega)))
      simp [h3]
  · simp [h12]

theorem FILE_DATA_PART2_OFFSET_eq (c : Common) (hc : c.wf) :
    FILE_DATA_PART2_OFFSET c =
      (4096 + c.sizeof_data_part1_s * MAX_FILE_DATA_PART1 + 0x1000) / 4096 * 4096 := by
  obtain ⟨-, -, -, -, -, -, h32⟩ := hc
  unfold FILE_DATA_PART2_OFFSET
  apply land_page_mask
  unfold MAX_FILE_DATA_PART1
  norm_num at h32 ⊢
  omega

theorem FILE_DATA_PART2_OFFSET_pos (c : Common) (hc : c.wf) : 0 < FILE_DATA_PART2_OFFSET c := by
  rw [FILE_DATA_PART2_OFFSET_eq c hc]
  unfold MAX_FILE_DATA_PART1
  omega

theorem get_u64_congr (b1 b2 : Bytes) (off : Nat) (h : ∀ i, i < 8 → b1 (off + i) = b2 (off + i)) :
    get_u64 b1 off = get_u64 b2 off := by
  unfold get_u64
  rw [show b1 off = b2 off from h 0 (by omega), h 1 (by omega), h 2 (by omega), h 3 (by omega),
    h 4 (by omega), h 5 (by omega), h 6 (by omega), h 7 (by omega)]

theorem merge_cam_low (c : Common) (hc : c.wf) (e : Iter) (d : data_part1_s) (b : Bytes)
    (i : Nat) (hi : i < 8) : (merge_cam c e d b).2 i = b i := by
  obtain ⟨-, -, h8, h12, -, -, -⟩ := hc
  unfold merge_cam
  split_ifs
  · simp only [put_u32, memcpy]
    rw [if_neg (by omega), if_neg (by omega)]
  · rfl
  · rfl

theorem strip_cam_low (c : Common) (hc : c.wf) (nc : Bool) (d : data_part1_s) (b : Bytes)
    (i : Nat) (hi : i < 8) : (strip_cam c nc d b).2 i = b i := by
  obtain ⟨-, -, h8, -, -, -, -⟩ := hc
  unfold strip_cam
  split_ifs
  · simp only [put_u32]
    rw [if_neg (by omega)]
  · rfl

theorem loop_payload_magic (c : Common) (hc : c.wf) (s : State) (e : Iter) :
    get_u64 (loop_payload c s e) 0 = get_u64 s.data_part2 0 := by
  apply get_u64_congr
  intro i hi
  unfold loop_payload
  rw [strip_cam_low c hc _ _ _ _ (by omega), merge_cam_low c hc _ _ _ _ (by omega)]

/-- A complete `pread` of a payload that is not cached, has at least eight bytes, a
non-zero offset and the right magic: the buffer is returned and the index is cached. -/
theorem read_data_part2_full (c : Common) (s : State) (r : Reader) (i : Nat)
    (hmiss : (i : Int) ≠ r.last_read_file_idx)
    (hlen : 8 ≤ (s.file_data_part1 i).data_part2_length)
    (hoff : (s.file_data_part1 i).data_part2_offset ≠ 0)
    (hmagic : get_u64 (fun j => s.file_bytes ((s.file_data_part1 i).data_part2_offset + j)) 0
      = c.MAGIC_DATA_PART2) :
    read_data_part2 c s r i (s.file_data_part1 i).data_part2_length =
      (dp2_ret.data (memcpy r.last_read_data_part2 0
        (fun j => s.file_bytes ((s.file_data_part1 i).data_part2_offset + j))
        (s.file_data_part1 i).data_part2_length),
       ⟨i, memcpy r.last_read_data_part2 0
        (fun j => s.file_bytes ((s.file_data_part1 i).data_part2_offset + j))
        (s.file_data_part1 i).data_part2_length⟩) := by
  unfold read_data_part2
  simp only [Int.toNat_ofNat, min_self]
  rw [if_neg hmiss, if_neg (by omega), if_neg (by simp),
    if_neg (by rw [get_u64_memcpy _ _ _ hlen]; exact not_not.mpr hmagic)]

/-- Further passes of the loop leave a committed record and its payload bytes alone. -/
theorem loop_keeps_committed (c : Common) (es : List Iter) :
    ∀ s : State, LogInv c s → ∀ i, i < s.file_hdr.max →
      (get_live_data_loop c s es).file_data_part1 i = s.file_data_part1 i ∧
      (∀ j, j < (s.file_data_part1 i).data_part2_offset + (s.file_data_part1 i).data_part2_length →
        (get_live_data_loop c s es).file_bytes j = s.file_bytes j) := by
  induction es with
  | nil => intro s _ i _; exact ⟨rfl, fun _ _ => rfl⟩
  | cons e es ih =>
    intro s hs i hi
    obtain ⟨hslots, hbytes, -, -, -⟩ := loop_pass_log c s e
    have hb := hs.below i hi
    unfold get_live_data_loop
    split_ifs with hx
    · exact ⟨by rw [thread_exit_file_data_part1]; exact hslots i (by omega),
        fun j hj => by rw [thread_exit_file_bytes]; exact hbytes j (by omega)⟩
    · have hmax := loop_pass_max c s e
      have hi1 : i < (loop_pass c s e).state.file_hdr.max := by
        rw [hmax]; split_ifs <;> omega
      obtain ⟨h1, h2⟩ := ih _ (LogInv_pass c s e hs) i hi1
      rw [hslots i (by omega)] at h1 h2
      exact ⟨h1, fun j hj => by rw [h2 j hj]; exact hbytes j (by omega)⟩

/-- What a pass that commits has stored: the record in the new slot and the payload
bytes at the old heap tail; the payload buffer had passed the magic test. -/
theorem loop_pass_commit (c : Common) (s : State) (e : Iter)
    (hx : (loop_pass c s e).exit = none) :
    (loop_pass c s e).state.file_data_part1 s.file_hdr.max
      = loop_record c (loop_receive c s e).1 e ∧
    (loop_pass c s e).state.file_bytes
      = memcpy s.file_bytes s.offset (loop_payload c (loop_receive c s e).1 e)
          (loop_record c (loop_receive c s e).1 e).data_part2_length ∧
    get_u64 (loop_receive c s e).1.data_part2 0 = c.MAGIC_DATA_PART2 ∧
    (loop_record c (loop_receive c s e).1 e).data_part2_offset = s.offset := by
  have hf := loop_receive_frame c s e
  unfold loop_pass at hx ⊢
  rcases h : loop_receive c s e with ⟨s1, _ | x⟩
  · rw [h] at hf hx
    simp only [] at hf hx
    obtain ⟨hhdr, -, hbytes, -, hoff, -⟩ := hf
    obtain ⟨-, -, -, -, -, -, hmagic⟩ := loop_receive_none c s s1 e h
    rw [loop_write_none] at hx
    simp only [loop_write_slot, loop_write_bytes, loop_ready_file_hdr, loop_ready_file_bytes,
      loop_ready_offset, loop_ready_buf, hhdr, hbytes, hoff, hx, Int.toNat_ofNat, min_self,
      if_true, loop_record_offset]
    exact ⟨trivial, trivial, hmagic, trivial⟩
  · rw [h] at hx
    simp at hx

/-- Round trip of the records whose payload holds the magic.  Let a pass of the
ingestion loop, started in a reachable state, commit a record into slot
`k = file_hdr->max` whose length, after the camera merge and strip, is within the
`MAX_DATA_PART2_LENGTH` bytes of the payload buffers, and let the thread then process
any further stream of messages.  The record in slot `k` is the appended record (the
received one after the camera merge and strip) with only `data_part2_offset` replaced
by the heap tail.  If the declared payload length is at least 8, a complete `pread` by
`read_data_part2(k)`, with a cache that refers to a slot committed before the append,
returns a buffer whose first `data_part2_length` bytes are the bytes that were written,
and caches `k`; if the declared length is 0, `read_data_part2(k)` returns `NULL`. -/
theorem round_trip (c : Common) (hc : c.wf) (s : State) (e : Iter) (es : List Iter)
    (r : Reader) (h : Reachable c s) (hx : (loop_pass c s e).exit = none)
    (hr : r.last_read_file_idx < (s.file_hdr.max : Int))
    (_hbuf : (loop_record c (loop_receive c s e).1 e).data_part2_length
      ≤ MAX_DATA_PART2_LENGTH) :
    (get_live_data_loop c (loop_pass c s e).state es).file_data_part1 s.file_hdr.max
      = { (strip_cam c s.opt_no_cam
            (merge_cam c e e.recv1 (loop_receive c s e).1.data_part2).1
            (merge_cam c e e.recv1 (loop_receive c s e).1.data_part2).2).1 with
          data_part2_offset := s.offset } ∧
    (8 ≤ (loop_record c (loop_receive c s e).1 e).data_part2_length →
      ∃ b : Bytes,
        read_data_part2 c (get_live_data_loop c (loop_pass c s e).state es) r s.file_hdr.max
            (loop_record c (loop_receive c s e).1 e).data_part2_length
          = (dp2_ret.data b, ⟨s.file_hdr.max, b⟩) ∧
        ∀ j, j < (loop_record c (loop_receive c s e).1 e).data_part2_length →
          b j = loop_payload c (loop_receive c s e).1 e j) ∧
    ((loop_record c (loop_receive c s e).1 e).data_part2_length = 0 →
      ∀ pread_len : Int,
        read_data_part2 c (get_live_data_loop c (loop_pass c s e).state es) r s.file_hdr.max
          pread_len = (dp2_ret.NULL, r)) := by
  have hinv := reachable_LogInv c s h
  have hinv1 := LogInv_pass c s e hinv
  obtain ⟨hslot, hbytes, hmagic, hoff⟩ := loop_pass_commit c s e hx
  have hmax := loop_pass_max c s e
  rw [if_pos hx] at hmax
  obtain ⟨hk1, hk2⟩ := loop_keeps_committed c es _ hinv1 s.file_hdr.max (by omega)
  rw [hslot] at hk1 hk2
  have hfr := loop_receive_frame c s e
  have hmiss : ((s.file_hdr.max : Nat) : Int) ≠ r.last_read_file_idx := by omega
  refine ⟨?_, ?_, ?_⟩
  · rw [hk1]
    unfold loop_record
    rw [hfr.2.2.2.2.1, hfr.2.2.2.2.2.2.2.2.1]
  · intro hlen
    have hpos := FILE_DATA_PART2_OFFSET_pos c hc
    have hbase := hinv.base
    have hfile : ∀ j, j < (loop_record c (loop_receive c s e).1 e).data_part2_length →
        (get_live_data_loop c (loop_pass c s e).state es).file_bytes (s.offset + j)
          = loop_payload c (loop_receive c s e).1 e j := by
      intro j hj
      rw [hk2 (s.offset + j) (by rw [hoff]; omega), hbytes]
      simp only [memcpy]
      rw [if_pos ⟨by omega, by omega⟩, Nat.add_sub_cancel_left]
    have hfull := read_data_part2_full c (get_live_data_loop c (loop_pass c s e).state es) r
      s.file_hdr.max hmiss (by rw [hk1]; exact hlen) (by rw [hk1, hoff]; omega)
      (by
        rw [hk1, hoff, ← hmagic, ← loop_payload_magic c hc _ e]
        apply get_u64_congr
        intro i hi
        rw [Nat.zero_add]
        exact hfile i (by omega))
    rw [hk1, hoff] at hfull
    refine ⟨_, hfull, ?_⟩
    intro j hj
    simp only [memcpy]
    rw [if_pos ⟨by omega, by omega⟩, Nat.sub_zero]
    exact hfile j hj
  · intro hz pl
    unfold read_data_part2
    rw [if_neg hmiss, Int.toNat_ofNat, hk1, if_pos (Or.inl hz)]

/-- Instance of `round_trip`: the first well-formed message on a fresh log, read
back with the initial cache. -/
theorem round_trip_witness :
    Reachable common_sample (fresh common_sample) ∧
    (loop_pass common_sample (fresh common_sample) (msg_ok common_sample 0)).exit = none ∧
    8 ≤ (loop_record common_sample
      (loop_receive common_sample (fresh common_sample) (msg_ok common_sample 0)).1
      (msg_ok common_sample 0)).data_part2_length ∧
    ∃ b : Bytes,
      read_data_part2 common_sample
          (get_live_data_loop common_sample
            (loop_pass common_sample (fresh common_sample) (msg_ok common_sample 0)).state [])
          Reader.init (fresh common_sample).file_hdr.max
          (loop_record common_sample
            (loop_receive common_sample (fresh common_sample) (msg_ok common_sample 0)).1
            (msg_ok common_sample 0)).data_part2_length
        = (dp2_ret.data b, ⟨(fresh common_sample).file_hdr.max, b⟩) ∧
      ∀ j, j < (loop_record common_sample
          (loop_receive common_sample (fresh common_sample) (msg_ok common_sample 0)).1
          (msg_ok common_sample 0)).data_part2_length →
        b j = loop_payload common_sample
          (loop_receive common_sample (fresh common_sample) (msg_ok common_sample 0)).1
          (msg_ok common_sample 0) j :=
  ⟨fresh_reachable common_sample, by decide, by decide,
    (round_trip common_sample common_sample_wf (fresh common_sample) (msg_ok common_sample 0) []
      Reader.init (fresh_reachable common_sample) (by decide) (by decide)
      (by decide)).2.1 (by decide)⟩

/-- C4, evaluated on the code: in a live session with the sample parameters the thread
ingests a well-formed message and then a message with a four-byte payload.  On a fresh
log that message is refused for a bad payload magic; after the well-formed message,
whose payload is still in the receive buffer, it passes the magic test of line 555:
both passes commit (the thread stays active and `file_hdr->max` is 2) and slot 1 has
the declared length 4.  `read_data_part2(1)` with the initial cache and a complete
`pread` then ends in `FATAL` (line 1492): the payload that was just appended is not
returned. -/
theorem short_record_not_read_back :
    Reachable common_sample short_log ∧
    (loop_pass common_sample (fresh common_sample) (msg_short common_sample 1)).exit
      = some loop_exit.data_part2_bad_magic ∧
    (loop_pass common_sample (ingested common_sample 1) (msg_short common_sample 1)).exit = none ∧
    short_log.get_live_data_state = live_state_t.STATE_ACTIVE ∧
    short_log.file_hdr.max = 2 ∧
    (short_log.file_data_part1 1).data_part2_length = 4 ∧
    (read_data_part2 common_sample short_log Reader.init 1 4).1.kind = 1 :=
  ⟨reachable_loop common_sample _ _ (fresh_reachable common_sample) rfl,
    by decide, by decide, by decide, by decide, by decide, by decide⟩

/-! ## Payloads without the magic -/

/-- C10, evaluated on the code: on the log `short_log`, slot 1 has a four-byte payload,
so its stored payload does not begin with `MAGIC_DATA_PART2` (nor do the eight file
bytes at its offset form the magic).  With the initial statics `read_data_part2(1)`
ends in `FATAL`; but after `read_data_part2(0)` has filled the static buffer, the test
of line 1492 reads four bytes of record 0 behind the four bytes just read:
`read_data_part2(1)` with a complete `pread` returns the buffer and records 1 as the
cached index, and the next `read_data_part2(1)` returns it again from the cache. -/
theorem short_payload_passes_magic_test :
    ¬ payload_has_magic common_sample short_log 1 ∧
    (read_data_part2 common_sample short_log Reader.init 1 4).1.kind = 1 ∧
    get_u64 (fun j => short_log.file_bytes
      ((short_log.file_data_part1 1).data_part2_offset + j)) 0 ≠ common_sample.MAGIC_DATA_PART2 ∧
    (read_data_part2 common_sample short_log Reader.init 0 16).1.kind = 2 ∧
    (read_data_part2 common_sample short_log
      (read_data_part2 common_sample short_log Reader.init 0 16).2 1 4).1.kind = 2 ∧
    (read_data_part2 common_sample short_log
      (read_data_part2 common_sample short_log Reader.init 0 16).2 1 4).2.last_read_file_idx = 1 ∧
    (read_data_part2 common_sample short_log
      (read_data_part2 common_sample short_log
        (read_data_part2 common_sample short_log Reader.init 0 16).2 1 4).2 1 4).1.kind = 2 :=
  ⟨by decide, by decide, by decide, by decide, by decide, by decide, by decide⟩

/-- Refusal of records without magic: a slot whose index record does not carry
`MAGIC_DATA_PART1` is refused by the check at the top of the display loop (`FATAL`,
cache untouched) before `read_data_part2` is called; and a call of `read_data_part2` that is not served from
the cache, for a slot whose declared payload length is at least 8 and whose stored
payload does not begin with `MAGIC_DATA_PART2`, never returns the payload and never
changes the cached index: it ends in `FATAL` when `pread` delivers the full length
from a non-zero offset. -/
theorem corrupt_payload_refused (c : Common) (s : State) (r : Reader) (file_idx : Int)
    (pread_len : Int) :
    ((s.file_data_part1 file_idx.toNat).magic ≠ c.MAGIC_DATA_PART1 →
      display_handler_fetch c s r file_idx pread_len = (fetch_ret.FATAL_invalid_file_idx, r)) ∧
    (file_idx ≠ r.last_read_file_idx →
      8 ≤ (s.file_data_part1 file_idx.toNat).data_part2_length →
      ¬ payload_has_magic c s file_idx.toNat →
      (∀ b : Bytes, (read_data_part2 c s r file_idx pread_len).1 ≠ dp2_ret.data b) ∧
      (read_data_part2 c s r file_idx pread_len).2.last_read_file_idx = r.last_read_file_idx ∧
      (pread_len = ((s.file_data_part1 file_idx.toNat).data_part2_length : Int) →
        (s.file_data_part1 file_idx.toNat).data_part2_offset ≠ 0 →
        (read_data_part2 c s r file_idx pread_len).1 = dp2_ret.FATAL)) := by
  constructor
  · intro hm
    unfold display_handler_fetch
    rw [if_pos (Or.inr (Or.inr hm))]
  · intro hmiss hlen hbad
    have hne : get_u64 (fun j => s.file_bytes
        ((s.file_data_part1 file_idx.toNat).data_part2_offset + j)) 0 ≠ c.MAGIC_DATA_PART2 :=
      fun h => hbad ⟨hlen, h⟩
    unfold read_data_part2
    rw [if_neg hmiss]
    by_cases hz : (s.file_data_part1 file_idx.toNat).data_part2_length = 0 ∨
        (s.file_data_part1 file_idx.toNat).data_part2_offset = 0
    · rw [if_pos hz]
      exact ⟨fun b hb => by simp at hb, rfl, fun _ ho => absurd hz (by omega)⟩
    · rw [if_neg hz]
      by_cases hp : pread_len = ((s.file_data_part1 file_idx.toNat).data_part2_length : Int)
      · have hmag : get_u64 (memcpy r.last_read_data_part2 0
            (fun i => s.file_bytes ((s.file_data_part1 file_idx.toNat).data_part2_offset + i))
            (min pread_len.toNat (s.file_data_part1 file_idx.toNat).data_part2_length)) 0
            ≠ c.MAGIC_DATA_PART2 := by
          rw [hp, Int.toNat_ofNat, min_self, get_u64_memcpy _ _ _ hlen]
          exact hne
        simp only []
        rw [if_neg (not_not.mpr hp), if_pos hmag]
        exact ⟨fun b hb => by simp at hb, rfl, fun _ _ => rfl⟩
      · simp only []
        rw [if_pos hp]
        exact ⟨fun b hb => by simp at hb, rfl, fun h => absurd h hp⟩

/-- Instance of `corrupt_payload_refused`: the payload of slot 0 of `corrupt_log`
has no magic, and the read with the initial cache and a complete `pread` is `FATAL`. -/
theorem corrupt_payload_refused_witness :
    (0 : Int) ≠ Reader.init.last_read_file_idx ∧
    8 ≤ (corrupt_log.file_data_part1 (0 : Int).toNat).data_part2_length ∧
    ¬ payload_has_magic common_sample corrupt_log (0 : Int).toNat ∧
    (read_data_part2 common_sample corrupt_log Reader.init 0 16).1 = dp2_ret.FATAL :=
  ⟨by decide, by decide, by decide,
    ((corrupt_payload_refused common_sample corrupt_log Reader.init 0 16).2
      (by decide) (by decide) (by decide)).2.2 (by decide) (by decide)⟩

/-! ## The cache of read_data_part2 -/

theorem read_data_part2_traced_eq (c : Common) (s : State) (r : Reader) (file_idx : Int)
    (pread_len : Int) :
    ((read_data_part2_traced c s r file_idx pread_len).1,
      (read_data_part2_traced c s r file_idx pread_len).2.1)
      = read_data_part2 c s r file_idx pread_len := by
  unfold read_data_part2_traced read_data_part2
  by_cases h1 : file_idx = r.last_read_file_idx
  · rw [if_pos h1, if_pos h1]
  · rw [if_neg h1, if_neg h1]
    by_cases h2 : (s.file_data_part1 file_idx.toNat).data_part2_length = 0 ∨
        (s.file_data_part1 file_idx.toNat).data_part2_offset = 0
    · rw [if_pos h2, if_pos h2]
    · rw [if_neg h2, if_neg h2]
      simp only []
      by_cases h3 : pread_len ≠ ((s.file_data_part1 file_idx.toNat).data_part2_length : Int)
      · rw [if_pos h3, if_pos h3]
      · rw [if_neg h3, if_neg h3]
        split_ifs <;> rfl

theorem read_data_part2_traced_absent (c : Common) (s : State) (r : Reader) (file_idx : Int)
    (pread_len : Int) (hmiss : file_idx ≠ r.last_read_file_idx)
    (habs : (s.file_data_part1 file_idx.toNat).data_part2_length = 0 ∨
      (s.file_data_part1 file_idx.toNat).data_part2_offset = 0) :
    read_data_part2_traced c s r file_idx pread_len = (dp2_ret.NULL, r, ⟨none, false⟩) := by
  unfold read_data_part2_traced
  rw [if_neg hmiss, if_pos habs]

theorem read_data_part2_traced_pread (c : Common) (s : State) (r : Reader) (file_idx : Int)
    (pread_len : Int) (hmiss : file_idx ≠ r.last_read_file_idx)
    (hlen : (s.file_data_part1 file_idx.toNat).data_part2_length ≠ 0)
    (hoff : (s.file_data_part1 file_idx.toNat).data_part2_offset ≠ 0) :
    (read_data_part2_traced c s r file_idx pread_len).2.2.pread =
      some ((s.file_data_part1 file_idx.toNat).data_part2_offset,
        (s.file_data_part1 file_idx.toNat).data_part2_length) := by
  unfold read_data_part2_traced
  rw [if_neg hmiss, if_neg (by tauto)]
  split_ifs <;> rfl

theorem read_data_part2_traced_short (c : Common) (s : State) (r : Reader) (file_idx : Int)
    (pread_len : Int) (hmiss : file_idx ≠ r.last_read_file_idx)
    (hlen : (s.file_data_part1 file_idx.toNat).data_part2_length ≠ 0)
    (hoff : (s.file_data_part1 file_idx.toNat).data_part2_offset ≠ 0)
    (hshort : pread_len ≠ ((s.file_data_part1 file_idx.toNat).data_part2_length : Int)) :
    (read_data_part2_traced c s r file_idx pread_len).1 = dp2_ret.NULL ∧
    (read_data_part2_traced c s r file_idx pread_len).2.2 =
      ⟨some ((s.file_data_part1 file_idx.toNat).data_part2_offset,
        (s.file_data_part1 file_idx.toNat).data_part2_length), true⟩ := by
  unfold read_data_part2_traced
  rw [if_neg hmiss, if_neg (by tauto), if_pos hshort]
  exact ⟨rfl, rfl⟩

theorem read_data_part2_traced_data (c : Common) (s : State) (r : Reader) (file_idx : Int)
    (pread_len : Int) (h : (read_data_part2_traced c s r file_idx pread_len).1.kind = 2) :
    (read_data_part2_traced c s r file_idx pread_len).2.1.last_read_file_idx = file_idx ∧
    (read_data_part2_traced c s r file_idx pread_len).1 =
      dp2_ret.data (read_data_part2_traced c s r file_idx pread_len).2.1.last_read_data_part2 := by
  unfold read_data_part2_traced at h ⊢
  split_ifs at h ⊢ with h1 h2 h3 h4
  · exact ⟨h1.symm, rfl⟩
  · simp [dp2_ret.kind] at h
  · simp [dp2_ret.kind] at h
  · simp [dp2_ret.kind] at h
  · exact ⟨rfl, rfl⟩

/-- C11: for every slot whose index record has `data_part2_length = 0` or
`data_part2_offset = 0` and which is not the cached index, `read_data_part2` returns
`NULL`, calls `pread` not at all, prints no error, and leaves both statics (the cached
index and the buffer) as they were. -/
theorem absent_payload_normal (c : Common) (s : State) (r : Reader) (file_idx : Int)
    (pread_len : Int) (hmiss : file_idx ≠ r.last_read_file_idx)
    (habs : (s.file_data_part1 file_idx.toNat).data_part2_length = 0 ∨
      (s.file_data_part1 file_idx.toNat).data_part2_offset = 0) :
    (read_data_part2_traced c s r file_idx pread_len).1 = dp2_ret.NULL ∧
    (read_data_part2_traced c s r file_idx pread_len).2.1 = r ∧
    (read_data_part2_traced c s r file_idx pread_len).2.2.pread = none ∧
    (read_data_part2_traced c s r file_idx pread_len).2.2.error = false := by
  rw [read_data_part2_traced_absent c s r file_idx pread_len hmiss habs]
  exact ⟨rfl, rfl, rfl, rfl⟩

/-- C11, instance of `absent_payload_normal`: slot 1 of `empty_log`, a committed
record with an empty payload, read with the initial cache. -/
theorem absent_payload_normal_witness :
    (1 : Int) < (empty_log.file_hdr.max : Int) ∧
    (1 : Int) ≠ Reader.init.last_read_file_idx ∧
    (empty_log.file_data_part1 (1 : Int).toNat).data_part2_length = 0 ∧
    (read_data_part2_traced common_sample empty_log Reader.init 1 0).1 = dp2_ret.NULL ∧
    (read_data_part2_traced common_sample empty_log Reader.init 1 0).2.1 = Reader.init :=
  ⟨by decide, by decide, by decide,
    (absent_payload_normal common_sample empty_log Reader.init 1 0 (by decide)
      (Or.inl (by decide))).1,
    (absent_payload_normal common_sample empty_log Reader.init 1 0 (by decide)
      (Or.inl (by decide))).2.1⟩

/-- C12 fails as stated: on `empty_log`, slot 1 is a committed record without payload
and slot 0 a committed record with a 16-byte payload; with the initial cache,
`read_data_part2(1)` and `read_data_part2(0)` with a short `pread` (3 bytes) return
the same value, `NULL`. -/
theorem absent_and_failed_read_same_value :
    empty_log.file_hdr.max = 2 ∧
    (empty_log.file_data_part1 1).data_part2_length = 0 ∧
    (empty_log.file_data_part1 0).data_part2_length = 16 ∧
    (read_data_part2 common_sample empty_log Reader.init 1 0).1 = dp2_ret.NULL ∧
    (read_data_part2 common_sample empty_log Reader.init 0 3).1 = dp2_ret.NULL ∧
    (read_data_part2 common_sample empty_log Reader.init 1 0).1
      = (read_data_part2 common_sample empty_log Reader.init 0 3).1 :=
  ⟨by decide, by decide, by decide, rfl, rfl, rfl⟩

/-- C12, as amended: for an index that is not cached, `read_data_part2` returns `NULL`
both when the record has no payload and when the `pread` of an existing payload is
short; the two cases differ only in the effects: for the record without payload
`pread` is not called and no error is printed, for the short read `pread` was called
at the record's offset and the `ERROR` message is printed. -/
theorem absent_versus_failed_read (c : Common) (s : State) (r : Reader) (file_idx : Int)
    (pread_len : Int) (hmiss : file_idx ≠ r.last_read_file_idx) :
    ((s.file_data_part1 file_idx.toNat).data_part2_length = 0 ∨
      (s.file_data_part1 file_idx.toNat).data_part2_offset = 0 →
      (read_data_part2_traced c s r file_idx pread_len).1 = dp2_ret.NULL ∧
      (read_data_part2_traced c s r file_idx pread_len).2.2 = ⟨none, false⟩) ∧
    ((s.file_data_part1 file_idx.toNat).data_part2_length ≠ 0 →
      (s.file_data_part1 file_idx.toNat).data_part2_offset ≠ 0 →
      pread_len ≠ ((s.file_data_part1 file_idx.toNat).data_part2_length : Int) →
      (read_data_part2_traced c s r file_idx pread_len).1 = dp2_ret.NULL ∧
      (read_data_part2_traced c s r file_idx pread_len).2.2 =
        ⟨some ((s.file_data_part1 file_idx.toNat).data_part2_offset,
          (s.file_data_part1 file_idx.toNat).data_part2_length), true⟩) := by
  constructor
  · intro habs
    rw [read_data_part2_traced_absent c s r file_idx pread_len hmiss habs]
    exact ⟨rfl, rfl⟩
  · intro hlen hoff hshort
    exact read_data_part2_traced_short c s r file_idx pread_len hmiss hlen hoff hshort

/-- C12, instance of `absent_versus_failed_read`: the short read of slot 0 of
`empty_log` with the initial cache returns `NULL` and prints the error. -/
theorem absent_versus_failed_read_witness :
    (0 : Int) ≠ Reader.init.last_read_file_idx ∧
    (3 : Int) ≠ ((empty_log.file_data_part1 (0 : Int).toNat).data_part2_length : Int) ∧
    (read_data_part2_traced common_sample empty_log Reader.init 0 3).1 = dp2_ret.NULL ∧
    (read_data_part2_traced common_sample empty_log Reader.init 0 3).2.2.error = true :=
  ⟨by decide, by decide,
    ((absent_versus_failed_read common_sample empty_log Reader.init 0 3 (by decide)).2
      (by decide) (by decide) (by decide)).1,
    congrArg dp2_effects.error
      ((absent_versus_failed_read common_sample empty_log Reader.init 0 3 (by decide)).2
        (by decide) (by decide) (by decide)).2⟩

/-- C13: if a call of `read_data_part2` for index `i` has returned a buffer, then the
next call for the same index, whatever the log looks like by then, returns the same
buffer contents, leaves the statics as they are, and calls `pread` not at all. -/
theorem cache_hit (c : Common) (s t : State) (r : Reader) (i : Int) (pread_len pread_len2 : Int)
    (h : (read_data_part2_traced c s r i pread_len).1.kind = 2) :
    (read_data_part2_traced c t (read_data_part2_traced c s r i pread_len).2.1 i pread_len2).1
      = (read_data_part2_traced c s r i pread_len).1 ∧
    (read_data_part2_traced c t (read_data_part2_traced c s r i pread_len).2.1 i pread_len2).2.1
      = (read_data_part2_traced c s r i pread_len).2.1 ∧
    (read_data_part2_traced c t (read_data_part2_traced c s r i pread_len).2.1 i
      pread_len2).2.2.pread = none := by
  obtain ⟨hidx, hdata⟩ := read_data_part2_traced_data c s r i pread_len h
  generalize (read_data_part2_traced c s r i pread_len).2.1 = r1 at hidx hdata ⊢
  generalize (read_data_part2_traced c s r i pread_len).1 = v at hdata ⊢
  unfold read_data_part2_traced
  rw [if_pos hidx.symm, hdata]
  exact ⟨rfl, rfl, rfl⟩

/-- C13, instance of `cache_hit`: slot 0 of the log that holds one record is read
with the initial cache and a complete `pread`, then read again. -/
theorem cache_hit_witness :
    (read_data_part2_traced common_sample (ingested common_sample 1) Reader.init 0 16).1.kind = 2 ∧
    (read_data_part2_traced common_sample (ingested common_sample 1)
      (read_data_part2_traced common_sample (ingested common_sample 1) Reader.init 0 16).2.1
      0 16).2.2.pread = none :=
  ⟨by decide,
    (cache_hit common_sample (ingested common_sample 1) (ingested common_sample 1) Reader.init
      0 16 16 (by decide)).2.2⟩

/-- C14 fails as stated: slot 1 of `empty_log` is a committed record, index 1 is not
the cached index of the initial statics, and `read_data_part2(1)` returns without a
call of `pread`. -/
theorem cache_miss_without_pread :
    (1 : Int) < (empty_log.file_hdr.max : Int) ∧
    (1 : Int) ≠ Reader.init.last_read_file_idx ∧
    (read_data_part2_traced common_sample empty_log Reader.init 1 0).2.2.pread = none :=
  ⟨by decide, by decide, by decide⟩

/-- C14, as amended: for every index different from the cached index, when the record
has a non-zero `data_part2_length` and a non-zero `data_part2_offset`,
`read_data_part2` calls `pread` for `data_part2_length` bytes at `data_part2_offset`
before it returns; when the length or the offset is zero it returns `NULL` without a
call of `pread`. -/
theorem cache_miss_reads (c : Common) (s : State) (r : Reader) (file_idx : Int)
    (pread_len : Int) (hmiss : file_idx ≠ r.last_read_file_idx) :
    ((s.file_data_part1 file_idx.toNat).data_part2_length ≠ 0 →
      (s.file_data_part1 file_idx.toNat).data_part2_offset ≠ 0 →
      (read_data_part2_traced c s r file_idx pread_len).2.2.pread =
        some ((s.file_data_part1 file_idx.toNat).data_part2_offset,
          (s.file_data_part1 file_idx.toNat).data_part2_length)) ∧
    ((s.file_data_part1 file_idx.toNat).data_part2_length = 0 ∨
      (s.file_data_part1 file_idx.toNat).data_part2_offset = 0 →
      (read_data_part2_traced c s r file_idx pread_len).1 = dp2_ret.NULL ∧
      (read_data_part2_traced c s r file_idx pread_len).2.2.pread = none) := by
  constructor
  · intro hlen hoff
    exact read_data_part2_traced_pread c s r file_idx pread_len hmiss hlen hoff
  · intro habs
    rw [read_data_part2_traced_absent c s r file_idx pread_len hmiss habs]
    exact ⟨rfl, rfl⟩

/-- C14, instance of `cache_miss_reads`: slot 0 of `empty_log`, read with the initial
cache, is read from the file at the start of the payload heap. -/
theorem cache_miss_reads_witness :
    (0 : Int) ≠ Reader.init.last_read_file_idx ∧
    (read_data_part2_traced common_sample empty_log Reader.init 0 16).2.2.pread =
      some ((empty_log.file_data_part1 (0 : Int).toNat).data_part2_offset,
        (empty_log.file_data_part1 (0 : Int).toNat).data_part2_length) :=
  ⟨by decide,
    (cache_miss_reads common_sample empty_log Reader.init 0 16 (by decide)).1
      (by decide) (by decide)⟩

/-! ## The cursor and the mode -/

theorem loop_write_cursor (s : State) (d : data_part1_s) (w : Int) :
    (loop_write s d w).1.mode = s.mode ∧
    ((loop_write s d w).2 = none → s.mode = mode_t.LIVE →
      (loop_write s d w).1.file_idx_global = ((loop_write s d w).1.file_hdr.max : Int) - 1) ∧
    ((loop_write s d w).2 = none → s.mode ≠ mode_t.LIVE →
      (loop_write s d w).1.file_idx_global = s.file_idx_global) ∧
    ((loop_write s d w).2 ≠ none → (loop_write s d w).1.file_idx_global = s.file_idx_global) := by
  unfold loop_write
  split_ifs with hw
  · simp
  · refine ⟨by simp, ?_, ?_, by simp⟩
    · intro _ hm
      simp [follow_idx, hm]
    · intro _ hm
      simp [follow_idx, hm]

theorem loop_pass_cursor (c : Common) (s : State) (e : Iter) :
    (loop_pass c s e).state.mode = s.mode ∧
    ((loop_pass c s e).exit = none → s.mode = mode_t.LIVE →
      (loop_pass c s e).state.file_idx_global
        = ((loop_pass c s e).state.file_hdr.max : Int) - 1) ∧
    ((loop_pass c s e).exit = none → s.mode ≠ mode_t.LIVE →
      (loop_pass c s e).state.file_idx_global = s.file_idx_global) ∧
    ((loop_pass c s e).exit ≠ none →
      (loop_pass c s e).state.file_idx_global = s.file_idx_global) := by
  have hf := loop_receive_frame c s e
  unfold loop_pass
  rcases h : loop_receive c s e with ⟨s1, _ | x⟩
  · rw [h] at hf
    simp only [] at hf
    obtain ⟨-, -, -, -, -, hmode, hidx, -⟩ := hf
    have hw := loop_write_cursor (loop_ready c s1 e) (loop_record c s1 e) e.pwrite_len
    simp only [loop_ready_mode, loop_ready_file_idx_global, hmode, hidx] at hw
    exact hw
  · rw [h] at hf
    simp only [] at hf
    obtain ⟨-, -, -, -, -, hmode, hidx, -⟩ := hf
    simp [hmode, hidx]

theorem display_handler_event_mode (s : State) (k : nav_event) :
    ((display_handler_event s k).mode = mode_t.LIVE ↔
      s.get_live_data_state = live_state_t.STATE_ACTIVE ∧
      (k = nav_event.KEY_END ∨ ∃ n, forward_step k = some n ∧
        (s.file_idx_global + n < 0 ∨ (s.file_hdr.max : Int) ≤ s.file_idx_global + n))) ∧
    ((display_handler_event s k).mode = mode_t.LIVE →
      (display_handler_event s k).file_idx_global = (s.file_hdr.max : Int) - 1) ∧
    ((display_handler_event s k).mode = mode_t.LIVE ∨
      (display_handler_event s k).mode = mode_t.PLAYBACK) := by
  cases k <;>
    simp only [display_handler_event, nav_left, nav_right, edge_mode, forward_step] <;>
    (try split_ifs) <;> simp_all

/-- C15 fails as stated.  On the log that holds one record, with the thread active, the
left-arrow key leaves the cursor on record 0, which is `file_hdr->max - 1`, and sets
`PLAYBACK`.  On the log that holds two records, with the thread active and the cursor
moved back to record 0, the right-arrow key puts the cursor on record 1, which is
`file_hdr->max - 1`, and the mode is `PLAYBACK`. -/
theorem playback_on_live_edge :
    (ingested common_sample 1).get_live_data_state = live_state_t.STATE_ACTIVE ∧
    (ingested common_sample 1).file_hdr.max = 1 ∧
    (display_handler_event (ingested common_sample 1) nav_event.KEY_LEFT_ARROW).file_idx_global
      = ((ingested common_sample 1).file_hdr.max : Int) - 1 ∧
    (display_handler_event (ingested common_sample 1) nav_event.KEY_LEFT_ARROW).mode
      = mode_t.PLAYBACK ∧
    (ingested common_sample 2).get_live_data_state = live_state_t.STATE_ACTIVE ∧
    (ingested common_sample 2).file_hdr.max = 2 ∧
    (display_handler_event
      (display_handler_event (ingested common_sample 2) nav_event.KEY_LEFT_ARROW)
      nav_event.KEY_RIGHT_ARROW).file_idx_global
      = ((ingested common_sample 2).file_hdr.max : Int) - 1 ∧
    (display_handler_event
      (display_handler_event (ingested common_sample 2) nav_event.KEY_LEFT_ARROW)
      nav_event.KEY_RIGHT_ARROW).mode = mode_t.PLAYBACK :=
  ⟨by decide, by decide, by decide, by decide, by decide, by decide, by decide, by decide⟩

/-- C15, as amended: while the ingestion thread is active, a navigation key leaves the
mode `LIVE` exactly when it is the end key or a right-arrow key whose target
`file_idx_global + step` is at or beyond `file_hdr->max` (or negative, which the
unsigned comparison treats as large); the cursor is then on `file_hdr->max - 1`.
Every other key, also one that puts the cursor on `file_hdr->max - 1`, sets
`PLAYBACK`. -/
theorem return_to_live (s : State) (k : nav_event)
    (hact : s.get_live_data_state = live_state_t.STATE_ACTIVE) :
    ((display_handler_event s k).mode = mode_t.LIVE ↔
      (k = nav_event.KEY_END ∨ ∃ n, forward_step k = some n ∧
        (s.file_idx_global + n < 0 ∨ (s.file_hdr.max : Int) ≤ s.file_idx_global + n))) ∧
    ((display_handler_event s k).mode = mode_t.LIVE →
      (display_handler_event s k).file_idx_global = (s.file_hdr.max : Int) - 1) ∧
    ((display_handler_event s k).mode ≠ mode_t.LIVE →
      (display_handler_event s k).mode = mode_t.PLAYBACK) := by
  obtain ⟨h1, h2, h3⟩ := display_handler_event_mode s k
  refine ⟨?_, h2, ?_⟩
  · rw [h1]
    exact ⟨fun h => h.2, fun h => ⟨hact, h⟩⟩
  · intro hne
    rcases h3 with h | h
    · exact absurd h hne
    · exact h

/-- C15, instance of `return_to_live`: on the log that holds one record, with the
thread active, the end key puts the cursor on record 0 in mode `LIVE`. -/
theorem return_to_live_witness :
    (ingested common_sample 1).get_live_data_state = live_state_t.STATE_ACTIVE ∧
    (display_handler_event (ingested common_sample 1) nav_event.KEY_END).mode = mode_t.LIVE ∧
    (display_handler_event (ingested common_sample 1) nav_event.KEY_END).file_idx_global
      = ((ingested common_sample 1).file_hdr.max : Int) - 1 :=
  ⟨by decide,
    (return_to_live (ingested common_sample 1) nav_event.KEY_END (by decide)).1.mpr
      (Or.inl rfl),
    (return_to_live (ingested common_sample 1) nav_event.KEY_END (by decide)).2.1
      ((return_to_live (ingested common_sample 1) nav_event.KEY_END (by decide)).1.mpr
        (Or.inl rfl))⟩

/-- C16: for every state and every navigation key, if the resulting cursor is not
`file_hdr->max - 1` or the ingestion thread is not active (inactive or in error), the
resulting mode is `PLAYBACK`; in particular the end key pressed while the thread is
inactive puts the cursor on `file_hdr->max - 1` and sets `PLAYBACK`. -/
theorem forced_playback (s : State) (k : nav_event) :
    ((display_handler_event s k).file_idx_global ≠ (s.file_hdr.max : Int) - 1 ∨
      s.get_live_data_state ≠ live_state_t.STATE_ACTIVE →
      (display_handler_event s k).mode = mode_t.PLAYBACK) ∧
    (display_handler_event s k).file_hdr.max = s.file_hdr.max ∧
    (s.get_live_data_state = live_state_t.STATE_INACTIVE →
      (display_handler_event s nav_event.KEY_END).file_idx_global = (s.file_hdr.max : Int) - 1 ∧
      (display_handler_event s nav_event.KEY_END).mode = mode_t.PLAYBACK) := by
  obtain ⟨h1, h2, h3⟩ := display_handler_event_mode s k
  refine ⟨?_, by rw [(display_handler_event_log s k).1], ?_⟩
  · intro h
    rcases h3 with hl | hp
    · rcases h with h | h
      · exact absurd (h2 hl) h
      · exact absurd (h1.mp hl).1 h
    · exact hp
  · intro hin
    simp [display_handler_event, edge_mode, hin]

/-- C16, instance of `forced_playback`: the two-record log opened for playback, thread
inactive; the end key puts the cursor on record 1 and the mode is `PLAYBACK`. -/
theorem forced_playback_witness :
    playback_log.get_live_data_state = live_state_t.STATE_INACTIVE ∧
    playback_log.file_hdr.max = 2 ∧
    (display_handler_event playback_log nav_event.KEY_END).file_idx_global = 1 ∧
    (display_handler_event playback_log nav_event.KEY_END).mode = mode_t.PLAYBACK :=
  ⟨by decide, by decide,
    ((forced_playback playback_log nav_event.KEY_END).2.2 (by decide)).1,
    (forced_playback playback_log nav_event.KEY_END).1 (Or.inr (by decide))⟩

/-! ## The state of the ingestion thread -/

theorem thread_step_flag (c : Common) (s : State) (e : Iter) :
    ((loop_pass c s e).exit.isSome = true →
      (thread_step c s e).get_live_data_state = live_state_t.STATE_ERROR ∧
      (thread_step c s e).mode = mode_t.PLAYBACK) ∧
    ((loop_pass c s e).exit.isSome = false →
      (thread_step c s e).get_live_data_state = s.get_live_data_state) := by
  unfold thread_step
  constructor
  · intro h
    rw [if_pos h]
    exact ⟨rfl, rfl⟩
  · intro h
    rw [if_neg (by simp [h])]
    exact (loop_pass_flags c s e).1

theorem nav_after_error (s : State) (k : nav_event)
    (h : s.get_live_data_state = live_state_t.STATE_ERROR) :
    (display_handler_event s k).get_live_data_state = live_state_t.STATE_ERROR ∧
    (display_handler_event s k).mode = mode_t.PLAYBACK := by
  obtain ⟨h1, -, h3⟩ := display_handler_event_mode s k
  refine ⟨(display_handler_event_log s k).2.2.2.2.2.trans h, ?_⟩
  rcases h3 with hl | hp
  · have := (h1.mp hl).1
    rw [h] at this
    exact absurd this (by decide)
  · exact hp

theorem nav_states_after_error (ks : List nav_event) :
    ∀ s : State, s.get_live_data_state = live_state_t.STATE_ERROR →
      ∀ t, t ∈ nav_states s ks →
        t.get_live_data_state = live_state_t.STATE_ERROR ∧ t.mode = mode_t.PLAYBACK := by
  induction ks with
  | nil => intro s _ t ht; simp [nav_states] at ht
  | cons k ks ih =>
    intro s hs t ht
    simp only [nav_states, List.mem_cons] at ht
    rcases ht with rfl | ht
    · exact nav_after_error s k hs
    · exact ih _ (nav_after_error s k hs).1 t ht

/-- C17: the thread sets `get_live_data_state` to `STATE_ACTIVE` when it starts on the
created log, where it is `STATE_INACTIVE`; a pass of the loop that does not end in
`break` and a navigation key leave it unchanged; a pass that ends in `break`, for
whatever reason, is followed by the exit code, which sets `STATE_ERROR` and mode
`PLAYBACK`.  From a state in `STATE_ERROR` every step of the program (there is no
further pass, the thread has returned) stays in `STATE_ERROR` with mode `PLAYBACK`, and
after each key of any sequence of navigation keys, the end key included, the mode is
`PLAYBACK`. -/
theorem error_is_terminal (c : Common) (s : State) (e : Iter) (k : nav_event)
    (ks : List nav_event) (nc : Bool) :
    (created c nc).get_live_data_state = live_state_t.STATE_INACTIVE ∧
    (thread_start c s).get_live_data_state = live_state_t.STATE_ACTIVE ∧
    ((loop_pass c s e).exit.isSome = false →
      (thread_step c s e).get_live_data_state = s.get_live_data_state) ∧
    (display_handler_event s k).get_live_data_state = s.get_live_data_state ∧
    ((loop_pass c s e).exit.isSome = true →
      (thread_step c s e).get_live_data_state = live_state_t.STATE_ERROR ∧
      (thread_step c s e).mode = mode_t.PLAYBACK) ∧
    (s.get_live_data_state = live_state_t.STATE_ERROR →
      (∀ t, Step c s t →
        t.get_live_data_state = live_state_t.STATE_ERROR ∧ t.mode = mode_t.PLAYBACK) ∧
      (∀ t, t ∈ nav_states s ks →
        t.get_live_data_state = live_state_t.STATE_ERROR ∧ t.mode = mode_t.PLAYBACK)) := by
  refine ⟨rfl, rfl, (thread_step_flag c s e).2, (display_handler_event_log s k).2.2.2.2.2,
    (thread_step_flag c s e).1, ?_⟩
  intro herr
  refine ⟨?_, nav_states_after_error ks s herr⟩
  intro t ht
  cases ht with
  | pass e1 hact =>
    rw [herr] at hact
    exact absurd hact (by decide)
  | nav k1 => exact nav_after_error s k1 herr

/-- C17, instance of `error_is_terminal`: on a fresh log the server closes the
connection, the pass ends in `break` and the thread leaves the state in `STATE_ERROR`
with mode `PLAYBACK`; after the end key and then a right-arrow key the mode is still
`PLAYBACK`. -/
theorem error_is_terminal_witness :
    (loop_pass common_sample (fresh common_sample) (msg_closed common_sample)).exit.isSome
      = true ∧
    (thread_step common_sample (fresh common_sample)
      (msg_closed common_sample)).get_live_data_state = live_state_t.STATE_ERROR ∧
    (display_handler_event
      (display_handler_event
        (thread_step common_sample (fresh common_sample) (msg_closed common_sample))
        nav_event.KEY_END) nav_event.KEY_RIGHT_ARROW).mode = mode_t.PLAYBACK :=
  ⟨by decide,
    ((error_is_terminal common_sample (fresh common_sample) (msg_closed common_sample)
      nav_event.KEY_END [] false).2.2.2.2.1 (by decide)).1,
    (((error_is_terminal common_sample
      (thread_step common_sample (fresh common_sample) (msg_closed common_sample))
      (msg_closed common_sample) nav_event.KEY_END
      [nav_event.KEY_END, nav_event.KEY_RIGHT_ARROW] false).2.2.2.2.2 (by decide)).2 _
      (by simp [nav_states])).2⟩

/-! ## Clamping of the cursor -/

/-- C18: in a state with at least one committed record and the cursor inside
`[0, file_hdr->max - 1]`, every navigation key leaves the cursor inside that range: a
left-arrow key puts it on `file_idx_global - step`, or on 0 when that is negative; a
right-arrow key puts it on `file_idx_global + step`, or on `file_hdr->max - 1` when
that is beyond it; the home key puts it on 0 and the end key on `file_hdr->max - 1`.
The handler is a total function: no key fails. -/
theorem navigation_clamps (s : State) (k : nav_event) (hmax : 1 ≤ s.file_hdr.max)
    (h0 : 0 ≤ s.file_idx_global) (h1 : s.file_idx_global ≤ (s.file_hdr.max : Int) - 1) :
    0 ≤ (display_handler_event s k).file_idx_global ∧
    (display_handler_event s k).file_idx_global ≤ (s.file_hdr.max : Int) - 1 ∧
    (∀ n, backward_step k = some n →
      (display_handler_event s k).file_idx_global =
        if s.file_idx_global - n < 0 then 0 else s.file_idx_global - n) ∧
    (∀ n, forward_step k = some n →
      (display_handler_event s k).file_idx_global =
        if (s.file_hdr.max : Int) - 1 < s.file_idx_global + n then (s.file_hdr.max : Int) - 1
        else s.file_idx_global + n) ∧
    (k = nav_event.KEY_HOME → (display_handler_event s k).file_idx_global = 0) ∧
    (k = nav_event.KEY_END →
      (display_handler_event s k).file_idx_global = (s.file_hdr.max : Int) - 1) := by
  cases k
  all_goals
    simp only [display_handler_event, nav_left, nav_right, forward_step, backward_step]
  all_goals try split_ifs
  all_goals try dsimp only
  all_goals refine ⟨?_, ?_, ?_, ?_, ?_, ?_⟩
  all_goals first
    | omega
    | (intro n hn; cases hn; split_ifs <;> omega)
    | (intro n hn; cases hn)
    | (intro _; omega)
    | (intro _; trivial)

/-- C18, instance of `navigation_clamps`: on the two-record log opened for playback,
cursor on record 0, the alt-right-arrow key (60 forward) lands on record 1. -/
theorem navigation_clamps_witness :
    1 ≤ playback_log.file_hdr.max ∧ 0 ≤ playback_log.file_idx_global ∧
    playback_log.file_idx_global ≤ (playback_log.file_hdr.max : Int) - 1 ∧
    (display_handler_event playback_log nav_event.KEY_ALT_RIGHT_ARROW).file_idx_global
      ≤ (playback_log.file_hdr.max : Int) - 1 ∧
    0 ≤ (display_handler_event playback_log nav_event.KEY_ALT_RIGHT_ARROW).file_idx_global :=
  ⟨by decide, by decide, by decide,
    (navigation_clamps playback_log nav_event.KEY_ALT_RIGHT_ARROW (by decide) (by decide)
      (by decide)).2.1,
    (navigation_clamps playback_log nav_event.KEY_ALT_RIGHT_ARROW (by decide) (by decide)
      (by decide)).1⟩

/-! ## The cursor follows the newest record in live mode -/

theorem thread_step_of_ok (c : Common) (s : State) (e : Iter)
    (hx : (loop_pass c s e).exit = none) : thread_step c s e = (loop_pass c s e).state := by
  unfold thread_step
  rw [hx]
  rfl

theorem reachable_live_edge (c : Common) (s : State) (h : Reachable c s) :
    s.mode = mode_t.LIVE → s.file_idx_global = (s.file_hdr.max : Int) - 1 := by
  induction h with
  | start nc => intro _; rfl
  | pass s e _ _ ih =>
    obtain ⟨hmode, hlive, -, -⟩ := loop_pass_cursor c s e
    unfold thread_step
    split_ifs with hx
    · intro hm
      simp at hm
    · intro hm
      have hnone : (loop_pass c s e).exit = none := by
        cases hex : (loop_pass c s e).exit with
        | none => rfl
        | some x => rw [hex] at hx; simp at hx
      exact hlive hnone (hmode ▸ hm)
  | nav s k _ _ =>
    intro hm
    rw [(display_handler_event_log s k).1]
    exact (display_handler_event_mode s k).2.1 hm

/-- C19: in every state reached from the initial live state by passes of the ingestion
loop and navigation keys, mode `LIVE` implies `file_idx_global = file_hdr->max - 1`;
a pass that commits a record while the mode is `LIVE` leaves the cursor on the new
`file_hdr->max - 1`, and one that commits while the mode is `PLAYBACK` leaves the
cursor and the mode as they were. -/
theorem live_tracks_edge (c : Common) (s : State) (e : Iter) (h : Reachable c s) :
    (s.mode = mode_t.LIVE → s.file_idx_global = (s.file_hdr.max : Int) - 1) ∧
    ((loop_pass c s e).exit = none → s.mode = mode_t.LIVE →
      (thread_step c s e).file_hdr.max = s.file_hdr.max + 1 ∧
      (thread_step c s e).file_idx_global = ((thread_step c s e).file_hdr.max : Int) - 1 ∧
      (thread_step c s e).mode = mode_t.LIVE) ∧
    ((loop_pass c s e).exit = none → s.mode = mode_t.PLAYBACK →
      (thread_step c s e).file_hdr.max = s.file_hdr.max + 1 ∧
      (thread_step c s e).file_idx_global = s.file_idx_global ∧
      (thread_step c s e).mode = mode_t.PLAYBACK) := by
  obtain ⟨hmode, hlive, hplay, -⟩ := loop_pass_cursor c s e
  have hmax := loop_pass_max c s e
  refine ⟨reachable_live_edge c s h, ?_, ?_⟩
  · intro hx hm
    rw [thread_step_of_ok c s e hx]
    rw [if_pos hx] at hmax
    exact ⟨hmax, hlive hx hm, hmode.trans hm⟩
  · intro hx hm
    rw [thread_step_of_ok c s e hx]
    rw [if_pos hx] at hmax
    exact ⟨hmax, hplay hx (by rw [hm]; decide), hmode.trans hm⟩

/-- C19, instance of `live_tracks_edge`: on the log that holds one record, in mode
`LIVE`, the pass for a second message puts the cursor on record 1. -/
theorem live_tracks_edge_witness :
    Reachable common_sample (ingested common_sample 1) ∧
    (loop_pass common_sample (ingested common_sample 1) (msg_ok common_sample 1)).exit = none ∧
    (ingested common_sample 1).mode = mode_t.LIVE ∧
    (thread_step common_sample (ingested common_sample 1)
      (msg_ok common_sample 1)).file_idx_global
      = ((thread_step common_sample (ingested common_sample 1)
          (msg_ok common_sample 1)).file_hdr.max : Int) - 1 :=
  ⟨(ingested_spec common_sample common_sample_wf 1 (by decide)).1, by decide, by decide,
    ((live_tracks_edge common_sample (ingested common_sample 1) (msg_ok common_sample 1)
      (ingested_spec common_sample common_sample_wf 1 (by decide)).1).2.1
      (by decide) (by decide)).2.1⟩

/-! ## The declared payload length of committed records -/

theorem merge_cam_fresh (c : Common) (e : Iter) (d : data_part1_s) (b : Bytes)
    (hv : d.data_part2_jpeg_buff_valid = false)
    (h : (e.microsec_timer + 2 ^ 64 - e.jpeg_buff_us) % 2 ^ 64 < 1000000) :
    merge_cam c e d b =
      ({ d with data_part2_jpeg_buff_valid := true,
                data_part2_length := c.sizeof_data_part2_s + e.jpeg_buff_len },
       put_u32 (memcpy b c.sizeof_data_part2_s e.jpeg_buff e.jpeg_buff_len)
         c.offsetof_jpeg_buff_len e.jpeg_buff_len) := by
  unfold merge_cam
  rw [if_pos hv, if_pos h]

theorem msg_cam_fresh (c : Common) (t len : Nat) :
    ((msg_cam c t len).microsec_timer + 2 ^ 64 - (msg_cam c t len).jpeg_buff_us) % 2 ^ 64
      < 1000000 := by
  show (2000000 + 2 ^ 64 - 1500000) % 2 ^ 64 < 1000000
  norm_num

theorem msg_cam_pass (c : Common) (hc : c.wf) (s : State) (t len : Nat)
    (hidx : s.file_idx_global < (MAX_FILE_DATA_PART1 : Int)) (hcam : s.opt_no_cam = false) :
    (loop_pass c s (msg_cam c t len)).exit = none ∧
    (loop_pass c s (msg_cam c t len)).state.file_hdr.max = s.file_hdr.max + 1 ∧
    ((loop_pass c s (msg_cam c t len)).state.file_data_part1 s.file_hdr.max).data_part2_length
      = c.sizeof_data_part2_s + len ∧
    ((loop_pass c s (msg_cam c t len)).state.file_data_part1
      s.file_hdr.max).data_part2_jpeg_buff_valid = true := by
  have hr : loop_receive c s (msg_cam c t len) =
      (recv_data_part2 s (msg_ok c t) c.sizeof_data_part2_s, none) :=
    msg_ok_receive c hc s t hidx
  have hrec : loop_record c (recv_data_part2 s (msg_ok c t) c.sizeof_data_part2_s)
      (msg_cam c t len) =
      { (msg_ok c t).recv1 with
        data_part2_jpeg_buff_valid := true,
        data_part2_length := c.sizeof_data_part2_s + len,
        data_part2_offset := s.offset } := by
    unfold loop_record
    rw [merge_cam_fresh c _ _ _ rfl (msg_cam_fresh c t len)]
    simp only [recv_data_part2_opt_no_cam, hcam]
    rfl
  have hw : (msg_cam c t len).pwrite_len =
      ((loop_record c (recv_data_part2 s (msg_ok c t) c.sizeof_data_part2_s)
        (msg_cam c t len)).data_part2_length : Int) := by
    rw [hrec]; rfl
  rw [loop_pass_of_receive c s _ _ hr hw, hrec]
  refine ⟨rfl, ?_, ?_, ?_⟩
  · simp
  · simp
  · simp

/-- C20, evaluated on the code: a live session with the camera enabled has committed
its first record (after which the start-up code creates the camera thread), and the
second well-formed message, without image, arrives while the camera slot is fresh and
holds a capture that fills `jpeg_buff` (`MAX_DATA_PART2_LENGTH` bytes).  The pass
commits the record into slot 1, and its declared payload length is
`sizeof(struct data_part2_s) + MAX_DATA_PART2_LENGTH`, above `MAX_DATA_PART2_LENGTH`:
the merge sets the length without the test that the received length went through. -/
theorem merged_length_exceeds_maximum (c : Common) (hc : c.wf) :
    Reachable c (thread_step c (ingested c 1) (msg_cam c 1 MAX_DATA_PART2_LENGTH)) ∧
    (ingested c 1).file_hdr.max = 1 ∧
    (ingested c 1).opt_no_cam = false ∧
    (msg_cam c 1 MAX_DATA_PART2_LENGTH).recv1.data_part2_length ≤ MAX_DATA_PART2_LENGTH ∧
    (loop_pass c (ingested c 1) (msg_cam c 1 MAX_DATA_PART2_LENGTH)).exit = none ∧
    (thread_step c (ingested c 1) (msg_cam c 1 MAX_DATA_PART2_LENGTH)).file_hdr.max = 2 ∧
    ((thread_step c (ingested c 1) (msg_cam c 1 MAX_DATA_PART2_LENGTH)).file_data_part1
      1).data_part2_length = c.sizeof_data_part2_s + MAX_DATA_PART2_LENGTH ∧
    MAX_DATA_PART2_LENGTH <
      ((thread_step c (ingested c 1) (msg_cam c 1 MAX_DATA_PART2_LENGTH)).file_data_part1
        1).data_part2_length := by
  obtain ⟨hreach, h1, -, hcam, hcur, hact⟩ := ingested_spec c hc 1 (by decide)
  have hidx : (ingested c 1).file_idx_global < (MAX_FILE_DATA_PART1 : Int) := by
    rw [hcur]
    decide
  obtain ⟨hx, hmax, hlen, -⟩ :=
    msg_cam_pass c hc (ingested c 1) 1 MAX_DATA_PART2_LENGTH hidx hcam
  have hpos : 0 < c.sizeof_data_part2_s := by
    obtain ⟨-, -, h8, h12, -, -, -⟩ := hc
    omega
  have hfit : c.sizeof_data_part2_s ≤ MAX_DATA_PART2_LENGTH := hc.2.2.2.2.1
  rw [h1] at hmax hlen
  refine ⟨Reachable.pass _ _ hreach hact, h1, hcam, hfit, hx, ?_, ?_, ?_⟩
  · rw [thread_step_of_ok c _ _ hx]; exact hmax
  · rw [thread_step_of_ok c _ _ hx]; exact hlen
  · rw [thread_step_of_ok c _ _ hx, hlen]; omega

/-- C20, instance of `merged_length_exceeds_maximum` for the sample parameters. -/
theorem merged_length_exceeds_maximum_witness :
    common_sample.wf ∧
    (loop_pass common_sample (ingested common_sample 1)
      (msg_cam common_sample 1 MAX_DATA_PART2_LENGTH)).exit = none ∧
    MAX_DATA_PART2_LENGTH <
      ((thread_step common_sample (ingested common_sample 1)
        (msg_cam common_sample 1 MAX_DATA_PART2_LENGTH)).file_data_part1
        1).data_part2_length :=
  ⟨common_sample_wf, (merged_length_exceeds_maximum common_sample common_sample_wf).2.2.2.2.1,
    (merged_length_exceeds_maximum common_sample common_sample_wf).2.2.2.2.2.2.2⟩

/-! ## Validation of a received message -/

theorem loop_receive_passes (c : Common) (s : State) (e : Iter) :
    (loop_receive c s e).2 = none ↔
      (s.file_idx_global < (MAX_FILE_DATA_PART1 : Int) ∧
       e.recv1_len = (c.sizeof_data_part1_s : Int) ∧
       e.recv1.magic = c.MAGIC_DATA_PART1 ∧
       e.recv1.data_part2_length ≤ MAX_DATA_PART2_LENGTH ∧
       e.recv2_len = (e.recv1.data_part2_length : Int) ∧
       get_u64 (recv_data_part2 s e e.recv1.data_part2_length).data_part2 0
         = c.MAGIC_DATA_PART2) := by
  constructor
  · intro h
    have hp : loop_receive c s e = ((loop_receive c s e).1, none) := by
      rw [← h]
    obtain ⟨h0, h1, h2, h3, h4, h5, h6⟩ := loop_receive_none c s _ e hp
    rw [h0] at h6
    exact ⟨h1, h2, h3, h4, h5, h6⟩
  · rintro ⟨h1, h2, h3, h4, h5, h6⟩
    rw [loop_receive_ok c s e h1 h2 h3 h4 h5 h6]

theorem loop_pass_receive_some (c : Common) (s : State) (e : Iter) (x : loop_exit)
    (h : (loop_receive c s e).2 = some x) :
    loop_pass c s e = ⟨(loop_receive c s e).1, some x, false⟩ := by
  unfold loop_pass
  rcases hr : loop_receive c s e with ⟨s1, _ | y⟩
  · rw [hr] at h
    simp at h
  · rw [hr] at h
    simp only [Option.some.injEq] at h
    rw [h]

theorem loop_pass_exit_none (c : Common) (s : State) (e : Iter)
    (h : (loop_pass c s e).exit = none) : (loop_receive c s e).2 = none := by
  cases hr : (loop_receive c s e).2 with
  | none => rfl
  | some x =>
    rw [loop_pass_receive_some c s e x hr] at h
    simp at h

theorem get_live_data_loop_break (c : Common) (s : State) (e : Iter) (es : List Iter)
    (h : (loop_pass c s e).exit.isSome = true) :
    get_live_data_loop c s (e :: es) = thread_step c s e := by
  simp only [get_live_data_loop, thread_step]
  rw [if_pos h, if_pos h]

/-- C21, evaluated on the code.  The message `msg_empty` declares an empty payload, so
the second `recv` delivers nothing and the message carries no payload magic (the bytes
that follow in the stream are not the magic either).  On a fresh log the pass ends in
`break` for a bad payload magic; after one well-formed message, whose payload is still
in the receive buffer, the same message passes the magic test of line 555 and is
appended. -/
theorem empty_payload_appended :
    (msg_empty common_sample 1).recv2_len = 0 ∧
    get_u64 (msg_empty common_sample 1).recv2 0 ≠ common_sample.MAGIC_DATA_PART2 ∧
    (loop_pass common_sample (fresh common_sample) (msg_empty common_sample 1)).exit
      = some loop_exit.data_part2_bad_magic ∧
    (ingested common_sample 1).file_hdr.max = 1 ∧
    (loop_pass common_sample (ingested common_sample 1) (msg_empty common_sample 1)).exit
      = none ∧
    (loop_pass common_sample (ingested common_sample 1)
      (msg_empty common_sample 1)).state.file_hdr.max = 2 :=
  ⟨by decide, by decide, by decide, by decide, by decide, by decide⟩

/-- The checks of the receive part as the code makes them: a pass appends the message
only if the full index frame was received, its magic is `MAGIC_DATA_PART1`, its declared payload length is at most
`MAX_DATA_PART2_LENGTH`, exactly that many payload bytes were received, and the first
eight bytes of the receive buffer, after the payload has been received into it, are
`MAGIC_DATA_PART2`; for a declared length of at least 8 these are the first eight
bytes of the payload.  The receive part passes exactly when the log is not full and
these five tests hold.  When it fails, `file_hdr`, the index array and the file are
unchanged, the thread ends in `STATE_ERROR` with mode `PLAYBACK`, and the messages that
follow in the stream are not processed. -/
theorem message_validation (c : Common) (s : State) (e : Iter) (es : List Iter) :
    ((loop_pass c s e).exit = none →
      e.recv1_len = (c.sizeof_data_part1_s : Int) ∧
      e.recv1.magic = c.MAGIC_DATA_PART1 ∧
      e.recv1.data_part2_length ≤ MAX_DATA_PART2_LENGTH ∧
      e.recv2_len = (e.recv1.data_part2_length : Int) ∧
      get_u64 (memcpy s.data_part2 0 e.recv2 e.recv1.data_part2_length) 0
        = c.MAGIC_DATA_PART2 ∧
      (8 ≤ e.recv1.data_part2_length → get_u64 e.recv2 0 = c.MAGIC_DATA_PART2)) ∧
    ((loop_receive c s e).2 = none ↔
      (s.file_idx_global < (MAX_FILE_DATA_PART1 : Int) ∧
       e.recv1_len = (c.sizeof_data_part1_s : Int) ∧
       e.recv1.magic = c.MAGIC_DATA_PART1 ∧
       e.recv1.data_part2_length ≤ MAX_DATA_PART2_LENGTH ∧
       e.recv2_len = (e.recv1.data_part2_length : Int) ∧
       get_u64 (recv_data_part2 s e e.recv1.data_part2_length).data_part2 0
         = c.MAGIC_DATA_PART2)) ∧
    ((loop_receive c s e).2 ≠ none →
      (loop_pass c s e).exit = (loop_receive c s e).2 ∧
      (thread_step c s e).file_hdr = s.file_hdr ∧
      (thread_step c s e).file_data_part1 = s.file_data_part1 ∧
      (thread_step c s e).file_bytes = s.file_bytes ∧
      (thread_step c s e).get_live_data_state = live_state_t.STATE_ERROR ∧
      (thread_step c s e).mode = mode_t.PLAYBACK ∧
      get_live_data_loop c s (e :: es) = thread_step c s e) := by
  refine ⟨?_, loop_receive_passes c s e, ?_⟩
  · intro hx
    obtain ⟨-, h2, h3, h4, h5, h6⟩ :=
      (loop_receive_passes c s e).mp (loop_pass_exit_none c s e hx)
    have hbuf : (recv_data_part2 s e e.recv1.data_part2_length).data_part2 =
        memcpy s.data_part2 0 e.recv2 e.recv1.data_part2_length := by
      simp only [recv_data_part2, h5, Int.toNat_ofNat, min_self]
    rw [hbuf] at h6
    refine ⟨h2, h3, h4, h5, h6, ?_⟩
    intro h8
    rw [← h6, get_u64_memcpy _ _ _ h8]
  · intro hne
    obtain ⟨x, hx⟩ := Option.ne_none_iff_exists'.mp hne
    have hp := loop_pass_receive_some c s e x hx
    have hf := loop_receive_frame c s e
    have hsome : (loop_pass c s e).exit.isSome = true := by rw [hp]; rfl
    have hstep : thread_step c s e = thread_exit (loop_receive c s e).1 := by
      unfold thread_step
      rw [if_pos hsome, hp]
    refine ⟨by rw [hp, hx], ?_, ?_, ?_, ?_, ?_, get_live_data_loop_break c s e es hsome⟩
    · rw [hstep]; exact hf.1
    · rw [hstep]; exact hf.2.1
    · rw [hstep]; exact hf.2.2.1
    · rw [hstep]; rfl
    · rw [hstep]; rfl

/-- Instance of `message_validation`: on a fresh log the server closes the
connection; the first `recv` returns 0, nothing is appended, the thread ends in
`STATE_ERROR` and a well-formed message that follows in the stream is not
processed. -/
theorem message_validation_witness :
    (loop_receive common_sample (fresh common_sample) (msg_closed common_sample)).2 ≠ none ∧
    (thread_step common_sample (fresh common_sample) (msg_closed common_sample)).file_hdr
      = (fresh common_sample).file_hdr ∧
    (thread_step common_sample (fresh common_sample)
      (msg_closed common_sample)).get_live_data_state = live_state_t.STATE_ERROR ∧
    get_live_data_loop common_sample (fresh common_sample)
      [msg_closed common_sample, msg_ok common_sample 0]
      = thread_step common_sample (fresh common_sample) (msg_closed common_sample) :=
  ⟨by decide,
    ((message_validation common_sample (fresh common_sample) (msg_closed common_sample)
      [msg_ok common_sample 0]).2.2 (by decide)).2.1,
    ((message_validation common_sample (fresh common_sample) (msg_closed common_sample)
      [msg_ok common_sample 0]).2.2 (by decide)).2.2.2.2.1,
    ((message_validation common_sample (fresh common_sample) (msg_closed common_sample)
      [msg_ok common_sample 0]).2.2 (by decide)).2.2.2.2.2.2⟩

/-! ## The camera merge and the strip of camera data -/

theorem get_u32_put_u32 (b : Bytes) (off v : Nat) :
    get_u32 (put_u32 b off v) off = v % 2 ^ 32 := by
  simp only [get_u32, put_u32]
  norm_num
  omega

theorem get_u32_congr (b1 b2 : Bytes) (off : Nat)
    (h : ∀ i, i < 4 → b1 (off + i) = b2 (off + i)) : get_u32 b1 off = get_u32 b2 off := by
  simp only [get_u32]
  rw [← h 1 (by omega), ← h 2 (by omega), ← h 3 (by omega)]
  have h0 := h 0 (by omega)
  rw [Nat.add_zero] at h0
  rw [h0]

theorem stored_payload_commit (c : Common) (s : State) (e : Iter)
    (hx : (loop_pass c s e).exit = none) (j : Nat)
    (hj : j < (loop_record c (loop_receive c s e).1 e).data_part2_length) :
    stored_payload (loop_pass c s e).state s.file_hdr.max j
      = loop_payload c (loop_receive c s e).1 e j := by
  obtain ⟨h1, h2, -, h4⟩ := loop_pass_commit c s e hx
  unfold stored_payload
  rw [h1, h2, h4]
  simp only [memcpy]
  rw [if_pos ⟨by omega, by omega⟩]
  congr 1
  omega

theorem loop_receive_state (c : Common) (s : State) (e : Iter)
    (h : (loop_receive c s e).2 = none) :
    (loop_receive c s e).1.opt_no_cam = s.opt_no_cam ∧
    (loop_receive c s e).1.offset = s.offset ∧
    (loop_receive c s e).1.data_part2
      = memcpy s.data_part2 0 e.recv2 e.recv1.data_part2_length := by
  have hf := loop_receive_frame c s e
  have hp : loop_receive c s e = ((loop_receive c s e).1, none) := by
    rw [← h]
  obtain ⟨h0, -, -, -, -, h5, -⟩ := loop_receive_none c s _ e hp
  refine ⟨hf.2.2.2.2.2.2.2.2.1, hf.2.2.2.2.1, ?_⟩
  rw [h0]
  simp only [recv_data_part2, h5, Int.toNat_ofNat, min_self]

theorem loop_record_merged (c : Common) (s : State) (e : Iter)
    (hcam : s.opt_no_cam = false) (hv : e.recv1.data_part2_jpeg_buff_valid = false)
    (hf : cam_fresh e) :
    loop_record c s e =
      { e.recv1 with
        data_part2_jpeg_buff_valid := true
        data_part2_length := c.sizeof_data_part2_s + e.jpeg_buff_len
        data_part2_offset := s.offset } ∧
    loop_payload c s e =
      put_u32 (memcpy s.data_part2 c.sizeof_data_part2_s e.jpeg_buff e.jpeg_buff_len)
        c.offsetof_jpeg_buff_len e.jpeg_buff_len := by
  unfold loop_record loop_payload
  rw [merge_cam_fresh c e _ _ hv hf]
  simp only [strip_cam, hcam]
  exact ⟨rfl, rfl⟩

theorem merge_cam_skip (c : Common) (e : Iter) (d : data_part1_s) (b : Bytes)
    (h : d.data_part2_jpeg_buff_valid = true ∨ ¬ cam_fresh e) : merge_cam c e d b = (d, b) := by
  unfold merge_cam
  rcases h with h | h
  · rw [if_neg (by rw [h]; decide)]
  · split_ifs with h1 h2
    · exact absurd h2 h
    · rfl
    · rfl

theorem loop_record_plain (c : Common) (s : State) (e : Iter)
    (hcam : s.opt_no_cam = false)
    (h : e.recv1.data_part2_jpeg_buff_valid = true ∨ ¬ cam_fresh e) :
    loop_record c s e = { e.recv1 with data_part2_offset := s.offset } ∧
    loop_payload c s e = s.data_part2 := by
  unfold loop_record loop_payload
  rw [merge_cam_skip c e _ _ h]
  simp only [strip_cam, hcam]
  exact ⟨rfl, rfl⟩

theorem loop_record_stripped (c : Common) (s : State) (e : Iter)
    (hcam : s.opt_no_cam = true) :
    (loop_record c s e).data_part2_jpeg_buff_valid = false ∧
    (loop_record c s e).data_part2_length = c.sizeof_data_part2_s ∧
    loop_payload c s e =
      put_u32 (merge_cam c e e.recv1 s.data_part2).2 c.offsetof_jpeg_buff_len 0 := by
  unfold loop_record loop_payload
  simp only [strip_cam, hcam]
  exact ⟨rfl, rfl, rfl⟩

/-- C22: with the camera enabled (`opt_no_cam` clear), for a pass that appends its
message into slot `file_hdr->max`: when the received record has
`data_part2_jpeg_buff_valid` clear and the camera slot is fresh (line 566; for a slot
time not after the timer this is `microsec_timer() - jpeg_buff_us < 1000000`), the
appended record is the received one with the flag set, the length
`sizeof(struct data_part2_s) + jpeg_buff_len` and the offset assigned; in the stored
payload the `jpeg_buff_len` field holds the camera slot's length (as a 32-bit value)
and the image bytes behind the fixed part are the camera slot's buffer.  When the received flag is set or
the slot is not fresh, the appended record is the received one with the offset
assigned and the stored payload is the received payload. -/
theorem merge_rule (c : Common) (hc : c.wf) (s : State) (e : Iter)
    (hcam : s.opt_no_cam = false) (hx : (loop_pass c s e).exit = none) :
    (e.recv1.data_part2_jpeg_buff_valid = false → cam_fresh e →
      (loop_pass c s e).state.file_data_part1 s.file_hdr.max =
        { e.recv1 with
          data_part2_jpeg_buff_valid := true
          data_part2_length := c.sizeof_data_part2_s + e.jpeg_buff_len
          data_part2_offset := s.offset } ∧
      get_u32 (stored_payload (loop_pass c s e).state s.file_hdr.max) c.offsetof_jpeg_buff_len
        = e.jpeg_buff_len % 2 ^ 32 ∧
      (∀ i, i < e.jpeg_buff_len →
        stored_payload (loop_pass c s e).state s.file_hdr.max (c.sizeof_data_part2_s + i)
          = e.jpeg_buff i)) ∧
    (e.recv1.data_part2_jpeg_buff_valid = true ∨ ¬ cam_fresh e →
      (loop_pass c s e).state.file_data_part1 s.file_hdr.max =
        { e.recv1 with data_part2_offset := s.offset } ∧
      (∀ i, i < e.recv1.data_part2_length →
        stored_payload (loop_pass c s e).state s.file_hdr.max i = e.recv2 i)) ∧
    (e.jpeg_buff_us ≤ e.microsec_timer → e.microsec_timer < 2 ^ 64 →
      (cam_fresh e ↔ e.microsec_timer - e.jpeg_buff_us < 1000000)) := by
  obtain ⟨hno, hoff, hbuf⟩ := loop_receive_state c s e (loop_pass_exit_none c s e hx)
  obtain ⟨hslot, -, -, -⟩ := loop_pass_commit c s e hx
  obtain ⟨-, -, h8, h12, -, -, -⟩ := hc
  refine ⟨?_, ?_, ?_⟩
  · intro hv hf
    obtain ⟨hrec, hpay⟩ := loop_record_merged c (loop_receive c s e).1 e (hno.trans hcam) hv hf
    have hlen : (loop_record c (loop_receive c s e).1 e).data_part2_length
        = c.sizeof_data_part2_s + e.jpeg_buff_len := by rw [hrec]
    refine ⟨by rw [hslot, hrec, hoff], ?_, ?_⟩
    · rw [get_u32_congr _ (loop_payload c (loop_receive c s e).1 e) _
        (fun i hi => stored_payload_commit c s e hx _ (by rw [hlen]; omega))]
      rw [hpay, get_u32_put_u32]
    · intro i hi
      rw [stored_payload_commit c s e hx _ (by rw [hlen]; omega), hpay]
      simp only [put_u32, memcpy]
      rw [if_neg (by omega), if_pos ⟨by omega, by omega⟩]
      congr 1
      omega
  · intro h
    obtain ⟨hrec, hpay⟩ := loop_record_plain c (loop_receive c s e).1 e (hno.trans hcam) h
    have hlen : (loop_record c (loop_receive c s e).1 e).data_part2_length
        = e.recv1.data_part2_length := by rw [hrec]
    refine ⟨by rw [hslot, hrec, hoff], ?_⟩
    intro i hi
    rw [stored_payload_commit c s e hx _ (by rw [hlen]; exact hi), hpay, hbuf]
    simp only [memcpy]
    rw [if_pos ⟨Nat.zero_le _, by omega⟩]
    rfl
  · intro h1 h2
    unfold cam_fresh
    have : (e.microsec_timer + 2 ^ 64 - e.jpeg_buff_us) % 2 ^ 64
        = e.microsec_timer - e.jpeg_buff_us := by
      have h3 : e.microsec_timer + 2 ^ 64 - e.jpeg_buff_us
          = (e.microsec_timer - e.jpeg_buff_us) + 2 ^ 64 := by omega
      rw [h3, Nat.add_mod_right, Nat.mod_eq_of_lt (by omega)]
    rw [this]

/-- C22, instance of `merge_rule`: on a fresh log with the camera enabled, a message
without image arrives while the camera slot, stored half a second before, holds a
four-byte capture: the appended record has the image flag set and the length 20. -/
theorem merge_rule_witness :
    common_sample.wf ∧ (fresh common_sample).opt_no_cam = false ∧
    (loop_pass common_sample (fresh common_sample) (msg_cam common_sample 0 4)).exit = none ∧
    ((loop_pass common_sample (fresh common_sample)
      (msg_cam common_sample 0 4)).state.file_data_part1 0).data_part2_jpeg_buff_valid = true ∧
    ((loop_pass common_sample (fresh common_sample)
      (msg_cam common_sample 0 4)).state.file_data_part1 0).data_part2_length = 20 ∧
    get_u32 (stored_payload (loop_pass common_sample (fresh common_sample)
      (msg_cam common_sample 0 4)).state 0) 8 = 4 :=
  ⟨common_sample_wf, by decide, by decide,
    congrArg data_part1_s.data_part2_jpeg_buff_valid
      ((merge_rule common_sample common_sample_wf (fresh common_sample)
        (msg_cam common_sample 0 4) (by decide) (by decide)).1 (by decide) (by decide)).1,
    congrArg data_part1_s.data_part2_length
      ((merge_rule common_sample common_sample_wf (fresh common_sample)
        (msg_cam common_sample 0 4) (by decide) (by decide)).1 (by decide) (by decide)).1,
    ((merge_rule common_sample common_sample_wf (fresh common_sample)
      (msg_cam common_sample 0 4) (by decide) (by decide)).1 (by decide) (by decide)).2.1⟩

theorem thread_step_opt_no_cam (c : Common) (s : State) (e : Iter) :
    (thread_step c s e).opt_no_cam = s.opt_no_cam := by
  unfold thread_step
  split_ifs
  · exact (loop_pass_flags c s e).2.1
  · exact (loop_pass_flags c s e).2.1

theorem stripped_pass (c : Common) (s : State) (e : Iter)
    (hno : s.opt_no_cam = true) (hx : (loop_pass c s e).exit = none) :
    ((loop_pass c s e).state.file_data_part1 s.file_hdr.max).data_part2_jpeg_buff_valid
      = false ∧
    ((loop_pass c s e).state.file_data_part1 s.file_hdr.max).data_part2_length
      = c.sizeof_data_part2_s := by
  obtain ⟨hcam, -, -⟩ := loop_receive_state c s e (loop_pass_exit_none c s e hx)
  obtain ⟨hslot, -, -, -⟩ := loop_pass_commit c s e hx
  obtain ⟨h1, h2, -⟩ := loop_record_stripped c (loop_receive c s e).1 e (hcam.trans hno)
  rw [hslot]
  exact ⟨h1, h2⟩

theorem reachable_stripped (c : Common) (t : State) (h : Reachable c t) :
    t.opt_no_cam = true → ∀ i, i < t.file_hdr.max →
      (t.file_data_part1 i).data_part2_jpeg_buff_valid = false ∧
      (t.file_data_part1 i).data_part2_length = c.sizeof_data_part2_s := by
  induction h with
  | start nc =>
    intro _ i hi
    exact absurd hi (Nat.not_lt_zero _)
  | pass s e _ _ ih =>
    intro hno i hi
    rw [thread_step_opt_no_cam] at hno
    rw [thread_step_max] at hi
    rw [(thread_step_log c s e).1]
    have hmax := loop_pass_max c s e
    by_cases hx : (loop_pass c s e).exit = none
    · rw [if_pos hx] at hmax
      by_cases him : i = s.file_hdr.max
      · rw [him]
        exact stripped_pass c s e hno hx
      · rw [(loop_pass_log c s e).1 i him]
        exact ih hno i (by omega)
    · rw [if_neg hx] at hmax
      rw [(loop_pass_log c s e).1 i (by omega)]
      exact ih hno i (by omega)
  | nav s k _ ih =>
    intro hno i hi
    have hl := display_handler_event_log s k
    rw [hl.1] at hi
    rw [hl.2.1]
    refine ih ?_ i hi
    rw [← hno]
    cases k <;> simp only [display_handler_event, nav_left, nav_right] <;> (try split_ifs) <;> rfl

/-- C23: when `opt_no_cam` is set, every pass that appends its message, whether the
message carried an image or not and whatever the camera slot holds, stores a record
with `data_part2_jpeg_buff_valid` clear and `data_part2_length`
`sizeof(struct data_part2_s)`, and a payload whose `jpeg_buff_len` field is 0; and in
every state reached from a log created with `opt_no_cam` set, every committed record
has the flag clear and that length. -/
theorem strip_rule (c : Common) (hc : c.wf) :
    (∀ (s : State) (e : Iter), s.opt_no_cam = true → (loop_pass c s e).exit = none →
      ((loop_pass c s e).state.file_data_part1 s.file_hdr.max).data_part2_jpeg_buff_valid
        = false ∧
      ((loop_pass c s e).state.file_data_part1 s.file_hdr.max).data_part2_length
        = c.sizeof_data_part2_s ∧
      get_u32 (stored_payload (loop_pass c s e).state s.file_hdr.max) c.offsetof_jpeg_buff_len
        = 0) ∧
    (∀ t : State, Reachable c t → t.opt_no_cam = true → ∀ i, i < t.file_hdr.max →
      (t.file_data_part1 i).data_part2_jpeg_buff_valid = false ∧
      (t.file_data_part1 i).data_part2_length = c.sizeof_data_part2_s) := by
  refine ⟨?_, reachable_stripped c⟩
  intro s e hno hx
  obtain ⟨hcam, -, -⟩ := loop_receive_state c s e (loop_pass_exit_none c s e hx)
  obtain ⟨-, h2, hpay⟩ := loop_record_stripped c (loop_receive c s e).1 e (hcam.trans hno)
  obtain ⟨-, -, -, h12, -, -, -⟩ := hc
  refine ⟨(stripped_pass c s e hno hx).1, (stripped_pass c s e hno hx).2, ?_⟩
  rw [get_u32_congr _ (loop_payload c (loop_receive c s e).1 e) _
    (fun i hi => stored_payload_commit c s e hx _ (by rw [h2]; omega))]
  rw [hpay, get_u32_put_u32, Nat.zero_mod]

/-- C23, instance of `strip_rule`: on a fresh log created with `opt_no_cam` set, a
message that carries a four-byte image is appended with the image flag clear, the
length 16 and a `jpeg_buff_len` field of 0. -/
theorem strip_rule_witness :
    common_sample.wf ∧
    (msg_image common_sample 0 16).recv1.data_part2_jpeg_buff_valid = true ∧
    (loop_pass common_sample (thread_start common_sample (created common_sample true))
      (msg_image common_sample 0 16)).exit = none ∧
    ((loop_pass common_sample (thread_start common_sample (created common_sample true))
      (msg_image common_sample 0 16)).state.file_data_part1 0).data_part2_jpeg_buff_valid
      = false ∧
    ((loop_pass common_sample (thread_start common_sample (created common_sample true))
      (msg_image common_sample 0 16)).state.file_data_part1 0).data_part2_length = 16 ∧
    get_u32 (stored_payload (loop_pass common_sample
      (thread_start common_sample (created common_sample true))
      (msg_image common_sample 0 16)).state 0) 8 = 0 :=
  ⟨common_sample_wf, by decide, by decide,
    ((strip_rule common_sample common_sample_wf).1 _ _ (by decide) (by decide)).1,
    ((strip_rule common_sample common_sample_wf).1 _ _ (by decide) (by decide)).2.1,
    ((strip_rule common_sample common_sample_wf).1 _ _ (by decide) (by decide)).2.2⟩

/-! ## The layout of the file: header, index array, payload heap -/

/-- C24: under every platform layout in which the alignments of `uint64_t` and
`uint32_t` are powers of two not above their sizes, the members of `file_hdr_t` lie at
the offsets 0 (`magic`, 8 bytes), 8 (`start_time`, 8 bytes), 16 (`max`, 4 bytes) and 20
(`reserved`, 4076 bytes), `sizeof(file_hdr_t)` is 4096, and so the index array, which
is mapped at the file offset `sizeof(file_hdr_t)`, begins at byte 4096; this is the
header size that `FILE_DATA_PART2_OFFSET` counts with. -/
theorem header_layout (a : Abi) (h : a.wf) (c : Common) :
    struct_offsets 0 (file_hdr_t_members a) = [0, 8, 16, 20] ∧
    (file_hdr_t_members a).map member.size = [8, 8, 4, 4076] ∧
    sizeof_file_hdr_t a = 4096 ∧
    file_data_part1_offset a = 4096 ∧
    FILE_DATA_PART2_OFFSET c =
      (sizeof_file_hdr_t a + c.sizeof_data_part1_s * MAX_FILE_DATA_PART1 + 0x1000)
        &&& 0xfffffffffffff000 := by
  have hsize : sizeof_file_hdr_t a = 4096 := by
    obtain ⟨a64, a32⟩ := a
    simp only [Abi.wf, List.mem_cons, List.mem_singleton, List.not_mem_nil, or_false] at h
    rcases h with ⟨rfl | rfl | rfl | rfl, rfl | rfl | rfl⟩ <;> decide
  refine ⟨?_, rfl, hsize, hsize, ?_⟩
  · obtain ⟨a64, a32⟩ := a
    simp only [Abi.wf, List.mem_cons, List.mem_singleton, List.not_mem_nil, or_false] at h
    rcases h with ⟨rfl | rfl | rfl | rfl, rfl | rfl | rfl⟩ <;> decide
  · rw [hsize]
    rfl

/-- C24, instance of `header_layout`: the layout with 8-byte aligned `uint64_t` and
4-byte aligned `uint32_t`. -/
theorem header_layout_witness :
    Abi.wf ⟨8, 4⟩ ∧ struct_offsets 0 (file_hdr_t_members ⟨8, 4⟩) = [0, 8, 16, 20] ∧
    file_data_part1_offset ⟨8, 4⟩ = 4096 :=
  ⟨by decide, (header_layout ⟨8, 4⟩ (by decide) common_sample).1,
    (header_layout ⟨8, 4⟩ (by decide) common_sample).2.2.2.1⟩

/-- C25 fails as stated: the macro is evaluated in 64-bit arithmetic, and for an index
record of 213503982334602 bytes the sum `4096 + s * 86400 + 0x1000` exceeds 64 bits, so
that the value of `FILE_DATA_PART2_OFFSET` is 65536, which is below the end
`4096 + s * 86400` of the index array. -/
theorem heap_start_wraps :
    common_huge.sizeof_data_part1_s < 2 ^ 64 ∧
    FILE_DATA_PART2_OFFSET common_huge = 65536 ∧
    ¬ (4096 + common_huge.sizeof_data_part1_s * MAX_FILE_DATA_PART1
        < FILE_DATA_PART2_OFFSET common_huge) :=
  ⟨by decide, by decide, by decide⟩

theorem LogInv_offset_ge (c : Common) (s : State) (h : LogInv c s) :
    ∀ i, i < s.file_hdr.max →
      FILE_DATA_PART2_OFFSET c ≤ (s.file_data_part1 i).data_part2_offset := by
  intro i
  induction i with
  | zero =>
    intro hi
    rw [h.first hi]
  | succ n ih =>
    intro hi
    rw [h.contiguous n hi]
    exact le_trans (ih (by omega)) (Nat.le_add_right _ _)

/-- C25, as amended: for every index-record size `s` for which the 64-bit sum
`4096 + s * 86400 + 0x1000` does not wrap (every `s` below 2^32 is one), the value of
`FILE_DATA_PART2_OFFSET` is a multiple of 4096 with `end < FILE_DATA_PART2_OFFSET` and
`FILE_DATA_PART2_OFFSET <= end + 4096`, where `end = 4096 + s * 86400` is the end of
the index array; so it is not zero, and in every reachable state the offset of the
next payload write and the payload offset of every committed record are at or above
it, beyond the header and the index array. -/
theorem heap_start_alignment (c : Common)
    (h : 4096 + c.sizeof_data_part1_s * MAX_FILE_DATA_PART1 + 0x1000 < 2 ^ 64) :
    4096 ∣ FILE_DATA_PART2_OFFSET c ∧
    4096 + c.sizeof_data_part1_s * MAX_FILE_DATA_PART1 < FILE_DATA_PART2_OFFSET c ∧
    FILE_DATA_PART2_OFFSET c ≤ 4096 + c.sizeof_data_part1_s * MAX_FILE_DATA_PART1 + 4096 ∧
    FILE_DATA_PART2_OFFSET c ≠ 0 ∧
    (∀ s : State, Reachable c s →
      4096 + c.sizeof_data_part1_s * MAX_FILE_DATA_PART1 < s.offset ∧
      ∀ i, i < s.file_hdr.max →
        4096 + c.sizeof_data_part1_s * MAX_FILE_DATA_PART1
          < (s.file_data_part1 i).data_part2_offset) := by
  have hF : FILE_DATA_PART2_OFFSET c =
      (4096 + c.sizeof_data_part1_s * MAX_FILE_DATA_PART1 + 0x1000) / 4096 * 4096 :=
    land_page_mask _ h
  have hlt : 4096 + c.sizeof_data_part1_s * MAX_FILE_DATA_PART1 < FILE_DATA_PART2_OFFSET c := by
    rw [hF]
    omega
  refine ⟨?_, hlt, ?_, by omega, ?_⟩
  · rw [hF]
    exact Dvd.intro_left _ rfl
  · rw [hF]
    omega
  · intro s hs
    have hinv := reachable_LogInv c s hs
    refine ⟨lt_of_lt_of_le hlt hinv.base, ?_⟩
    intro i hi
    exact lt_of_lt_of_le hlt (LogInv_offset_ge c s hinv i hi)

/-- C25, instance of `heap_start_alignment`: for the 96-byte index record the index
array ends at byte 8298496 and the payload heap starts at byte 8302592. -/
theorem heap_start_alignment_witness :
    4096 + common_sample.sizeof_data_part1_s * MAX_FILE_DATA_PART1 + 0x1000 < 2 ^ 64 ∧
    4096 + common_sample.sizeof_data_part1_s * MAX_FILE_DATA_PART1 = 8298496 ∧
    FILE_DATA_PART2_OFFSET common_sample = 8302592 ∧
    4096 ∣ FILE_DATA_PART2_OFFSET common_sample :=
  ⟨by decide, by decide, by decide, (heap_start_alignment common_sample (by decide)).1⟩

/-! ## The time warning -/

theorem loop_write_last_time (s : State) (d : data_part1_s) (w : Int) :
    (loop_write s d w).1.last_time = s.last_time := by
  unfold loop_write
  split_ifs <;> simp

theorem loop_pass_warn (c : Common) (s : State) (e : Iter)
    (h : (loop_receive c s e).2 = none) :
    (loop_pass c s e).warn = loop_warn c (loop_receive c s e).1 e ∧
    (loop_pass c s e).state.last_time = e.recv1.time ∧
    (loop_pass c s e).exit
      = (loop_write (loop_ready c (loop_receive c s e).1 e)
          (loop_record c (loop_receive c s e).1 e) e.pwrite_len).2 := by
  unfold loop_pass
  rcases hr : loop_receive c s e with ⟨s1, _ | x⟩
  · refine ⟨rfl, ?_, rfl⟩
    simp only [loop_write_last_time, loop_ready_time, loop_record_time]
  · rw [hr] at h
    simp at h

theorem loop_pass_warn_start (c : Common) (s : State) (e : Iter)
    (h : s.last_time = 2 ^ 64 - 1) : (loop_pass c s e).warn = false := by
  cases hr : (loop_receive c s e).2 with
  | none =>
    rw [(loop_pass_warn c s e hr).1]
    unfold loop_warn
    rw [(loop_receive_frame c s e).2.2.2.2.2.2.2.2.2, h]
    simp
  | some x =>
    rw [loop_pass_receive_some c s e x hr]

/-- C27 fails as stated.  After a record with the time 2^64 - 1 has been appended, the
record with the time 5 is appended without a warning, although a previous record was
processed and 5 is not its time plus one: `last_time` then holds the value that stands
for "no previous record".  And a message that passes validation but whose payload
write fails is not appended: `file_hdr->max` stays 0. -/
theorem cadence_sentinel_and_failed_write :
    (loop_pass common_sample (fresh common_sample) (msg_ok common_sample (2 ^ 64 - 1))).exit
      = none ∧
    (loop_receive common_sample
      (loop_pass common_sample (fresh common_sample) (msg_ok common_sample (2 ^ 64 - 1))).state
      (msg_ok common_sample 5)).2 = none ∧
    (loop_pass common_sample
      (loop_pass common_sample (fresh common_sample) (msg_ok common_sample (2 ^ 64 - 1))).state
      (msg_ok common_sample 5)).warn = false ∧
    (loop_receive common_sample (fresh common_sample) (msg_enospc common_sample 0)).2 = none ∧
    (loop_pass common_sample (fresh common_sample) (msg_enospc common_sample 0)).exit
      = some loop_exit.write_data_part2_len ∧
    (loop_pass common_sample (fresh common_sample)
      (msg_enospc common_sample 0)).state.file_hdr.max = 0 :=
  ⟨by decide, by decide, by decide, by decide, by decide, by decide⟩

/-- C27, as amended: the first pass of the thread prints no time warning.  After a
pass that appended a record, a pass whose message passes validation prints the warning
exactly when the time of the previous record is not 2^64 - 1 (the value of `last_time`
that stands for "no previous record") and the time of the current record is not the
previous time plus one.  Warning or not, the message that passed validation is written,
and it is appended (`file_hdr->max` grows by one and the slot holds the record) exactly
when `pwrite` returns the length of the record. -/
theorem cadence_check (c : Common) (s : State) (e1 e2 : Iter) :
    (∀ s0 : State, (loop_pass c (thread_start c s0) e1).warn = false) ∧
    ((loop_pass c s e1).exit = none →
      (loop_receive c (loop_pass c s e1).state e2).2 = none →
      ((loop_pass c (loop_pass c s e1).state e2).warn = true ↔
        (e1.recv1.time ≠ 2 ^ 64 - 1 ∧ e2.recv1.time ≠ e1.recv1.time + 1))) ∧
    ((loop_receive c s e1).2 = none →
      ((loop_pass c s e1).exit = none ↔
        e1.pwrite_len
          = ((loop_record c (loop_receive c s e1).1 e1).data_part2_length : Int)) ∧
      ((loop_pass c s e1).exit = none →
        (loop_pass c s e1).state.file_hdr.max = s.file_hdr.max + 1 ∧
        (loop_pass c s e1).state.file_data_part1 s.file_hdr.max
          = loop_record c (loop_receive c s e1).1 e1)) := by
  refine ⟨fun s0 => loop_pass_warn_start c _ e1 rfl, ?_, ?_⟩
  · intro hx h2
    have h1 := (loop_pass_warn c s e1 (loop_pass_exit_none c s e1 hx)).2.1
    rw [(loop_pass_warn c _ e2 h2).1]
    unfold loop_warn
    rw [(loop_receive_frame c _ e2).2.2.2.2.2.2.2.2.2, h1, loop_record_time]
    simp
  · intro hr
    refine ⟨?_, ?_⟩
    · rw [(loop_pass_warn c s e1 hr).2.2]
      exact loop_write_none _ _ _
    · intro hx
      have hmax := loop_pass_max c s e1
      rw [if_pos hx] at hmax
      exact ⟨hmax, (loop_pass_commit c s e1 hx).1⟩

/-- C27, instance of `cadence_check`: after the record with time 0 the record with
time 7 is appended with a warning. -/
theorem cadence_check_witness :
    (loop_pass common_sample (fresh common_sample) (msg_ok common_sample 0)).exit = none ∧
    (loop_pass common_sample
      (loop_pass common_sample (fresh common_sample) (msg_ok common_sample 0)).state
      (msg_ok common_sample 7)).warn = true ∧
    (loop_pass common_sample
      (loop_pass common_sample (fresh common_sample) (msg_ok common_sample 0)).state
      (msg_ok common_sample 7)).exit = none :=
  ⟨by decide,
    ((cadence_check common_sample (fresh common_sample) (msg_ok common_sample 0)
      (msg_ok common_sample 7)).2.1 (by decide) (by decide)).mpr ⟨by decide, by decide⟩,
    by decide⟩

/-! ## A failed payload write -/

/-- C29: when the `pwrite` of a pass returns a count different from the length of the
record (the pass ends in `break` at line 598), `file_hdr->max`, the thread's heap
offset, the end of the committed heap, every index record in a slot below
`file_hdr->max` and every file byte below the heap offset are as before the pass, and
the thread ends in `STATE_ERROR` with mode `PLAYBACK`; a pass whose message passed
validation ends in this way exactly when `pwrite` returns another count. -/
theorem failed_write_atomic (c : Common) (s : State) (e : Iter)
    (hx : (loop_pass c s e).exit = some loop_exit.write_data_part2_len) :
    (thread_step c s e).file_hdr = s.file_hdr ∧
    (thread_step c s e).offset = s.offset ∧
    heap_tail c (thread_step c s e) = heap_tail c s ∧
    (∀ i, i < s.file_hdr.max → (thread_step c s e).file_data_part1 i = s.file_data_part1 i) ∧
    (∀ j, j < s.offset → (thread_step c s e).file_bytes j = s.file_bytes j) ∧
    (thread_step c s e).get_live_data_state = live_state_t.STATE_ERROR ∧
    (thread_step c s e).mode = mode_t.PLAYBACK ∧
    ((loop_receive c s e).2 = none ∧
      e.pwrite_len ≠ ((loop_record c (loop_receive c s e).1 e).data_part2_length : Int)) := by
  have hne : (loop_pass c s e).exit ≠ none := by rw [hx]; simp
  have hsome : (loop_pass c s e).exit.isSome = true := by rw [hx]; rfl
  obtain ⟨hslots, hbytes, -, hoff, -⟩ := loop_pass_log c s e
  obtain ⟨hl1, hl2, -, hl4⟩ := thread_step_log c s e
  have hmax := loop_pass_max c s e
  rw [if_neg hne] at hmax
  have hstep : thread_step c s e = thread_exit (loop_pass c s e).state := by
    unfold thread_step
    rw [if_pos hsome]
  have hr : (loop_receive c s e).2 = none := by
    cases hr : (loop_receive c s e).2 with
    | none => rfl
    | some x =>
      have hp := loop_pass_receive_some c s e x hr
      rw [hp] at hx
      simp only [Option.some.injEq] at hx
      have h6 := hr
      unfold loop_receive at h6
      split_ifs at h6 <;> simp_all
  have hhdr : (thread_step c s e).file_hdr = s.file_hdr := by
    rw [hstep]
    show (loop_pass c s e).state.file_hdr = s.file_hdr
    unfold loop_pass
    rcases hrr : loop_receive c s e with ⟨s1, _ | x⟩
    · have hf := loop_receive_frame c s e
      rw [hrr] at hf
      have hw : (loop_write (loop_ready c s1 e) (loop_record c s1 e) e.pwrite_len).2 ≠ none := by
        have := (loop_pass_warn c s e hr).2.2
        rw [hrr] at this
        rw [← this]
        exact hne
      simp only []
      unfold loop_write
      unfold loop_write at hw
      split_ifs at hw ⊢ with h1
      · simp only [pwrite_file_hdr, store_data_part1_file_hdr, loop_ready_file_hdr]
        exact hf.1
      · exact absurd rfl hw
    · rw [hrr] at hr
      simp at hr
  refine ⟨hhdr, ?_, ?_, ?_, ?_, ?_, ?_, hr, ?_⟩
  · rw [hl4]; exact hoff hne
  · unfold heap_tail
    rw [hhdr]
    by_cases h0 : s.file_hdr.max = 0
    · rw [if_pos h0, if_pos h0]
    · rw [if_neg h0, if_neg h0, hl1, hslots _ (by omega)]
  · intro i hi
    rw [hl1]
    exact hslots i (by omega)
  · intro j hj
    rw [hl2]
    exact hbytes j hj
  · rw [hstep]; rfl
  · rw [hstep]; rfl
  · intro hw
    apply hne
    rw [(loop_pass_warn c s e hr).2.2]
    exact (loop_write_none _ _ _).mpr hw

/-- C29, instance of `failed_write_atomic`: on the log that holds one record the
`pwrite` of the second message fails; the counter stays 1, record 0 is as before and
the thread is in `STATE_ERROR`. -/
theorem failed_write_atomic_witness :
    (loop_pass common_sample (ingested common_sample 1) (msg_enospc common_sample 1)).exit
      = some loop_exit.write_data_part2_len ∧
    (thread_step common_sample (ingested common_sample 1)
      (msg_enospc common_sample 1)).file_hdr = (ingested common_sample 1).file_hdr ∧
    (thread_step common_sample (ingested common_sample 1)
      (msg_enospc common_sample 1)).get_live_data_state = live_state_t.STATE_ERROR :=
  ⟨by decide,
    (failed_write_atomic common_sample (ingested common_sample 1) (msg_enospc common_sample 1)
      (by decide)).1,
    (failed_write_atomic common_sample (ingested common_sample 1) (msg_enospc common_sample 1)
      (by decide)).2.2.2.2.2.1⟩

/-! ## The cache of read_data_part2 after a short read -/

/-- C28, evaluated on the code: on `tagged_log`, `read_data_part2(0)` with a complete
`pread` returns the payload of record 0 and caches index 0; `read_data_part2(1)` with
a `pread` that delivers 12 of the 16 bytes returns `NULL` and leaves index 0 cached,
but the 12 bytes of record 1 are now in the cache buffer; the next
`read_data_part2(0)` is a cache hit, makes no `pread`, and returns a buffer whose byte
8 is that of record 1 (2), not that of the stored payload of record 0 (1). -/
theorem short_read_clobbers_cache :
    tagged_log.file_hdr.max = 2 ∧
    (tagged_log.file_data_part1 0).data_part2_length = 16 ∧
    stored_payload tagged_log 0 8 = 1 ∧
    stored_payload tagged_log 1 8 = 2 ∧
    (read_data_part2 common_sample tagged_log Reader.init 0 16).1.byte 8 = some 1 ∧
    (read_data_part2 common_sample tagged_log Reader.init 0 16).2.last_read_file_idx = 0 ∧
    (read_data_part2 common_sample tagged_log
      (read_data_part2 common_sample tagged_log Reader.init 0 16).2 1 12).1.kind = 0 ∧
    (read_data_part2 common_sample tagged_log
      (read_data_part2 common_sample tagged_log Reader.init 0 16).2 1 12).2.last_read_file_idx
      = 0 ∧
    (read_data_part2 common_sample tagged_log
      (read_data_part2 common_sample tagged_log Reader.init 0 16).2 1 12).2.last_read_data_part2
      8 = 2 ∧
    (read_data_part2_traced common_sample tagged_log
      (read_data_part2 common_sample tagged_log
        (read_data_part2 common_sample tagged_log Reader.init 0 16).2 1 12).2 0 16).2.2.pread
      = none ∧
    (read_data_part2 common_sample tagged_log
      (read_data_part2 common_sample tagged_log
        (read_data_part2 common_sample tagged_log Reader.init 0 16).2 1 12).2 0 16).1.byte 8
      = some 2 :=
  ⟨by decide, by decide, by decide, by decide, by decide, by decide, by decide, by decide,
    by decide, by decide, by decide⟩

/-! ## The check at the top of the display loop -/

/-- C30, evaluated on the code: the file left behind by a live session whose first
payload write failed has a valid header with `max = 0` and a slot 0 that carries
`MAGIC_DATA_PART1`.  The start-up code accepts it in playback mode and sets
`file_idx_global = 0`; the check at the top of the display loop then fails
(`file_idx >= file_hdr->max`) and `FATAL` is called. -/
theorem display_check_fatal_on_accepted_file :
    Reachable common_sample failed_first_append ∧
    failed_first_append.file_hdr.magic = MAGIC_FILE ∧
    failed_first_append.file_hdr.max = 0 ∧
    (failed_first_append.file_data_part1 0).magic = common_sample.MAGIC_DATA_PART1 ∧
    (∀ env : live_setup, initialize_from_hdr common_sample mode_t.PLAYBACK
      failed_first_append.file_hdr failed_first_append.file_data_part1 env = 0) ∧
    (opened_for_playback failed_first_append).file_idx_global = 0 ∧
    display_handler_fetch common_sample (opened_for_playback failed_first_append) Reader.init
      (opened_for_playback failed_first_append).file_idx_global 0
      = (fetch_ret.FATAL_invalid_file_idx, Reader.init) := by
  refine ⟨Reachable.pass _ _ (fresh_reachable common_sample) rfl, by decide, by decide,
    by decide, ?_, rfl, ?_⟩
  · intro env
    unfold initialize_from_hdr
    rw [if_neg (by decide), if_neg (by simp), if_neg (by simp), if_neg (by simp),
      if_neg (by simp), if_neg (by simp), if_neg (by decide)]
  · unfold display_handler_fetch
    rw [if_pos (by decide)]

/-! ## The generator of test files and the append of live ingestion -/

theorem append_log (s : State) (d : data_part1_s) (b : Bytes) :
    (append s d b).file_data_part1 =
      (fun i => if i = s.file_hdr.max then { d with data_part2_offset := s.offset }
        else s.file_data_part1 i) ∧
    (append s d b).file_bytes = memcpy s.file_bytes s.offset b d.data_part2_length ∧
    (append s d b).file_size =
      (if d.data_part2_length = 0 then s.file_size
       else max s.file_size (s.offset + d.data_part2_length)) ∧
    (append s d b).offset = s.offset + d.data_part2_length ∧
    (append s d b).file_hdr = { s.file_hdr with max := s.file_hdr.max + 1 } := by
  unfold append loop_write
  rw [if_neg (by simp)]
  refine ⟨?_, ?_, ?_, ?_, ?_⟩
  · funext i
    simp
  · simp [pwrite]
  · simp [pwrite]
  · simp
  · unfold follow
    split_ifs <;> rfl

theorem test_jpeg_buff_len_le (x : TestInput)
    (h : x.open_ret < 0 ∨ (0 ≤ x.read_ret ∧ x.read_ret ≤ (TEST_JPEG_BUFF_SIZE : Int))) :
    test_jpeg_buff_len x ≤ TEST_JPEG_BUFF_SIZE := by
  unfold test_jpeg_buff_len
  rcases h with h | ⟨h0, h1⟩
  · rw [if_pos h]
    exact Nat.zero_le _
  · unfold TEST_JPEG_BUFF_SIZE at *
    split_ifs
    · exact Nat.zero_le _
    · rw [Int.emod_eq_of_lt h0 (by omega)]
      omega

theorem test_data_part2_some (c : Common) (x : TestInput) (dp2 : Bytes)
    (hb : test_jpeg_buff_len x ≤ TEST_JPEG_BUFF_SIZE)
    (hfit : c.sizeof_data_part2_s + test_jpeg_buff_len x ≤ MAX_DATA_PART2_LENGTH) :
    test_data_part2 c x dp2 = some (test_payload c x dp2) := by
  unfold test_data_part2
  rw [if_pos ⟨hb, hfit⟩]

theorem generate_loop_spec (c : Common) (x : TestInput) (n : Nat)
    (hb : test_jpeg_buff_len x ≤ TEST_JPEG_BUFF_SIZE)
    (hfit : c.sizeof_data_part2_s + test_jpeg_buff_len x ≤ MAX_DATA_PART2_LENGTH) :
    ∀ (k idx : Nat) (s t : State) (dp2 : Bytes),
      idx + k ≤ MAX_FILE_DATA_PART1 →
      (∀ j, idx ≤ j → j < idx + k →
        x.pwrite_len j = ((c.sizeof_data_part2_s + test_jpeg_buff_len x : Nat) : Int)) →
      s.file_data_part1 = t.file_data_part1 → s.file_bytes = t.file_bytes →
      s.file_size = t.file_size → t.file_hdr.max = idx →
      ∃ g : State, generate_loop c x n k idx s dp2 t.offset = some (g, true) ∧
        g.file_data_part1 = (append_all t (test_records c x n k idx dp2)).file_data_part1 ∧
        g.file_bytes = (append_all t (test_records c x n k idx dp2)).file_bytes ∧
        g.file_size = (append_all t (test_records c x n k idx dp2)).file_size ∧
        g.file_hdr = s.file_hdr ∧
        (append_all t (test_records c x n k idx dp2)).file_hdr
          = { t.file_hdr with max := idx + k } ∧
        (∀ j, idx ≤ j → j < idx + k →
          g.file_data_part1 j = test_data_part1 c x n j
            (t.offset + (j - idx) * (c.sizeof_data_part2_s + test_jpeg_buff_len x))) ∧
        (∀ j, j < idx → g.file_data_part1 j = s.file_data_part1 j) := by
  intro k
  induction k with
  | zero =>
    intro idx s t dp2 _ _ h1 h2 h3 h4
    refine ⟨s, rfl, h1, h2, h3, rfl, ?_, fun j hj1 hj2 => absurd hj2 (by omega),
      fun j _ => rfl⟩
    rw [← h4]
    rfl
  | succ k ih =>
    intro idx s t dp2 hcap hw h1 h2 h3 h4
    have hw0 := hw idx (le_refl _) (by omega)
    obtain ⟨a1, a2, a3, a4, a5⟩ :=
      append_log t (test_data_part1 c x n idx 0) (test_payload c x dp2)
    have hlen : ∀ o, (test_data_part1 c x n idx o).data_part2_length
        = c.sizeof_data_part2_s + test_jpeg_buff_len x := fun _ => rfl
    simp only [generate_loop, test_records, append_all]
    rw [if_neg (by omega), test_data_part2_some c x dp2 hb hfit]
    simp only []
    rw [if_neg (by rw [hlen, hw0]; simp)]
    have hoff : t.offset + (test_data_part1 c x n idx t.offset).data_part2_length
        = (append t (test_data_part1 c x n idx 0) (test_payload c x dp2)).offset := by
      rw [a4]
      rfl
    rw [hoff]
    have hmax : (append t (test_data_part1 c x n idx 0) (test_payload c x dp2)).file_hdr.max
        = idx + 1 := by
      rw [a5, ← h4]
    obtain ⟨g, r0, r1, r2, r3, r4, r5, r6, r7⟩ := ih (idx + 1)
      (pwrite { s with file_data_part1 := fun i =>
            if i = idx then test_data_part1 c x n idx t.offset else s.file_data_part1 i }
          (test_payload c x dp2) (test_data_part1 c x n idx t.offset).data_part2_length
          t.offset (x.pwrite_len idx))
      (append t (test_data_part1 c x n idx 0) (test_payload c x dp2))
      (test_payload c x dp2)
      (by omega)
      (fun j hj1 hj2 => hw j (by omega) (by omega))
      (by rw [a1, h4, ← h1]; rfl)
      (by
        rw [a2, pwrite_bytes, hw0]
        simp only [hlen, Int.toNat_ofNat, min_self]
        rw [h2])
      (by
        rw [a3, pwrite_size, hw0]
        simp only [hlen, Int.toNat_ofNat, min_self]
        rw [h3])
      hmax
    refine ⟨g, r0, r1, r2, r3, ?_, ?_, ?_, ?_⟩
    · rw [r4]
      rfl
    · rw [r5, a5]
      simp only [file_hdr_t.mk.injEq, and_true, true_and]
      omega
    · intro j hj1 hj2
      by_cases hj : j = idx
      · rw [r7 j (by omega), hj]
        simp
      · rw [r6 j (by omega) (by omega), a4, hlen]
        congr 1
        rw [show j - idx = (j - (idx + 1)) + 1 by omega, Nat.add_mul, Nat.one_mul]
        omega
    · intro j hj
      rw [r7 j (by omega)]
      simp only [pwrite_file_data_part1]
      rw [if_neg (by omega)]

/-- A failed `read` of the image sample file: when `open` succeeds and `read` returns
-1, `jpeg_buff_len` is 4294967295 and the first iteration copies that many bytes out of
the 200000-byte array; the run of `generate_test_file` is undefined. -/
theorem generate_test_file_read_error (c : Common) (x : TestInput) (n : Nat) (s : State)
    (hopen : 0 ≤ x.open_ret) (hread : x.read_ret = -1) (hn : 1 ≤ n) :
    test_jpeg_buff_len x = 4294967295 ∧ generate_test_file c x n s = none := by
  have hlen : test_jpeg_buff_len x = 4294967295 := by
    unfold test_jpeg_buff_len
    rw [if_neg (by omega), hread]
    decide
  have hdp2 : ∀ dp2, test_data_part2 c x dp2 = none := by
    intro dp2
    unfold test_data_part2
    rw [if_neg]
    rw [hlen]
    unfold TEST_JPEG_BUFF_SIZE
    omega
  refine ⟨hlen, ?_⟩
  obtain ⟨m, rfl⟩ : ∃ m, n = m + 1 := ⟨n - 1, by omega⟩
  unfold generate_test_file
  simp only [generate_loop]
  rw [if_neg (by decide), hdp2]

end Fusor
